import Mathlib

set_option linter.dupNamespace false
set_option linter.unusedVariables false

/-!
# Scene object management of gz-rendering: `BaseScene`

A shallow embedding of `src/src/base/BaseScene.cc` (class `ignition::rendering::BaseScene`).

* Unsigned 32-bit values (`unsigned int`) are natural numbers; arithmetic that can leave the
  range is reduced modulo `2^32` explicitly.
* `std::shared_ptr` handles are `Option`s: `none` is `nullptr`.
* The backend hooks (`LoadImpl`, `InitImpl`, `Create<Kind>Impl`) are pure virtual in the base
  class.  They are a parameter `Backend` of every operation: an oracle that sees the events
  observed so far, so a hook may answer differently on each call.
* Every observable action of an operation (a hook call, an id handed out, a store `Add`, a line
  written to `ignerr`) is appended to the ghost field `trace` of the state, so that "is invoked
  exactly once" and "is never called" are statements about the trace.
* A null dereference is a fault: fallible operations return `Option`, `none` being the fault.
-/

/-! ## Machine integers, strings -/

/-- Number of values of a C++ `unsigned int` (32 bits). -/
def UINT_SIZE : Nat := 4294967296

/-- Modelled from the spec: `ignition::math::MAX_UI16`, declared in ignition-math
(`Helpers.hh`, not under src/), is the "large value" the id counter is seeded with: the largest
16-bit unsigned integer. -/
def MAX_UI16 : Nat := 65535

/-- Post-decrement of an `unsigned int`: the value stored by `x--`, that is `x - 1` modulo
`2^32`: one less than `x`, and the largest value when `x` is zero (see `decr_eq_mod`). -/
def decr (x : Nat) : Nat := if x = 0 then 4294967295 else x - 1

/-- Decimal digits of `n`, least significant first; `fuel` bounds the number of digits. -/
def decimalDigits : Nat → Nat → List Nat
  | 0, _ => []
  | fuel + 1, n => if n < 10 then [n] else (n % 10) :: decimalDigits fuel (n / 10)

/-- Value of a list of decimal digits given least significant first. -/
def decimalValue : List Nat → Nat
  | [] => 0
  | d :: ds => d + 10 * decimalValue ds

/-- Model of `std::to_string(unsigned)`: the decimal digits of the value, most significant first,
as the characters `0` to `9`. -/
def to_string (n : Nat) : String :=
  String.mk (((decimalDigits (n + 1) n).reverse).map fun d => Char.ofNat (48 + d))

/-! ## Entities, stores, events -/

/-- The node kinds created by the `Create<K>` families of lines 473-660. -/
inductive Kind
  | DirectionalLight
  | PointLight
  | SpotLight
  | Camera
  | Visual
  | ArrowVisual
  | AxisVisual
deriving DecidableEq, Repr

/-- The kinds created without registration in a scene store: an id, a default name, the
factory (lines 663-700, 728-733, 765-786). -/
inductive SimpleKind
  | Box
  | Cone
  | Cylinder
  | Plane
  | Sphere
  | Grid
  | RenderTexture
  | RenderWindow
  | RayQuery
deriving DecidableEq, Repr

/-- The three typed stores the backend hands out through `Lights()`, `Sensors()`, `Visuals()`. -/
inductive StoreKind
  | Lights
  | Sensors
  | Visuals
deriving DecidableEq, Repr

/-- A node object as the stores see it: its `Id()` and `Name()`. -/
structure Object where
  id : Nat
  name : String
deriving DecidableEq, Repr

/-- A shared pointer to a node; `none` is `nullptr`. -/
abbrev ObjectPtr := Option Object

/-- Modelled from the spec: `math::Color` as used by the material setters
(`SetAmbient(r, g, b)`), declared outside src/: the three colour components. -/
structure Color where
  r : ℚ
  g : ℚ
  b : ℚ
deriving DecidableEq

/-- Modelled from the spec: the attributes of a `Material` object that `CreateMaterials`
writes (class `Material`/`BaseMaterial`, not under src/). -/
structure Material where
  ambient : Color
  diffuse : Color
  emissive : Color
  transparency : ℚ
  castShadows : Bool
  receiveShadows : Bool
  lightingEnabled : Bool
deriving DecidableEq

/-- The part of `common::Material` the scene reads: its `Name()` and the attributes that
`CopyFrom` takes over. -/
structure CommonMaterial where
  name : String
  attributes : Material
deriving DecidableEq

/-- The part of `MeshDescriptor` that `CreateMesh` reads: `mesh` (null, or a `common::Mesh`
given by its `Name()`) and `meshName`. -/
structure MeshDescriptor where
  mesh : Option String
  meshName : String
deriving DecidableEq, Repr

/-- What an operation does that an observer can see. -/
inductive Event
  | LoadImpl
  | InitImpl
  | CreateObjectId (returned : Nat)
  | CreateImpl (k : Kind) (id : Nat) (name : String)
  | CreateSimpleImpl (k : SimpleKind) (id : Nat) (name : String)
  | CreateMeshImpl (id : Nat) (name : String)
  | CreateMaterialImpl (id : Nat) (name : String)
  | Add (store : StoreKind) (o : Object)
  | ignerr (msg : String)
deriving DecidableEq, Repr

/-- The pure virtual hooks of `BaseScene`, implemented by a rendering backend.  Each hook sees
the trace so far.  `CreateMaterialImpl` constructs a new material object (or returns null);
its result is the initial value of the attributes of that object. -/
structure Backend where
  LoadImpl : List Event → Bool
  InitImpl : List Event → Bool
  CreateImpl : List Event → Kind → Nat → String → ObjectPtr
  CreateMaterialImpl : List Event → Nat → String → Option Material
  CreateSimpleImpl : List Event → SimpleKind → Nat → String → ObjectPtr
  CreateMeshImpl : List Event → Nat → String → MeshDescriptor → ObjectPtr

/-- Modelled from the spec: `TypedStore<T>` (`BaseStore` of `BaseStorage.hh`, not under src/):
the entities of one kind in insertion order. -/
structure Store where
  items : List Object
deriving DecidableEq, Repr

namespace Store

/-- Modelled from the spec: `Size()` of a typed store (`BaseStorage.hh`, not under src/). -/
def Size (st : Store) : Nat := st.items.length

/-- Modelled from the spec: `ContainsId` of a typed store (`BaseStorage.hh`, not under src/). -/
def ContainsId (st : Store) (id : Nat) : Bool := st.items.any fun o => o.id == id

/-- Modelled from the spec: `ContainsName` of a typed store (`BaseStorage.hh`, not under src/). -/
def ContainsName (st : Store) (name : String) : Bool := st.items.any fun o => o.name == name

/-- Modelled from the spec: `Add(entity) -> bool` of a typed store (`BaseStorage.hh`, not under
src/): "fails, returning false, if id or name already present". -/
def Add (st : Store) (o : Object) : Bool × Store :=
  if st.ContainsId o.id || st.ContainsName o.name then (false, st)
  else (true, { items := st.items ++ [o] })

/-- Modelled from the spec: `DestroyById` of a typed store (`BaseStorage.hh`, not under src/):
removes the entity, "a no-op, not an error, if the target is absent". -/
def DestroyById (st : Store) (id : Nat) : Store :=
  { items := st.items.filter fun o => !(o.id == id) }

/-- Modelled from the spec: `DestroyByName` of a typed store (`BaseStorage.hh`, not under
src/). -/
def DestroyByName (st : Store) (name : String) : Store :=
  { items := st.items.filter fun o => !(o.name == name) }

/-- Modelled from the spec: `DestroyByIndex` of a typed store (`BaseStorage.hh`, not under
src/). -/
def DestroyByIndex (st : Store) (index : Nat) : Store :=
  { items := st.items.eraseIdx index }

/-- Modelled from the spec: `DestroyAll()` of a typed store (`BaseStorage.hh`, not under
src/). -/
def DestroyAll (_st : Store) : Store := { items := [] }

end Store

/-- Modelled from the spec: the material registry (`BaseMap` of `BaseStorage.hh`, not under
src/), "keyed by name only": the keys in insertion order, each with the handle of the material
object it maps to. -/
abbrev MaterialMap := List (String × Nat)

namespace MaterialMap

/-- Modelled from the spec: `ContainsKey` of the material registry (`BaseStorage.hh`, not under
src/). -/
def ContainsKey (m : MaterialMap) (key : String) : Bool := m.any fun e => e.1 == key

/-- Modelled from the spec: `Get` of the material registry (`BaseStorage.hh`, not under src/):
the handle stored under the key, null when absent. -/
def Get (m : MaterialMap) (key : String) : Option Nat := (m.find? fun e => e.1 == key).map (·.2)

/-- Modelled from the spec: `Put` of the material registry (`BaseStorage.hh`, not under src/):
registration "fails (returns false) if id/name collides". -/
def Put (m : MaterialMap) (key : String) (handle : Nat) : Bool × MaterialMap :=
  if ContainsKey m key then (false, m) else (true, m ++ [(key, handle)])

/-- Modelled from the spec: `Remove` of the material registry (`BaseStorage.hh`, not under
src/). -/
def Remove (m : MaterialMap) (key : String) : MaterialMap := m.filter fun e => !(e.1 == key)

/-- Modelled from the spec: `RemoveAll` of the material registry (`BaseStorage.hh`, not under
src/). -/
def RemoveAll (_m : MaterialMap) : MaterialMap := []

end MaterialMap

/-- The state of a scene: the data members of `BaseScene` (`id` to `nodes`), the stores owned by
the backend subclass and reached through `Lights()`, `Sensors()`, `Visuals()`, `Materials()`,
the material objects (a handle is an index into `heap`), and the ghost `trace`. -/
structure Scene where
  id : Nat
  name : String
  loaded : Bool
  initialized : Bool
  nextObjectId : Nat
  nodes : Option (List StoreKind)
  lights : Store
  sensors : Store
  visuals : Store
  materials : MaterialMap
  heap : List Material
  trace : List Event
deriving DecidableEq

namespace Scene

/-- Append events to the trace. -/
def emit (s : Scene) (es : List Event) : Scene := { s with trace := s.trace ++ es }

/-- The store of the given kind. -/
def store (s : Scene) : StoreKind → Store
  | .Lights => s.lights
  | .Sensors => s.sensors
  | .Visuals => s.visuals

/-- Replace the store of the given kind. -/
def setStore (s : Scene) (k : StoreKind) (st : Store) : Scene :=
  match k with
  | .Lights => { s with lights := st }
  | .Sensors => { s with sensors := st }
  | .Visuals => { s with visuals := st }

end Scene

/-- The stores a backend subclass brings along when the scene object is constructed. -/
structure BackendStores where
  lights : Store
  sensors : Store
  visuals : Store
  materials : MaterialMap
  heap : List Material

namespace BaseScene

/-- `BaseScene::BaseScene(unsigned int _id, const std::string &_name)`, lines 39-47. -/
def BaseScene (_id : Nat) (_name : String) (be : BackendStores) : Scene :=
  { id := _id
    name := _name
    loaded := false
    initialized := false
    nextObjectId := MAX_UI16
    nodes := none
    lights := be.lights
    sensors := be.sensors
    visuals := be.visuals
    materials := be.materials
    heap := be.heap
    trace := [] }

/-- `BaseScene::Load()`, lines 55-61. -/
def Load (B : Backend) (s : Scene) : Scene :=
  if !s.loaded then
    { s with loaded := B.LoadImpl s.trace, trace := s.trace ++ [Event.LoadImpl] }
  else s

/-- `BaseScene::CreateObjectId()`, lines 810-813: `return this->nextObjectId--;`. -/
def CreateObjectId (s : Scene) : Nat × Scene :=
  (s.nextObjectId,
    { s with nextObjectId := decr s.nextObjectId,
             trace := s.trace ++ [Event.CreateObjectId s.nextObjectId] })

/-- `BaseScene::CreateObjectName(unsigned int _id, const std::string &_prefix)`, lines 816-823:
the stream starts empty and receives the five pieces in turn. -/
def CreateObjectName (s : Scene) (_id : Nat) (pfx : String) : String :=
  let ss := ""
  let ss := ss ++ s.name ++ "::" ++ pfx
  let ss := ss ++ "(" ++ to_string _id ++ ")"
  ss

/-- `BaseScene::Init()`'s node store: `BaseScene::CreateNodeStore()`, lines 844-864.  The
composite holds views of the light, sensor and visual stores, in this order. -/
def CreateNodeStore (s : Scene) : Scene :=
  let compStore : List StoreKind := []
  let compStore := compStore ++ [StoreKind.Lights]
  let compStore := compStore ++ [StoreKind.Sensors]
  let compStore := compStore ++ [StoreKind.Visuals]
  { s with nodes := some compStore }

/-- `BaseScene::NodeCount()`, lines 153-156: `this->nodes->Size()`, by the spec "the sum of
member sizes"; a fault when `nodes` is null. -/
def NodeCount (s : Scene) : Option Nat :=
  s.nodes.map fun members => (members.map fun k => (s.store k).Size).sum

/-- `BaseScene::LightCount()`, lines 225-228. -/
def LightCount (s : Scene) : Nat := s.lights.Size

/-- `BaseScene::SensorCount()`, lines 297-300. -/
def SensorCount (s : Scene) : Nat := s.sensors.Size

/-- `BaseScene::VisualCount()`, lines 369-372. -/
def VisualCount (s : Scene) : Nat := s.visuals.Size

/-- `BaseScene::DestroyNodes()`, lines 219-222: `this->nodes->DestroyAll()`, which by the spec
"fans out to every member"; a fault when `nodes` is null. -/
def DestroyNodes (s : Scene) : Option Scene :=
  s.nodes.map fun members => members.foldl (fun acc k => acc.setStore k (acc.store k).DestroyAll) s

/-- `BaseScene::RegisterMaterial`, lines 453-458. -/
def RegisterMaterial (s : Scene) (_name : String) (_material : Option Nat) : Scene :=
  match _material with
  | some handle => { s with materials := (MaterialMap.Put s.materials _name handle).2 }
  | none => s

/-- `BaseScene::UnregisterMaterial`, lines 461-464. -/
def UnregisterMaterial (s : Scene) (_name : String) : Scene :=
  { s with materials := MaterialMap.Remove s.materials _name }

/-- `BaseScene::UnregisterMaterials`, lines 467-470. -/
def UnregisterMaterials (s : Scene) : Scene :=
  { s with materials := MaterialMap.RemoveAll s.materials }

/-- `BaseScene::MaterialRegistered`, lines 441-444. -/
def MaterialRegistered (s : Scene) (_name : String) : Bool :=
  MaterialMap.ContainsKey s.materials _name

/-- `BaseScene::Material(const std::string &_name)`, lines 447-450, followed by a dereference
of the handle: the material object registered under the name, if any. -/
def MaterialNamed (s : Scene) (_name : String) : Option Material :=
  (MaterialMap.Get s.materials _name).bind fun handle => s.heap.get? handle

/-- `BaseScene::RegisterLight`, lines 826-829. -/
def RegisterLight (s : Scene) (_light : ObjectPtr) : Bool × Scene :=
  match _light with
  | some o =>
    ((s.lights.Add o).1,
      { s with lights := (s.lights.Add o).2, trace := s.trace ++ [Event.Add StoreKind.Lights o] })
  | none => (false, s)

/-- `BaseScene::RegisterSensor`, lines 832-835. -/
def RegisterSensor (s : Scene) (_sensor : ObjectPtr) : Bool × Scene :=
  match _sensor with
  | some o =>
    ((s.sensors.Add o).1,
      { s with sensors := (s.sensors.Add o).2,
               trace := s.trace ++ [Event.Add StoreKind.Sensors o] })
  | none => (false, s)

/-- `BaseScene::RegisterVisual`, lines 838-841. -/
def RegisterVisual (s : Scene) (_visual : ObjectPtr) : Bool × Scene :=
  match _visual with
  | some o =>
    ((s.visuals.Add o).1,
      { s with visuals := (s.visuals.Add o).2,
               trace := s.trace ++ [Event.Add StoreKind.Visuals o] })
  | none => (false, s)

/-- The string literal that `Create<K>(unsigned int _id)` passes to `CreateObjectName`
(lines 482, 511, 538, 565, 591, 617, 644). -/
def typeName : Kind → String
  | .DirectionalLight => "DirectionalLight"
  | .PointLight => "PointLight"
  | .SpotLight => "SpotLight"
  | .Camera => "Camera"
  | .Visual => "Visual"
  | .ArrowVisual => "ArrowVisual"
  | .AxisVisual => "AxisVisual"

/-- The registration `Create<K>(unsigned int, const std::string &)` uses (lines 498, 525, 552,
578, 604, 631, 658): `RegisterLight` for the lights, `RegisterSensor` for the camera,
`RegisterVisual` for the visuals. -/
def Register (k : Kind) (s : Scene) (p : ObjectPtr) : Bool × Scene :=
  match k with
  | .DirectionalLight => RegisterLight s p
  | .PointLight => RegisterLight s p
  | .SpotLight => RegisterLight s p
  | .Camera => RegisterSensor s p
  | .Visual => RegisterVisual s p
  | .ArrowVisual => RegisterVisual s p
  | .AxisVisual => RegisterVisual s p

/-- `BaseScene::Create<K>(unsigned int _id, const std::string &_name)` for the seven node kinds
(lines 494-500, 521-527, 548-554, 575-580, 601-606, 627-633, 654-660). -/
def CreateK_id_name (B : Backend) (k : Kind) (s : Scene) (_id : Nat) (_name : String) :
    ObjectPtr × Scene :=
  let obj := B.CreateImpl s.trace k _id _name
  let s := s.emit [Event.CreateImpl k _id _name]
  let r := Register k s obj
  (if r.1 then obj else none, r.2)

/-- `BaseScene::Create<K>(const std::string &_name)` (lines 487-491, 515-519, 542-546, 569-573,
595-599, 621-625, 648-652). -/
def CreateK_name (B : Backend) (k : Kind) (s : Scene) (_name : String) : ObjectPtr × Scene :=
  let r := CreateObjectId s
  CreateK_id_name B k r.2 r.1 _name

/-- `BaseScene::Create<K>(unsigned int _id)` (lines 480-484, 509-513, 536-540, 563-567, 589-593,
615-619, 642-646). -/
def CreateK_id (B : Backend) (k : Kind) (s : Scene) (_id : Nat) : ObjectPtr × Scene :=
  let objName := CreateObjectName s _id (typeName k)
  CreateK_id_name B k s _id objName

/-- `BaseScene::Create<K>()` (lines 473-477, 503-507, 530-534, 557-561, 583-587, 609-613,
636-640). -/
def CreateK (B : Backend) (k : Kind) (s : Scene) : ObjectPtr × Scene :=
  let r := CreateObjectId s
  CreateK_id B k r.2 r.1

/-- The string literal that the creators without registration pass to `CreateObjectName`
(lines 666, 674, 682, 690, 698, 731, 768, 776, 784). -/
def simpleName : SimpleKind → String
  | .Box => "Box"
  | .Cone => "Cone"
  | .Cylinder => "Cylinder"
  | .Plane => "Plane"
  | .Sphere => "Sphere"
  | .Grid => "Grid"
  | .RenderTexture => "RenderTexture"
  | .RenderWindow => "RenderWindow"
  | .RayQuery => "RayQuery"

/-- `BaseScene::CreateBox()` and its siblings `CreateCone`, `CreateCylinder`, `CreatePlane`,
`CreateSphere`, `CreateGrid`, `CreateRenderTexture`, `CreateRenderWindow`, `CreateRayQuery`
(lines 663-700, 728-733, 765-786). -/
def CreateSimple (B : Backend) (k : SimpleKind) (s : Scene) : ObjectPtr × Scene :=
  let r := CreateObjectId s
  let objId := r.1
  let s := r.2
  let objName := CreateObjectName s objId (simpleName k)
  (B.CreateSimpleImpl s.trace k objId objName, s.emit [Event.CreateSimpleImpl k objId objName])

/-- `BaseScene::CreateMesh(const MeshDescriptor &_desc)`, lines 717-725. -/
def CreateMesh (B : Backend) (s : Scene) (_desc : MeshDescriptor) : ObjectPtr × Scene :=
  let meshName := match _desc.mesh with
    | some meshObjectName => meshObjectName
    | none => _desc.meshName
  let r := CreateObjectId s
  let objId := r.1
  let s := r.2
  let objName := CreateObjectName s objId ("Mesh-" ++ meshName)
  (B.CreateMeshImpl s.trace objId objName _desc, s.emit [Event.CreateMeshImpl objId objName])

/-- The call `this->CreateMaterialImpl(objId, objName)`: the hook is asked, and the object it
constructed (if any) gets the next free handle. -/
def callCreateMaterialImpl (B : Backend) (s : Scene) (objId : Nat) (objName : String) :
    Option Nat × Scene :=
  match B.CreateMaterialImpl s.trace objId objName with
  | some m =>
    (some s.heap.length,
      { s with heap := s.heap ++ [m],
               trace := s.trace ++ [Event.CreateMaterialImpl objId objName] })
  | none => (none, s.emit [Event.CreateMaterialImpl objId objName])

/-- `BaseScene::CreateMaterial(const std::string &_name)`, lines 736-747. -/
def CreateMaterial (B : Backend) (s : Scene) (_name : String) : Option Nat × Scene :=
  let r := CreateObjectId s
  let objId := r.1
  let s := r.2
  let objName := if _name = "" then CreateObjectName s objId "Material" else _name
  let r := callCreateMaterialImpl B s objId objName
  let material := r.1
  let s := RegisterMaterial r.2 objName material
  (material, s)

/-- Write through a material handle: `material->Set...(...)`; a fault on a null handle. -/
def withMaterial (s : Scene) (material : Option Nat) (f : Material → Material) : Option Scene :=
  match material with
  | none => none
  | some handle =>
    match s.heap.get? handle with
    | none => none
    | some m => some { s with heap := s.heap.set handle (f m) }

/-- `BaseScene::CreateMaterial(const common::Material &_material)`, lines 750-762;
`CopyFrom` takes over the attributes of the argument. -/
def CreateMaterialFrom (B : Backend) (s : Scene) (_material : CommonMaterial) :
    Option (Option Nat × Scene) :=
  let r := CreateObjectId s
  let objId := r.1
  let s := r.2
  let objName := if _material.name = "" then CreateObjectName s objId "Material"
    else _material.name
  let r := callCreateMaterialImpl B s objId objName
  let material := r.1
  (withMaterial r.2 material fun _ => _material.attributes).map fun s =>
    (material, RegisterMaterial s objName material)

end BaseScene

namespace Material

/-- Modelled from the spec: `Material::SetAmbient(r, g, b)` (not under src/). -/
def SetAmbient (r g b : ℚ) (m : Material) : Material := { m with ambient := ⟨r, g, b⟩ }

/-- Modelled from the spec: `Material::SetDiffuse(r, g, b)` (not under src/). -/
def SetDiffuse (r g b : ℚ) (m : Material) : Material := { m with diffuse := ⟨r, g, b⟩ }

/-- Modelled from the spec: `Material::SetEmissive(r, g, b)` (not under src/). -/
def SetEmissive (r g b : ℚ) (m : Material) : Material := { m with emissive := ⟨r, g, b⟩ }

/-- Modelled from the spec: `Material::SetTransparency` (not under src/). -/
def SetTransparency (t : ℚ) (m : Material) : Material := { m with transparency := t }

/-- Modelled from the spec: `Material::SetCastShadows` (not under src/). -/
def SetCastShadows (v : Bool) (m : Material) : Material := { m with castShadows := v }

/-- Modelled from the spec: `Material::SetReceiveShadows` (not under src/). -/
def SetReceiveShadows (v : Bool) (m : Material) : Material := { m with receiveShadows := v }

/-- Modelled from the spec: `Material::SetLightingEnabled` (not under src/). -/
def SetLightingEnabled (v : Bool) (m : Material) : Material := { m with lightingEnabled := v }

end Material

namespace BaseScene

/-- The statements `material->Set...(...)` that follow one another on the same handle, applied
in order; a fault on a null handle. -/
def withMaterialSeq (s : Scene) (material : Option Nat) :
    List (Material → Material) → Option Scene
  | [] => some s
  | f :: fs => (withMaterial s material f).bind fun s1 => withMaterialSeq s1 material fs

/-- Lines 871-878 of `BaseScene::CreateMaterials()`: `Default/TransRed`. -/
def CreateMaterials_TransRed (B : Backend) (s : Scene) : Option Scene :=
  let r := CreateMaterial B s "Default/TransRed"
  let material := r.1
  withMaterialSeq r.2 material
    [Material.SetAmbient 1 0 0,
     Material.SetDiffuse 1 0 0,
     Material.SetEmissive 1 0 0,
     Material.SetTransparency (1 / 2),
     Material.SetCastShadows false,
     Material.SetReceiveShadows false,
     Material.SetLightingEnabled false]

/-- Lines 880-887 of `BaseScene::CreateMaterials()`: `Default/TransGreen`. -/
def CreateMaterials_TransGreen (B : Backend) (s : Scene) : Option Scene :=
  let r := CreateMaterial B s "Default/TransGreen"
  let material := r.1
  withMaterialSeq r.2 material
    [Material.SetAmbient 0 1 0,
     Material.SetDiffuse 0 1 0,
     Material.SetEmissive 0 1 0,
     Material.SetTransparency (1 / 2),
     Material.SetCastShadows false,
     Material.SetReceiveShadows false,
     Material.SetLightingEnabled false]

/-- Lines 889-896 of `BaseScene::CreateMaterials()`: `Default/TransBlue`. -/
def CreateMaterials_TransBlue (B : Backend) (s : Scene) : Option Scene :=
  let r := CreateMaterial B s "Default/TransBlue"
  let material := r.1
  withMaterialSeq r.2 material
    [Material.SetAmbient 0 0 1,
     Material.SetDiffuse 0 0 1,
     Material.SetEmissive 0 0 1,
     Material.SetTransparency (1 / 2),
     Material.SetCastShadows false,
     Material.SetReceiveShadows false,
     Material.SetLightingEnabled false]

/-- Lines 898-905 of `BaseScene::CreateMaterials()`: `Default/White`. -/
def CreateMaterials_White (B : Backend) (s : Scene) : Option Scene :=
  let r := CreateMaterial B s "Default/White"
  let material := r.1
  withMaterialSeq r.2 material
    [Material.SetAmbient 1 1 1,
     Material.SetDiffuse 1 1 1,
     Material.SetEmissive 1 1 1,
     Material.SetTransparency 0,
     Material.SetCastShadows true,
     Material.SetReceiveShadows true,
     Material.SetLightingEnabled true]

/-- `BaseScene::CreateMaterials()`, lines 867-906: the four blocks in source order. -/
def CreateMaterials (B : Backend) (s : Scene) : Option Scene :=
  (CreateMaterials_TransRed B s).bind fun s =>
  (CreateMaterials_TransGreen B s).bind fun s =>
  (CreateMaterials_TransBlue B s).bind fun s =>
  CreateMaterials_White B s

/-- `BaseScene::Init()`, lines 64-78. -/
def Init (B : Backend) (s : Scene) : Option Scene :=
  if !s.loaded then
    some (s.emit [Event.ignerr "Scene must be loaded first"])
  else if !s.initialized then
    let s := { s with initialized := B.InitImpl s.trace, trace := s.trace ++ [Event.InitImpl] }
    let s := CreateNodeStore s
    CreateMaterials B s
  else some s

/-- `BaseScene::Clear()`, lines 795-800. -/
def Clear (s : Scene) : Option Scene :=
  (DestroyNodes s).map fun s =>
    { s with materials := MaterialMap.RemoveAll s.materials, nextObjectId := MAX_UI16 }

/-- `BaseScene::Destroy()`, lines 803-807. -/
def Destroy (s : Scene) : Option Scene := Clear s

end BaseScene

/-! ## Sequences of operations -/

/-- The operations a client can apply to a scene: lifecycle, the creators, and the destroyers
(`Destroy<X>ById`, `Destroy<X>ByName`, `Destroy<X>ByIndex`, `Destroy<X>s` for the three typed
stores, `DestroyNodes`, `UnregisterMaterial`, `UnregisterMaterials`). -/
inductive Op
  | Load
  | Init
  | Clear
  | Destroy
  | CreateK (k : Kind)
  | CreateK_id (k : Kind) (id : Nat)
  | CreateK_name (k : Kind) (name : String)
  | CreateK_id_name (k : Kind) (id : Nat) (name : String)
  | CreateSimple (k : SimpleKind)
  | CreateMesh (desc : MeshDescriptor)
  | CreateMaterial (name : String)
  | CreateMaterialFrom (m : CommonMaterial)
  | DestroyById (st : StoreKind) (id : Nat)
  | DestroyByName (st : StoreKind) (name : String)
  | DestroyByIndex (st : StoreKind) (index : Nat)
  | DestroyAll (st : StoreKind)
  | DestroyNodes
  | UnregisterMaterial (name : String)
  | UnregisterMaterials
deriving DecidableEq

namespace BaseScene

/-- `BaseScene::DestroyLightById`, `DestroySensorById`, `DestroyVisualById` (lines 273-276,
345-348, 417-420): delegation to the store. -/
def DestroyById (s : Scene) (st : StoreKind) (_id : Nat) : Scene :=
  s.setStore st ((s.store st).DestroyById _id)

/-- `BaseScene::DestroyLightByName`, `DestroySensorByName`, `DestroyVisualByName` (lines
279-282, 351-354, 423-426). -/
def DestroyByName (s : Scene) (st : StoreKind) (_name : String) : Scene :=
  s.setStore st ((s.store st).DestroyByName _name)

/-- `BaseScene::DestroyLightByIndex`, `DestroySensorByIndex`, `DestroyVisualByIndex` (lines
285-288, 357-360, 429-432). -/
def DestroyByIndex (s : Scene) (st : StoreKind) (_index : Nat) : Scene :=
  s.setStore st ((s.store st).DestroyByIndex _index)

/-- `BaseScene::DestroyLights`, `DestroySensors`, `DestroyVisuals` (lines 291-294, 363-366,
435-438). -/
def DestroyAll (s : Scene) (st : StoreKind) : Scene :=
  s.setStore st ((s.store st).DestroyAll)

/-- One operation applied to a scene; `none` is a fault (a null dereference). -/
def step (B : Backend) (s : Scene) : Op → Option Scene
  | .Load => some (Load B s)
  | .Init => Init B s
  | .Clear => Clear s
  | .Destroy => Destroy s
  | .CreateK k => some (CreateK B k s).2
  | .CreateK_id k id => some (CreateK_id B k s id).2
  | .CreateK_name k name => some (CreateK_name B k s name).2
  | .CreateK_id_name k id name => some (CreateK_id_name B k s id name).2
  | .CreateSimple k => some (CreateSimple B k s).2
  | .CreateMesh desc => some (CreateMesh B s desc).2
  | .CreateMaterial name => some (CreateMaterial B s name).2
  | .CreateMaterialFrom m => (CreateMaterialFrom B s m).map (·.2)
  | .DestroyById st id => some (DestroyById s st id)
  | .DestroyByName st name => some (DestroyByName s st name)
  | .DestroyByIndex st index => some (DestroyByIndex s st index)
  | .DestroyAll st => some (DestroyAll s st)
  | .DestroyNodes => DestroyNodes s
  | .UnregisterMaterial name => some (UnregisterMaterial s name)
  | .UnregisterMaterials => some (UnregisterMaterials s)

/-- A sequence of operations applied in order. -/
def run (B : Backend) : List Op → Scene → Option Scene
  | [], s => some s
  | op :: ops, s => (step B s op).bind (run B ops)

/-- The ids handed out by `CreateObjectId`, in order of the calls. -/
def issuedIds : List Event → List Nat
  | [] => []
  | Event.CreateObjectId c :: es => c :: issuedIds es
  | _ :: es => issuedIds es

/-- The ids returned by `n` successive calls of `CreateObjectId`. -/
def CreateObjectIds : Nat → Scene → List Nat × Scene
  | 0, s => ([], s)
  | n + 1, s =>
    let r := CreateObjectId s
    let rest := CreateObjectIds n r.2
    (r.1 :: rest.1, rest.2)

end BaseScene

/-! ## Concrete backends and scenes used to exercise the theorems -/

/-- A material as a backend might construct it before the scene sets anything. -/
def blankMaterial : Material :=
  { ambient := ⟨0, 0, 0⟩, diffuse := ⟨0, 0, 0⟩, emissive := ⟨0, 0, 0⟩, transparency := 0,
    castShadows := false, receiveShadows := false, lightingEnabled := false }

/-- A backend all of whose hooks succeed: every factory constructs an object with the id and
name it is given. -/
def okBackend : Backend :=
  { LoadImpl := fun _ => true
    InitImpl := fun _ => true
    CreateImpl := fun _ _ id name => some ⟨id, name⟩
    CreateMaterialImpl := fun _ _ _ => some blankMaterial
    CreateSimpleImpl := fun _ _ id name => some ⟨id, name⟩
    CreateMeshImpl := fun _ id name _ => some ⟨id, name⟩ }

/-- A backend all of whose hooks fail: `false` and null handles. -/
def failBackend : Backend :=
  { LoadImpl := fun _ => false
    InitImpl := fun _ => false
    CreateImpl := fun _ _ _ _ => none
    CreateMaterialImpl := fun _ _ _ => none
    CreateSimpleImpl := fun _ _ _ _ => none
    CreateMeshImpl := fun _ _ _ _ => none }

/-- Empty backend stores. -/
def emptyStores : BackendStores :=
  { lights := ⟨[]⟩, sensors := ⟨[]⟩, visuals := ⟨[]⟩, materials := [], heap := [] }

/-- A newly constructed scene named "scene" over empty stores. -/
def newScene : Scene := BaseScene.BaseScene 0 "scene" emptyStores

/-- A client session that clears the scene between two creations. -/
def clearingSession : List Op :=
  [Op.Load, Op.Init, Op.CreateK Kind.Visual, Op.Clear, Op.CreateK Kind.Visual]

/-- A client session without `Clear` or `Destroy`. -/
def plainSession : List Op :=
  [Op.Load, Op.Init, Op.CreateK Kind.Visual, Op.CreateK_name Kind.Camera "cam",
   Op.DestroyAll StoreKind.Visuals, Op.CreateSimple SimpleKind.Box]

/-- Reading of a decimal numeral: the value of a string of the characters `0` to `9`. -/
def parseDecimal (str : String) : Nat :=
  str.data.foldl (fun acc ch => 10 * acc + (ch.toNat - 48)) 0

/-- A scene whose id counter has reached zero (the state a newly constructed scene is in after
65535 ids have been handed out). -/
def zeroCounterScene : Scene := { newScene with nextObjectId := 0 }

/-- The attributes prescribed for `Default/TransRed`. -/
def transRed : Material :=
  { ambient := ⟨1, 0, 0⟩, diffuse := ⟨1, 0, 0⟩, emissive := ⟨1, 0, 0⟩, transparency := 1 / 2,
    castShadows := false, receiveShadows := false, lightingEnabled := false }

/-- The attributes prescribed for `Default/TransGreen`. -/
def transGreen : Material :=
  { ambient := ⟨0, 1, 0⟩, diffuse := ⟨0, 1, 0⟩, emissive := ⟨0, 1, 0⟩, transparency := 1 / 2,
    castShadows := false, receiveShadows := false, lightingEnabled := false }

/-- The attributes prescribed for `Default/TransBlue`. -/
def transBlue : Material :=
  { ambient := ⟨0, 0, 1⟩, diffuse := ⟨0, 0, 1⟩, emissive := ⟨0, 0, 1⟩, transparency := 1 / 2,
    castShadows := false, receiveShadows := false, lightingEnabled := false }

/-- The attributes prescribed for `Default/White`. -/
def white : Material :=
  { ambient := ⟨1, 1, 1⟩, diffuse := ⟨1, 1, 1⟩, emissive := ⟨1, 1, 1⟩, transparency := 0,
    castShadows := true, receiveShadows := true, lightingEnabled := true }

/-- The state after one successful creation of a material under `key` whose object ends up
with the attributes `m`: one id handed out, one object allocated, one registry entry. -/
def withDefault (s : Scene) (key : String) (m : Material) : Scene :=
  { s with nextObjectId := decr s.nextObjectId
           heap := s.heap ++ [m]
           materials := (MaterialMap.Put s.materials key s.heap.length).2
           trace := s.trace ++
             [Event.CreateObjectId s.nextObjectId, Event.CreateMaterialImpl s.nextObjectId key] }

/-- The name of a kind as the spec writes it in `DefaultName(id, "K")`. -/
def specKindName : Kind → String
  | .DirectionalLight => "DirectionalLight"
  | .PointLight => "PointLight"
  | .SpotLight => "SpotLight"
  | .Camera => "Camera"
  | .Visual => "Visual"
  | .ArrowVisual => "ArrowVisual"
  | .AxisVisual => "AxisVisual"

/-- The typed store a kind belongs to by the spec: lights, sensors (cameras), visuals. -/
def storeOf : Kind → StoreKind
  | .DirectionalLight => StoreKind.Lights
  | .PointLight => StoreKind.Lights
  | .SpotLight => StoreKind.Lights
  | .Camera => StoreKind.Sensors
  | .Visual => StoreKind.Visuals
  | .ArrowVisual => StoreKind.Visuals
  | .AxisVisual => StoreKind.Visuals

/-- The `Add` calls that registering the result of a factory makes: one on the store of the
kind for a constructed object, none for a null handle. -/
def addEvents (k : Kind) (p : ObjectPtr) : List Event :=
  match p with
  | some o => [Event.Add (storeOf k) o]
  | none => []

/-! ## Notions used to state how operations change a scene -/

/-- The ids that `k` successive post-decrements hand out, starting at counter `c`. -/
def idSeq (c k : Nat) : List Nat := (List.range k).map fun i => decr^[i] c

/-- The lifecycle members and the identity of the scene are the same in both states. -/
def Life (s s' : Scene) : Prop :=
  s'.id = s.id ∧ s'.name = s.name ∧ s'.loaded = s.loaded ∧ s'.initialized = s.initialized ∧
  s'.nodes = s.nodes

/-- Between the two states some number `k` of ids was handed out, each by a post-decrement of
the counter, and nothing else touched the counter. -/
def Adv (s s' : Scene) : Prop :=
  ∃ k, BaseScene.issuedIds s'.trace = BaseScene.issuedIds s.trace ++ idSeq s.nextObjectId k ∧
    s'.nextObjectId = decr^[k] s.nextObjectId

/-- The members of the composite node store that `CreateNodeStore` builds. -/
def nodeStoreMembers : List StoreKind := [StoreKind.Lights, StoreKind.Sensors, StoreKind.Visuals]

/-- The scene states that a client can bring about: constructed, then operated on. -/
def Reachable (B : Backend) (s : Scene) : Prop :=
  ∃ (_id : Nat) (_name : String) (be : BackendStores) (ops : List Op),
    BaseScene.run B ops (BaseScene.BaseScene _id _name be) = some s

/-- Neither the lifecycle members nor the counter change, and no id is handed out. -/
def Quiet (s s' : Scene) : Prop :=
  Life s s' ∧ s'.nextObjectId = s.nextObjectId ∧
    BaseScene.issuedIds s'.trace = BaseScene.issuedIds s.trace

/-- The lifecycle members are unchanged and the counter moved only by handing out ids. -/
def Alloc (s s' : Scene) : Prop := Life s s' ∧ Adv s s'

/-- The invariant of the lifecycle: an initialized scene is loaded and has its composite node
store, built over the three typed stores. -/
def LifecycleInv (s : Scene) : Prop :=
  s.initialized = true → s.loaded = true ∧ s.nodes = some nodeStoreMembers

/-- The state in which `Init` calls `CreateMaterials`. -/
def BaseScene.afterInitImpl (B : Backend) (s : Scene) : Scene :=
  BaseScene.CreateNodeStore
    { s with initialized := B.InitImpl s.trace, trace := s.trace ++ [Event.InitImpl] }

/-- The scene "scene" after `CreateVisual(7, "v")` succeeded. -/
def sceneWithVisual : Scene := (BaseScene.CreateK_id_name okBackend Kind.Visual newScene 7 "v").2

/-- The scene "scene" after `CreateMaterial("m")` succeeded. -/
def sceneWithMaterial : Scene := (BaseScene.CreateMaterial okBackend newScene "m").2

/-- A `common::Material` named "m". -/
def commonMaterialM : CommonMaterial := { name := "m", attributes := blankMaterial }

/-- A mesh descriptor that names the mesh "unit_box" and holds no mesh object. -/
def unitBoxDescriptor : MeshDescriptor := { mesh := none, meshName := "unit_box" }

/-- `BaseScene::VisualAt(const CameraPtr &, const math::Vector2i &)`, lines 122-126, when no
backend overrides it: its body is the call `this->VisualAt(_camera, _mousePos)` of itself.
`fuel` bounds the depth of nested calls; `none` means that the call has not returned within
`fuel` nested calls, `some p` that it returned the handle `p`. -/
def BaseScene.VisualAt : Nat → Scene → ObjectPtr → Int × Int → Option ObjectPtr
  | 0, _, _, _ => none
  | fuel + 1, s, _camera, _mousePos => BaseScene.VisualAt fuel s _camera _mousePos

/-! ## The camera: `BaseCamera`

A shallow embedding of `src/include/ignition/rendering/base/BaseCamera.hh`.

* The C++ type `double` is read in two ways.  In this section a `double` is an element of a
  linearly ordered field `K` (exact arithmetic: no rounding, no overflow, no NaN); the theorems
  over it hold for every such field, the rationals and the reals among them.  This reading
  serves the statements that give a formula, that are about the real numbers, or that use only
  laws the type `double` obeys.  Where a statement turns on rounding, overflow or NaN (the range
  of the stored gains, whether the follow update lands on its target), the members concerned
  are embedded a second time over the type `Double`, IEEE 754 binary64, in the namespace
  `Binary64` further down.
* The operations of the ignition-math library that are plain algebra (vectors, quaternion
  product and inverse, pose composition, `clamp`, `equal`) are modelled by what they compute.
  The ones that need square roots or trigonometry (`std::tan`, `std::atan`,
  `Matrix4d::LookAt(..).Pose().Rot()`, `Quaterniond::Slerp`, the conversion of a quaternion to
  a `Matrix3d`) are a parameter `ExternalMath` of the operations that use them.
* The world pose of a node (`WorldPosition()`, `SetWorldPosition`, ... of `BaseNode`) is a pair
  of members of the camera; the poses of the other nodes are an environment `env`.
-/

/-- `math::Vector3d`: the components x, y, z. -/
abbrev Vector3d (K : Type) := Fin 3 → K

/-- `math::Matrix3d`. -/
abbrev Matrix3d (K : Type) := Matrix (Fin 3) (Fin 3) K

/-- `math::Matrix4d`. -/
abbrev Matrix4d (K : Type) := Matrix (Fin 4) (Fin 4) K

/-- `math::Quaterniond`: the components w, x, y, z. -/
structure Quaterniond (K : Type) where
  w : K
  x : K
  y : K
  z : K
deriving DecidableEq

/-- `math::Pose3d`: a position and a rotation. -/
structure Pose3d (K : Type) where
  Pos : Vector3d K
  Rot : Quaterniond K

/-- The node a camera follows or tracks (a `NodePtr` that is not null): the camera itself or
another node of the scene, given by its id. -/
inductive NodeRef
  | self
  | other (id : Nat)
deriving DecidableEq, Repr

/-- The functions of the C++ standard library and of ignition-math that the camera calls and
that are not plain algebra: `std::tan`, `std::atan`, the rotation of
`math::Matrix4d::LookAt(eye, target).Pose()`, `math::Quaterniond::Slerp(t, p, q, shortest)`,
and the constructor `math::Matrix3d(const Quaterniond &)`. -/
structure ExternalMath (K : Type) where
  tan : K → K
  atan : K → K
  LookAtRot : Vector3d K → Vector3d K → Quaterniond K
  Slerp : K → Quaterniond K → Quaterniond K → Bool → Quaterniond K
  Matrix3 : Quaterniond K → Matrix3d K

/-- The data members of `BaseCamera<T>` (lines 165-205) and, from the node it derives from, its
world position and world rotation. -/
structure Camera (K : Type) where
  worldPosition : Vector3d K
  worldRotation : Quaterniond K
  nearClip : K
  farClip : K
  aspect : K
  hfov : K
  antiAliasing : Nat
  trackNode : Option NodeRef
  trackWorldFrame : Bool
  trackOffset : Vector3d K
  trackPGain : K
  followNode : Option NodeRef
  followWorldFrame : Bool
  followPGain : K
  followOffset : Vector3d K

section CameraModel

variable {K : Type} [LinearOrderedField K]

namespace math

/-- Model of `ignition::math::clamp(v, min, max)` (ignition-math, `Helpers.hh`):
`std::max(std::min(v, max), min)`, in exact arithmetic, where every two values compare.  The
reading over `double`, with NaN, is `Binary64.math.clamp`. -/
def clamp (_v _min _max : K) : K := max (min _v _max) _min

/-- Model of `ignition::math::equal(a, b)` (ignition-math, `Helpers.hh`) with its default
tolerance: `|a - b| <= 1e-6`. -/
def equal (_a _b : K) : Bool := decide (|_a - _b| ≤ 1 / 1000000)

end math

namespace Vector3d

/-- Model of `Vector3d::operator*(double)`: every component times the scalar. -/
def mulScalar (v : Vector3d K) (k : K) : Vector3d K := fun i => v i * k

end Vector3d

namespace Quaterniond

/-- `math::Quaterniond::Identity`. -/
def Identity : Quaterniond K := ⟨1, 0, 0, 0⟩

/-- Model of `Quaterniond::operator*(const Quaterniond &)`: the Hamilton product. -/
def mul (a b : Quaterniond K) : Quaterniond K :=
  ⟨a.w * b.w - a.x * b.x - a.y * b.y - a.z * b.z,
   a.w * b.x + a.x * b.w + a.y * b.z - a.z * b.y,
   a.w * b.y - a.x * b.z + a.y * b.w + a.z * b.x,
   a.w * b.z + a.x * b.y - a.y * b.x + a.z * b.w⟩

/-- Model of `Quaterniond::Inverse()`: the conjugate divided by the squared norm, the identity
when the squared norm equals zero. -/
def Inverse (q : Quaterniond K) : Quaterniond K :=
  let s := q.w * q.w + q.x * q.x + q.y * q.y + q.z * q.z
  if math.equal s 0 then ⟨1, 0, 0, 0⟩ else ⟨q.w / s, -q.x / s, -q.y / s, -q.z / s⟩

/-- The vector `v` rotated by `q`, as `Pose3d::CoordPositionAdd` computes it:
`q * ((0, v) * q.Inverse())`. -/
def RotateVector (q : Quaterniond K) (v : Vector3d K) : Vector3d K :=
  let tmp : Quaterniond K := ⟨0, v 0, v 1, v 2⟩
  let tmp := mul q (mul tmp (Inverse q))
  ![tmp.x, tmp.y, tmp.z]

end Quaterniond

namespace Pose3d

/-- Model of `Pose3d::operator+=(const Pose3d &_pose)`: the position becomes `_pose.Pos()` plus
this position rotated by `_pose.Rot()`, the rotation becomes `_pose.Rot() * this->Rot()`. -/
def add (self _pose : Pose3d K) : Pose3d K :=
  { Pos := _pose.Pos + Quaterniond.RotateVector _pose.Rot self.Pos
    Rot := Quaterniond.mul _pose.Rot self.Rot }

end Pose3d

namespace Matrix4d

/-- The assignment `result(i, j) = v` to one entry of a matrix. -/
def setEntry (m : Matrix4d K) (i j : Fin 4) (v : K) : Matrix4d K :=
  fun a b => if a = i ∧ b = j then v else m a b

/-- Model of `Matrix4d::operator=(const Matrix3d &)`: the upper-left 3x3 block is overwritten,
the other entries stay. -/
def assignMatrix3 (m : Matrix4d K) (r : Matrix3d K) : Matrix4d K :=
  fun a b => if h : a.val < 3 ∧ b.val < 3 then r ⟨a.val, h.1⟩ ⟨b.val, h.2⟩ else m a b

/-- Model of `Matrix4d::SetTranslation(const Vector3d &)`: the first three entries of the last
column are overwritten. -/
def SetTranslation (m : Matrix4d K) (t : Vector3d K) : Matrix4d K :=
  fun a b => if h : a.val < 3 ∧ b = 3 then t ⟨a.val, h.1⟩ else m a b

end Matrix4d

namespace BaseCamera

/-- `BaseCamera<T>::BaseCamera()`, lines 209-212, with the default member initializers of
lines 165-205; the node starts at the given world pose. -/
def BaseCamera (position : Vector3d K) (rotation : Quaterniond K) : Camera K :=
  { worldPosition := position
    worldRotation := rotation
    nearClip := 1 / 100
    farClip := 1000
    aspect := 13333333 / 10000000
    hfov := 0
    antiAliasing := 0
    trackNode := none
    trackWorldFrame := false
    trackOffset := 0
    trackPGain := 1
    followNode := none
    followWorldFrame := false
    followPGain := 1
    followOffset := 0 }

/-- Modelled from the spec: `WorldPosition()` of the node (`BaseNode`, not under src/). -/
def WorldPosition (c : Camera K) : Vector3d K := c.worldPosition

/-- Modelled from the spec: `SetWorldPosition` of the node (`BaseNode`, not under src/). -/
def SetWorldPosition (c : Camera K) (_position : Vector3d K) : Camera K :=
  { c with worldPosition := _position }

/-- Modelled from the spec: `WorldRotation()` of the node (`BaseNode`, not under src/). -/
def WorldRotation (c : Camera K) : Quaterniond K := c.worldRotation

/-- Modelled from the spec: `SetWorldRotation` of the node (`BaseNode`, not under src/). -/
def SetWorldRotation (c : Camera K) (_rotation : Quaterniond K) : Camera K :=
  { c with worldRotation := _rotation }

/-- Modelled from the spec: `WorldPose()` of the node (`BaseNode`, not under src/). -/
def WorldPose (c : Camera K) : Pose3d K := ⟨c.worldPosition, c.worldRotation⟩

/-- The world pose of the node a `NodePtr` of the camera points to. -/
def nodeWorldPose (env : Nat → Pose3d K) (c : Camera K) : NodeRef → Pose3d K
  | .self => WorldPose c
  | .other id => env id

/-- `BaseCamera<T>::HFOV()`, lines 494-498, as radians. -/
def HFOV (c : Camera K) : K := c.hfov

/-- `BaseCamera<T>::SetHFOV`, lines 516-521. -/
def SetHFOV (c : Camera K) (_hfov : K) : Camera K := { c with hfov := _hfov }

/-- `BaseCamera<T>::AspectRatio()`, lines 523-528. -/
def AspectRatio (c : Camera K) : K := c.aspect

/-- `BaseCamera<T>::SetAspectRatio`, lines 530-535. -/
def SetAspectRatio (c : Camera K) (_aspect : K) : Camera K := { c with aspect := _aspect }

/-- `BaseCamera<T>::AntiAliasing()`, lines 537-542. -/
def AntiAliasing (c : Camera K) : Nat := c.antiAliasing

/-- `BaseCamera<T>::SetAntiAliasing`, lines 544-549. -/
def SetAntiAliasing (c : Camera K) (_aa : Nat) : Camera K := { c with antiAliasing := _aa }

/-- `BaseCamera<T>::FarClipPlane()`, lines 551-556. -/
def FarClipPlane (c : Camera K) : K := c.farClip

/-- `BaseCamera<T>::SetFarClipPlane`, lines 558-563. -/
def SetFarClipPlane (c : Camera K) (_far : K) : Camera K := { c with farClip := _far }

/-- `BaseCamera<T>::NearClipPlane()`, lines 565-570. -/
def NearClipPlane (c : Camera K) : K := c.nearClip

/-- `BaseCamera<T>::SetNearClipPlane`, lines 572-577. -/
def SetNearClipPlane (c : Camera K) (_near : K) : Camera K := { c with nearClip := _near }

/-- `BaseCamera<T>::SetTrackTarget`, lines 579-587. -/
def SetTrackTarget (c : Camera K) (_target : Option NodeRef) (_offset : Vector3d K)
    (_worldFrame : Bool) : Camera K :=
  { c with trackNode := _target, trackWorldFrame := _worldFrame, trackOffset := _offset }

/-- `BaseCamera<T>::TrackTarget()`, lines 589-594. -/
def TrackTarget (c : Camera K) : Option NodeRef := c.trackNode

/-- `BaseCamera<T>::TrackOffset()`, lines 596-601. -/
def TrackOffset (c : Camera K) : Vector3d K := c.trackOffset

/-- `BaseCamera<T>::SetTrackOffset`, lines 603-608. -/
def SetTrackOffset (c : Camera K) (_offset : Vector3d K) : Camera K :=
  { c with trackOffset := _offset }

/-- `BaseCamera<T>::SetTrackPGain`, lines 610-615. -/
def SetTrackPGain (c : Camera K) (_pGain : K) : Camera K :=
  { c with trackPGain := math.clamp _pGain 0 1 }

/-- `BaseCamera<T>::TrackPGain()`, lines 617-622. -/
def TrackPGain (c : Camera K) : K := c.trackPGain

/-- `BaseCamera<T>::SetFollowTarget`, lines 624-632. -/
def SetFollowTarget (c : Camera K) (_target : Option NodeRef) (_offset : Vector3d K)
    (_worldFrame : Bool) : Camera K :=
  { c with followNode := _target, followWorldFrame := _worldFrame, followOffset := _offset }

/-- `BaseCamera<T>::FollowTarget()`, lines 634-639. -/
def FollowTarget (c : Camera K) : Option NodeRef := c.followNode

/-- `BaseCamera<T>::FollowOffset()`, lines 641-646. -/
def FollowOffset (c : Camera K) : Vector3d K := c.followOffset

/-- `BaseCamera<T>::SetFollowOffset`, lines 648-653. -/
def SetFollowOffset (c : Camera K) (_offset : Vector3d K) : Camera K :=
  { c with followOffset := _offset }

/-- `BaseCamera<T>::SetFollowPGain`, lines 655-660. -/
def SetFollowPGain (c : Camera K) (_pGain : K) : Camera K :=
  { c with followPGain := math.clamp _pGain 0 1 }

/-- `BaseCamera<T>::FollowPGain()`, lines 662-667. -/
def FollowPGain (c : Camera K) : K := c.followPGain

/-- `BaseCamera<T>::PreRender()`, the block "camera following", lines 280-303, in exact
arithmetic.  The reading over `double`, with rounding, is `Binary64.BaseCamera.PreRender_follow`. -/
def PreRender_follow (env : Nat → Pose3d K) (c : Camera K) : Camera K :=
  match c.followNode with
  | none => c
  | some followNode =>
    if c.followWorldFrame then
      let targetCamPos := (nodeWorldPose env c followNode).Pos + c.followOffset
      let pos := WorldPosition c +
        Vector3d.mulScalar (targetCamPos - WorldPosition c) c.followPGain
      SetWorldPosition c pos
    else
      let targetCamPose : Pose3d K := ⟨c.followOffset, WorldRotation c⟩
      let targetCamPose := Pose3d.add targetCamPose (nodeWorldPose env c followNode)
      let pos := WorldPosition c +
        Vector3d.mulScalar (targetCamPose.Pos - WorldPosition c) c.followPGain
      SetWorldPosition c pos

/-- The point the camera is turned to: `targetPose.Pos()` of lines 309-318. -/
def trackPoint (env : Nat → Pose3d K) (c : Camera K) (trackNode : NodeRef) : Vector3d K :=
  let targetPose : Pose3d K := ⟨c.trackOffset, Quaterniond.Identity⟩
  let targetPose :=
    if c.trackWorldFrame then
      { targetPose with Pos := targetPose.Pos + (nodeWorldPose env c trackNode).Pos }
    else
      Pose3d.add targetPose (nodeWorldPose env c trackNode)
  targetPose.Pos

/-- `BaseCamera<T>::PreRender()`, the block "camera tracking", lines 305-331. -/
def PreRender_track (M : ExternalMath K) (env : Nat → Pose3d K) (c : Camera K) : Camera K :=
  match c.trackNode with
  | none => c
  | some trackNode =>
    let eye := WorldPosition c
    let target := trackPoint env c trackNode
    let p := M.LookAtRot eye target
    let q := if !(math.equal c.trackPGain 1) then M.Slerp c.trackPGain (WorldRotation c) p true
      else p
    SetWorldRotation c q

/-- `BaseCamera<T>::PreRender()`, lines 272-332.  The calls `T::PreRender()` and
`this->RenderTarget()->PreRender()` that come first are calls into the backend; they leave the
members modelled here alone. -/
def PreRender (M : ExternalMath K) (env : Nat → Pose3d K) (c : Camera K) : Camera K :=
  PreRender_track M env (PreRender_follow env c)

/-- `BaseCamera<T>::ProjectionMatrix()`, lines 432-472. -/
def ProjectionMatrix (M : ExternalMath K) (c : Camera K) : Matrix4d K :=
  let ratio := AspectRatio c
  let fov := HFOV c
  let vfov := 2 * M.atan (M.tan (fov / 2) / ratio)
  let f : K := 1
  let near := NearClipPlane c
  let far := FarClipPlane c
  let top := near * M.tan (1 / 2 * vfov) / f
  let height := 2 * top
  let width := ratio * height
  let left := -(1 / 2) * width
  let right := left + width
  let bottom := top - height
  let invw := 1 / (right - left)
  let invh := 1 / (top - bottom)
  let invd := 1 / (far - near)
  let x := 2 * near * invw
  let y := 2 * near * invh
  let a := (right + left) * invw
  let b := (top + bottom) * invh
  let c := -(far + near) * invd
  let d := -2 * far * near * invd
  let result : Matrix4d K := 0
  let result := Matrix4d.setEntry result 0 0 x
  let result := Matrix4d.setEntry result 0 2 a
  let result := Matrix4d.setEntry result 1 1 y
  let result := Matrix4d.setEntry result 1 2 b
  let result := Matrix4d.setEntry result 2 2 c
  let result := Matrix4d.setEntry result 2 3 d
  let result := Matrix4d.setEntry result 3 2 (-1)
  result

/-- `BaseCamera<T>::ViewMatrix()`, lines 474-491. -/
def ViewMatrix (M : ExternalMath K) (c : Camera K) : Matrix4d K :=
  let r : Matrix3d K := M.Matrix3 (WorldPose c).Rot
  let tf : Matrix3d K := !![0, 0, -1; -1, 0, 0; 0, 1, 0]
  let r := r * tf
  let r := r.transpose
  let t : Vector3d K := Vector3d.mulScalar (r.mulVec (WorldPose c).Pos) (-1)
  let result : Matrix4d K := 0
  let result := Matrix4d.assignMatrix3 result r
  let result := Matrix4d.SetTranslation result t
  let result := Matrix4d.setEntry result 3 3 1
  result

/-- `BaseCamera<T>::VisualAt(const math::Vector2i &, std::string &)`, lines 500-506, when no
backend overrides it: its body is the call of itself.  `fuel` bounds the depth of nested
calls; `none` means that the call has not returned within `fuel` nested calls. -/
def VisualAt_mod : Nat → Camera K → Int × Int → String → Option ObjectPtr
  | 0, _, _, _ => none
  | fuel + 1, c, _mousePos, _mod => VisualAt_mod fuel c _mousePos _mod

/-- `BaseCamera<T>::VisualAt(const math::Vector2i &)`, lines 508-514, when no backend overrides
it: its body is the call of itself. -/
def VisualAt : Nat → Camera K → Int × Int → Option ObjectPtr
  | 0, _, _ => none
  | fuel + 1, c, _mousePos => VisualAt fuel c _mousePos

end BaseCamera

/-- The operations a client can apply to a camera: the setters, the node's pose setters, and
the per-frame `PreRender()` (with the poses the other nodes have at that frame). -/
inductive CameraOp (K : Type)
  | SetHFOV (hfov : K)
  | SetAspectRatio (aspect : K)
  | SetAntiAliasing (aa : Nat)
  | SetFarClipPlane (far : K)
  | SetNearClipPlane (near : K)
  | SetTrackTarget (target : Option NodeRef) (offset : Vector3d K) (worldFrame : Bool)
  | SetTrackOffset (offset : Vector3d K)
  | SetTrackPGain (pGain : K)
  | SetFollowTarget (target : Option NodeRef) (offset : Vector3d K) (worldFrame : Bool)
  | SetFollowOffset (offset : Vector3d K)
  | SetFollowPGain (pGain : K)
  | SetWorldPosition (position : Vector3d K)
  | SetWorldRotation (rotation : Quaterniond K)
  | PreRender (env : Nat → Pose3d K)

namespace BaseCamera

/-- One operation applied to a camera. -/
def step (M : ExternalMath K) (c : Camera K) : CameraOp K → Camera K
  | .SetHFOV hfov => SetHFOV c hfov
  | .SetAspectRatio aspect => SetAspectRatio c aspect
  | .SetAntiAliasing aa => SetAntiAliasing c aa
  | .SetFarClipPlane far => SetFarClipPlane c far
  | .SetNearClipPlane near => SetNearClipPlane c near
  | .SetTrackTarget target offset worldFrame => SetTrackTarget c target offset worldFrame
  | .SetTrackOffset offset => SetTrackOffset c offset
  | .SetTrackPGain pGain => SetTrackPGain c pGain
  | .SetFollowTarget target offset worldFrame => SetFollowTarget c target offset worldFrame
  | .SetFollowOffset offset => SetFollowOffset c offset
  | .SetFollowPGain pGain => SetFollowPGain c pGain
  | .SetWorldPosition position => SetWorldPosition c position
  | .SetWorldRotation rotation => SetWorldRotation c rotation
  | .PreRender env => PreRender M env c

/-- A sequence of operations applied in order. -/
def run (M : ExternalMath K) : List (CameraOp K) → Camera K → Camera K
  | [], c => c
  | op :: ops, c => run M ops (step M c op)

end BaseCamera

end CameraModel

/-- A stand-in over the rationals for the external functions, used to evaluate the camera on
concrete inputs: identity for `tan` and `atan`, the direction from eye to target as the
look-at "rotation", linear interpolation for `Slerp`, and the matrix of a unit quaternion. -/
def rationalMath : ExternalMath ℚ :=
  { tan := fun a => a
    atan := fun a => a
    LookAtRot := fun eye target => ⟨0, target 0 - eye 0, target 1 - eye 1, target 2 - eye 2⟩
    Slerp := fun t p q _ =>
      ⟨p.w * (1 - t) + q.w * t, p.x * (1 - t) + q.x * t, p.y * (1 - t) + q.y * t,
       p.z * (1 - t) + q.z * t⟩
    Matrix3 := fun q =>
      !![1 - 2 * q.y * q.y - 2 * q.z * q.z, 2 * q.x * q.y - 2 * q.z * q.w,
          2 * q.x * q.z + 2 * q.y * q.w;
         2 * q.x * q.y + 2 * q.z * q.w, 1 - 2 * q.x * q.x - 2 * q.z * q.z,
          2 * q.y * q.z - 2 * q.x * q.w;
         2 * q.x * q.z - 2 * q.y * q.w, 2 * q.y * q.z + 2 * q.x * q.w,
          1 - 2 * q.x * q.x - 2 * q.y * q.y] }

/-- A camera at the origin that tracks node 1 in the node's local frame with offset (0, 1, 0)
and gain 1. -/
def trackingCamera : Camera ℚ :=
  BaseCamera.SetTrackTarget (BaseCamera.BaseCamera 0 Quaterniond.Identity)
    (some (NodeRef.other 1)) ![0, 1, 0] false

/-- An environment in which every node is at (5, 0, 0), turned half a turn about the z axis. -/
def halfTurnEnv : Nat → Pose3d ℚ := fun _ => ⟨![5, 0, 0], ⟨0, 0, 0, 1⟩⟩

/-- A camera at (1, 2, 3) that follows node 1 in world frame with offset (0, 0, 1) and gain
one half. -/
def followingCamera : Camera ℚ :=
  BaseCamera.SetFollowPGain
    (BaseCamera.SetFollowTarget (BaseCamera.BaseCamera ![1, 2, 3] Quaterniond.Identity)
      (some (NodeRef.other 1)) ![0, 0, 1] true) (1 / 2)

/-- Both gains of the camera lie in the interval from 0 to 1. -/
def GainsInRange {K : Type} [LinearOrderedField K] (c : Camera K) : Prop :=
  0 ≤ c.followPGain ∧ c.followPGain ≤ 1 ∧ 0 ≤ c.trackPGain ∧ c.trackPGain ≤ 1

/-- A camera at the origin that tracks node 1 in world frame with offset (0, 1, 0) and
gain 1. -/
def worldTrackingCamera : Camera ℚ :=
  BaseCamera.SetTrackTarget (BaseCamera.BaseCamera 0 Quaterniond.Identity)
    (some (NodeRef.other 1)) ![0, 1, 0] true

/-- A client session after initialization: a creation, then `Clear()` and `Destroy()`. -/
def laterSession : List Op := [Op.CreateK Kind.Visual, Op.Clear, Op.Destroy]

/-- The upper-left 3x3 block of a 4x4 matrix. -/
def Matrix4d.upperLeft3 {K : Type} (m : Matrix4d K) : Matrix3d K :=
  fun i j => m i.castSucc j.castSucc

/-- A camera at (1, 2, 3) with the identity rotation. -/
def posedCamera : Camera ℚ := BaseCamera.BaseCamera ![1, 2, 3] Quaterniond.Identity

/-! ## The C++ type `double`: IEEE 754 binary64

Where a claim turns on rounding, overflow or NaN, a `double` is a value of the type `Double`
below, and the code of the camera that the claim is about is embedded over it in the namespace
`Binary64`.

* Every finite binary64 number is an integer multiple of the smallest subnormal, 2^(-1074);
  `Double.finite neg n` is the number (-1)^neg * n * 2^(-1074).  Both zeros exist.
* The arithmetic operations compute the exact result and round it to the nearest representable
  number, ties to the even significand (the default rounding mode); a result of magnitude 2^1024
  or more after rounding is an infinity.  Each operation of an expression is rounded on its own
  (no fused multiply-add).
* NaN payloads are not told apart, and no operation traps.
-/

/-- A value of the C++ type `double`.  `finite neg n` is the number (-1)^neg * n * 2^(-1074),
`inf neg` the infinity of that sign, `nan` a NaN. -/
inductive Double
  | finite (neg : Bool) (n : Nat)
  | inf (neg : Bool)
  | nan
deriving DecidableEq

namespace Double

/-- Binary search for the leading bit of `n`: `acc` is raised by 2^(k-1), ..., 2, 1 in turn,
each time `n` has a bit at or above the raised position. -/
def ilog2Aux (n : Nat) : Nat → Nat → Nat
  | 0, acc => acc
  | k + 1, acc => ilog2Aux n k (if n >>> (acc + 2 ^ k) = 0 then acc else acc + 2 ^ k)

/-- Position of the leading bit of `n`: the largest `e` with 2^e ≤ n, for 0 < n < 2^8192
(see `ilog2_spec`); 0 for n = 0. -/
def ilog2 (n : Nat) : Nat := ilog2Aux n 13 0

/-- The multiple `n` of 2^(-1074) is a binary64 number: it has at most 53 significant bits (it
is a multiple of 2^(e - 52), `e` the position of its leading bit) and is below 2^1024, which is
2^2098 in units of 2^(-1074). -/
def representable (n : Nat) : Bool :=
  decide (n % (1 <<< (ilog2 n - 52)) = 0 ∧ n >>> 2098 = 0)

/-- The value is one a `double` can hold. -/
def valid : Double → Bool
  | finite _ n => representable n
  | _ => true

/-- Rounding to nearest, ties to even, of the exact magnitude (p / q) * 2^(-1074), `q` positive,
with the sign `neg`.  With `e` the position of the leading bit of the integer part of p / q, the
spacing of the representable numbers around p / q is 2^(e - 52) units (1 unit when e ≤ 52,
which covers the subnormal numbers); `m` is the quotient of p / q by that spacing, rounded. -/
def round (neg : Bool) (p q : Nat) : Double :=
  let shift := ilog2 (p / q) - 52
  let d := q <<< shift
  let m := p / d
  let r := p % d
  let m := if d < 2 * r ∨ (d = 2 * r ∧ m % 2 = 1) then m + 1 else m
  if (m <<< shift) >>> 2098 = 0 then finite neg (m <<< shift) else inf neg

/-- The `double` a decimal literal denotes: the rational p / q (`q` positive), negated when
`neg`, rounded to nearest. -/
def ofRat (neg : Bool) (p q : Nat) : Double := round neg (p <<< 1074) q

/-- The test `std::isnan`. -/
def isNaN : Double → Bool
  | nan => true
  | _ => false

/-- The test `std::isfinite`. -/
def isFinite : Double → Bool
  | finite _ _ => true
  | _ => false

/-- Unary minus: the sign is flipped. -/
def neg : Double → Double
  | finite s n => finite (!s) n
  | inf s => inf (!s)
  | nan => nan

/-- The function `std::abs`: the sign is cleared. -/
def abs : Double → Double
  | finite _ n => finite false n
  | inf _ => inf false
  | nan => nan

/-- Addition.  Infinities of opposite sign give NaN; an exact zero sum of two numbers of
opposite sign is +0, and a sum of two zeros of the same sign keeps that sign. -/
def add : Double → Double → Double
  | nan, _ => nan
  | _, nan => nan
  | inf s, inf t => if s = t then inf s else nan
  | inf s, finite _ _ => inf s
  | finite _ _, inf t => inf t
  | finite s a, finite t b =>
    if s = t then round s (a + b) 1
    else if a = b then finite false 0
    else if b < a then round s (a - b) 1
    else round t (b - a) 1

/-- Subtraction: `a - b` is `a + (-b)`. -/
def sub (a b : Double) : Double := add a (neg b)

/-- Multiplication.  The sign is the exclusive or of the signs; zero times infinity is NaN.
The exact product of n * 2^(-1074) and k * 2^(-1074) is (n * k / 2^1074) * 2^(-1074). -/
def mul : Double → Double → Double
  | nan, _ => nan
  | _, nan => nan
  | inf s, inf t => inf (xor s t)
  | inf s, finite t b => if b = 0 then nan else inf (xor s t)
  | finite s a, inf t => if a = 0 then nan else inf (xor s t)
  | finite s a, finite t b => round (xor s t) (a * b) (1 <<< 1074)

/-- Division.  Zero by zero and infinity by infinity are NaN; a nonzero number by zero is an
infinity.  The exact quotient of n * 2^(-1074) by k * 2^(-1074) is
(n * 2^1074 / k) * 2^(-1074). -/
def div : Double → Double → Double
  | nan, _ => nan
  | _, nan => nan
  | inf _, inf _ => nan
  | inf s, finite t _ => inf (xor s t)
  | finite s _, inf t => finite (xor s t) 0
  | finite s a, finite t b =>
    if b = 0 then (if a = 0 then nan else inf (xor s t))
    else round (xor s t) (a <<< 1074) b

/-- The comparison `a < b`: false when an operand is NaN; the two zeros compare equal. -/
def lt : Double → Double → Bool
  | nan, _ => false
  | _, nan => false
  | inf s, inf t => s && !t
  | inf s, finite _ _ => s
  | finite _ _, inf t => !t
  | finite false a, finite false b => decide (a < b)
  | finite false _, finite true _ => false
  | finite true a, finite false b => decide (0 < a ∨ 0 < b)
  | finite true a, finite true b => decide (b < a)

/-- The comparison `a <= b`: false when an operand is NaN; the two zeros compare equal. -/
def le : Double → Double → Bool
  | nan, _ => false
  | _, nan => false
  | inf s, inf t => s || !t
  | inf s, finite _ _ => s
  | finite _ _, inf t => !t
  | finite false a, finite false b => decide (a ≤ b)
  | finite false a, finite true b => decide (a = 0 ∧ b = 0)
  | finite true _, finite false _ => true
  | finite true a, finite true b => decide (b ≤ a)

/-- The comparison `a == b`: false when an operand is NaN; the two zeros compare equal. -/
def eq : Double → Double → Bool
  | nan, _ => false
  | _, nan => false
  | inf s, inf t => decide (s = t)
  | inf _, finite _ _ => false
  | finite _ _, inf _ => false
  | finite s a, finite t b => decide ((s = t ∧ a = b) ∨ (a = 0 ∧ b = 0))

instance : Zero Double := ⟨finite false 0⟩

instance : One Double := ⟨finite false (1 <<< 1074)⟩

instance : Neg Double := ⟨neg⟩

instance : Add Double := ⟨add⟩

instance : Sub Double := ⟨sub⟩

instance : Mul Double := ⟨mul⟩

instance : Div Double := ⟨div⟩

instance : LT Double := ⟨fun a b => lt a b = true⟩

instance : LE Double := ⟨fun a b => le a b = true⟩

instance (a b : Double) : Decidable (a < b) := inferInstanceAs (Decidable (lt a b = true))

instance (a b : Double) : Decidable (a ≤ b) := inferInstanceAs (Decidable (le a b = true))

end Double

/-! ## The camera over `double`

The members of `BaseCamera.hh` that write the gains or the world position of the camera,
embedded a second time, now with `Double` for the C++ type `double`.  The state is the same
record `Camera`, the operations are the same `CameraOp`, and each definition follows the same
source lines as its namesake above; sums, differences, products and quotients are the rounded
operations of `Double`, comparisons are the comparisons of `Double`. -/

namespace Binary64

namespace std

/-- The function `std::min(a, b)` of the C++ standard library: `(b < a) ? b : a`. -/
def min (a b : Double) : Double := if b < a then b else a

/-- The function `std::max(a, b)` of the C++ standard library: `(a < b) ? b : a`. -/
def max (a b : Double) : Double := if a < b then b else a

end std

namespace math

/-- Model of `ignition::math::clamp(v, min, max)` (ignition-math, `Helpers.hh`):
`std::max(std::min(v, max), min)`. -/
def clamp (_v _min _max : Double) : Double := std.max (std.min _v _max) _min

/-- Model of `ignition::math::equal(a, b)` (ignition-math, `Helpers.hh`) with its default
tolerance: `std::abs(a - b) <= 1e-6`. -/
def equal (_a _b : Double) : Bool := decide (Double.abs (_a - _b) ≤ Double.ofRat false 1 1000000)

end math

namespace Vector3d

/-- Model of `Vector3d::operator*(double)`: every component times the scalar. -/
def mulScalar (v : Vector3d Double) (k : Double) : Vector3d Double := fun i => v i * k

end Vector3d

namespace Quaterniond

/-- `math::Quaterniond::Identity`. -/
def Identity : Quaterniond Double := ⟨1, 0, 0, 0⟩

/-- Model of `Quaterniond::operator*(const Quaterniond &)`: the Hamilton product. -/
def mul (a b : Quaterniond Double) : Quaterniond Double :=
  ⟨a.w * b.w - a.x * b.x - a.y * b.y - a.z * b.z,
   a.w * b.x + a.x * b.w + a.y * b.z - a.z * b.y,
   a.w * b.y - a.x * b.z + a.y * b.w + a.z * b.x,
   a.w * b.z + a.x * b.y - a.y * b.x + a.z * b.w⟩

/-- Model of `Quaterniond::Inverse()`: the conjugate divided by the squared norm, the identity
when the squared norm equals zero. -/
def Inverse (q : Quaterniond Double) : Quaterniond Double :=
  let s := q.w * q.w + q.x * q.x + q.y * q.y + q.z * q.z
  if math.equal s 0 then ⟨1, 0, 0, 0⟩ else ⟨q.w / s, -q.x / s, -q.y / s, -q.z / s⟩

/-- The vector `v` rotated by `q`, as `Pose3d::CoordPositionAdd` computes it:
`q * ((0, v) * q.Inverse())`. -/
def RotateVector (q : Quaterniond Double) (v : Vector3d Double) : Vector3d Double :=
  let tmp : Quaterniond Double := ⟨0, v 0, v 1, v 2⟩
  let tmp := mul q (mul tmp (Inverse q))
  ![tmp.x, tmp.y, tmp.z]

end Quaterniond

namespace Pose3d

/-- Model of `Pose3d::operator+=(const Pose3d &_pose)`: the position becomes `_pose.Pos()` plus
this position rotated by `_pose.Rot()`, the rotation becomes `_pose.Rot() * this->Rot()`. -/
def add (self _pose : Pose3d Double) : Pose3d Double :=
  { Pos := _pose.Pos + Quaterniond.RotateVector _pose.Rot self.Pos
    Rot := Quaterniond.mul _pose.Rot self.Rot }

end Pose3d

namespace BaseCamera

/-- `BaseCamera<T>::BaseCamera()`, lines 209-212, with the default member initializers of
lines 165-205; the node starts at the given world pose. -/
def BaseCamera (position : Vector3d Double) (rotation : Quaterniond Double) : Camera Double :=
  { worldPosition := position
    worldRotation := rotation
    nearClip := Double.ofRat false 1 100
    farClip := Double.ofRat false 1000 1
    aspect := Double.ofRat false 13333333 10000000
    hfov := 0
    antiAliasing := 0
    trackNode := none
    trackWorldFrame := false
    trackOffset := 0
    trackPGain := 1
    followNode := none
    followWorldFrame := false
    followPGain := 1
    followOffset := 0 }

/-- Modelled from the spec: `WorldPosition()` of the node (`BaseNode`, not under src/). -/
def WorldPosition (c : Camera Double) : Vector3d Double := c.worldPosition

/-- Modelled from the spec: `SetWorldPosition` of the node (`BaseNode`, not under src/). -/
def SetWorldPosition (c : Camera Double) (_position : Vector3d Double) : Camera Double :=
  { c with worldPosition := _position }

/-- Modelled from the spec: `WorldRotation()` of the node (`BaseNode`, not under src/). -/
def WorldRotation (c : Camera Double) : Quaterniond Double := c.worldRotation

/-- Modelled from the spec: `SetWorldRotation` of the node (`BaseNode`, not under src/). -/
def SetWorldRotation (c : Camera Double) (_rotation : Quaterniond Double) : Camera Double :=
  { c with worldRotation := _rotation }

/-- Modelled from the spec: `WorldPose()` of the node (`BaseNode`, not under src/). -/
def WorldPose (c : Camera Double) : Pose3d Double := ⟨c.worldPosition, c.worldRotation⟩

/-- The world pose of the node a `NodePtr` of the camera points to. -/
def nodeWorldPose (env : Nat → Pose3d Double) (c : Camera Double) : NodeRef → Pose3d Double
  | .self => WorldPose c
  | .other id => env id

/-- `BaseCamera<T>::SetHFOV`, lines 516-521. -/
def SetHFOV (c : Camera Double) (_hfov : Double) : Camera Double := { c with hfov := _hfov }

/-- `BaseCamera<T>::SetAspectRatio`, lines 530-535. -/
def SetAspectRatio (c : Camera Double) (_aspect : Double) : Camera Double :=
  { c with aspect := _aspect }

/-- `BaseCamera<T>::SetAntiAliasing`, lines 544-549. -/
def SetAntiAliasing (c : Camera Double) (_aa : Nat) : Camera Double :=
  { c with antiAliasing := _aa }

/-- `BaseCamera<T>::SetFarClipPlane`, lines 558-563. -/
def SetFarClipPlane (c : Camera Double) (_far : Double) : Camera Double :=
  { c with farClip := _far }

/-- `BaseCamera<T>::SetNearClipPlane`, lines 572-577. -/
def SetNearClipPlane (c : Camera Double) (_near : Double) : Camera Double :=
  { c with nearClip := _near }

/-- `BaseCamera<T>::SetTrackTarget`, lines 579-587. -/
def SetTrackTarget (c : Camera Double) (_target : Option NodeRef) (_offset : Vector3d Double)
    (_worldFrame : Bool) : Camera Double :=
  { c with trackNode := _target, trackWorldFrame := _worldFrame, trackOffset := _offset }

/-- `BaseCamera<T>::SetTrackOffset`, lines 603-608. -/
def SetTrackOffset (c : Camera Double) (_offset : Vector3d Double) : Camera Double :=
  { c with trackOffset := _offset }

/-- `BaseCamera<T>::SetTrackPGain`, lines 610-615. -/
def SetTrackPGain (c : Camera Double) (_pGain : Double) : Camera Double :=
  { c with trackPGain := math.clamp _pGain 0 1 }

/-- `BaseCamera<T>::TrackPGain()`, lines 617-622. -/
def TrackPGain (c : Camera Double) : Double := c.trackPGain

/-- `BaseCamera<T>::SetFollowTarget`, lines 624-632. -/
def SetFollowTarget (c : Camera Double) (_target : Option NodeRef) (_offset : Vector3d Double)
    (_worldFrame : Bool) : Camera Double :=
  { c with followNode := _target, followWorldFrame := _worldFrame, followOffset := _offset }

/-- `BaseCamera<T>::SetFollowOffset`, lines 648-653. -/
def SetFollowOffset (c : Camera Double) (_offset : Vector3d Double) : Camera Double :=
  { c with followOffset := _offset }

/-- `BaseCamera<T>::SetFollowPGain`, lines 655-660. -/
def SetFollowPGain (c : Camera Double) (_pGain : Double) : Camera Double :=
  { c with followPGain := math.clamp _pGain 0 1 }

/-- `BaseCamera<T>::FollowPGain()`, lines 662-667. -/
def FollowPGain (c : Camera Double) : Double := c.followPGain

/-- `BaseCamera<T>::PreRender()`, the block "camera following", lines 280-303. -/
def PreRender_follow (env : Nat → Pose3d Double) (c : Camera Double) : Camera Double :=
  match c.followNode with
  | none => c
  | some followNode =>
    if c.followWorldFrame then
      let targetCamPos := (nodeWorldPose env c followNode).Pos + c.followOffset
      let pos := WorldPosition c +
        Vector3d.mulScalar (targetCamPos - WorldPosition c) c.followPGain
      SetWorldPosition c pos
    else
      let targetCamPose : Pose3d Double := ⟨c.followOffset, WorldRotation c⟩
      let targetCamPose := Pose3d.add targetCamPose (nodeWorldPose env c followNode)
      let pos := WorldPosition c +
        Vector3d.mulScalar (targetCamPose.Pos - WorldPosition c) c.followPGain
      SetWorldPosition c pos

/-- The point the camera is turned to: `targetPose.Pos()` of lines 309-318. -/
def trackPoint (env : Nat → Pose3d Double) (c : Camera Double) (trackNode : NodeRef) :
    Vector3d Double :=
  let targetPose : Pose3d Double := ⟨c.trackOffset, Quaterniond.Identity⟩
  let targetPose :=
    if c.trackWorldFrame then
      { targetPose with Pos := targetPose.Pos + (nodeWorldPose env c trackNode).Pos }
    else
      Pose3d.add targetPose (nodeWorldPose env c trackNode)
  targetPose.Pos

/-- `BaseCamera<T>::PreRender()`, the block "camera tracking", lines 305-331. -/
def PreRender_track (M : ExternalMath Double) (env : Nat → Pose3d Double) (c : Camera Double) :
    Camera Double :=
  match c.trackNode with
  | none => c
  | some trackNode =>
    let eye := WorldPosition c
    let target := trackPoint env c trackNode
    let p := M.LookAtRot eye target
    let q := if !(math.equal c.trackPGain 1) then M.Slerp c.trackPGain (WorldRotation c) p true
      else p
    SetWorldRotation c q

/-- `BaseCamera<T>::PreRender()`, lines 272-332.  The calls `T::PreRender()` and
`this->RenderTarget()->PreRender()` that come first are calls into the backend; they leave the
members modelled here alone. -/
def PreRender (M : ExternalMath Double) (env : Nat → Pose3d Double) (c : Camera Double) :
    Camera Double :=
  PreRender_track M env (PreRender_follow env c)

/-- One operation applied to a camera. -/
def step (M : ExternalMath Double) (c : Camera Double) : CameraOp Double → Camera Double
  | .SetHFOV hfov => SetHFOV c hfov
  | .SetAspectRatio aspect => SetAspectRatio c aspect
  | .SetAntiAliasing aa => SetAntiAliasing c aa
  | .SetFarClipPlane far => SetFarClipPlane c far
  | .SetNearClipPlane near => SetNearClipPlane c near
  | .SetTrackTarget target offset worldFrame => SetTrackTarget c target offset worldFrame
  | .SetTrackOffset offset => SetTrackOffset c offset
  | .SetTrackPGain pGain => SetTrackPGain c pGain
  | .SetFollowTarget target offset worldFrame => SetFollowTarget c target offset worldFrame
  | .SetFollowOffset offset => SetFollowOffset c offset
  | .SetFollowPGain pGain => SetFollowPGain c pGain
  | .SetWorldPosition position => SetWorldPosition c position
  | .SetWorldRotation rotation => SetWorldRotation c rotation
  | .PreRender env => PreRender M env c

/-- A sequence of operations applied in order. -/
def run (M : ExternalMath Double) : List (CameraOp Double) → Camera Double → Camera Double
  | [], c => c
  | op :: ops, c => run M ops (step M c op)

end BaseCamera

end Binary64

/-- The operation is not a call of a gain setter with NaN. -/
def CameraOp.gainIsNumber : CameraOp Double → Bool
  | .SetTrackPGain pGain => !Double.isNaN pGain
  | .SetFollowPGain pGain => !Double.isNaN pGain
  | _ => true

/-- A stand-in over `double` for the external functions, used to evaluate the camera on
concrete inputs: identity for `tan` and `atan`, the direction from eye to target as the
look-at "rotation", the first end for `Slerp`, and the zero matrix. -/
def binary64Math : ExternalMath Double :=
  { tan := fun a => a
    atan := fun a => a
    LookAtRot := fun eye target => ⟨0, target 0 - eye 0, target 1 - eye 1, target 2 - eye 2⟩
    Slerp := fun _ p _ _ => p
    Matrix3 := fun _ => fun _ _ => 0 }

/-- The number 1e16 as a `double`. -/
def Double.tenTo16 : Double := Double.ofRat false 10000000000000000 1

/-- An environment in which every node is at (1, 0, 0) with the identity rotation. -/
def unitXEnv : Nat → Pose3d Double := fun _ => ⟨![1, 0, 0], Binary64.Quaterniond.Identity⟩

/-- A camera at (1e16, 0, 0) that follows node 1 in world frame with offset (0, 0, 0) and the
default gain 1. -/
def farCamera : Camera Double :=
  Binary64.BaseCamera.SetFollowTarget
    (Binary64.BaseCamera.BaseCamera ![Double.tenTo16, 0, 0] Binary64.Quaterniond.Identity)
    (some (NodeRef.other 1)) 0 true

/-- Both gains of the camera compare as lying between 0 and 1. -/
def Binary64.GainsInRange (c : Camera Double) : Prop :=
  0 ≤ c.followPGain ∧ c.followPGain ≤ 1 ∧ 0 ≤ c.trackPGain ∧ c.trackPGain ≤ 1

/-- A sequence of calls on a camera: gains 2.5 and -3 are set, a frame is rendered, and the
follow gain is set to 0.25. -/
def gainSession : List (CameraOp Double) :=
  [CameraOp.SetFollowPGain (Double.ofRat false 5 2),
   CameraOp.SetTrackPGain (Double.ofRat true 3 1),
   CameraOp.PreRender unitXEnv,
   CameraOp.SetFollowPGain (Double.ofRat false 1 4)]

/-- The largest finite `double`, (2^53 - 1) * 2^971 (the constant `DBL_MAX`). -/
def Double.maxFinite : Double := Double.finite false (9007199254740991 <<< 2045)

/-- An environment in which every node is at (-DBL_MAX, 0, 0) with the identity rotation. -/
def farLeftEnv : Nat → Pose3d Double :=
  fun _ => ⟨![-Double.maxFinite, 0, 0], Binary64.Quaterniond.Identity⟩

/-- A camera at (DBL_MAX, 0, 0) that follows node 1 in world frame with offset (0, 0, 0) and
gain one half. -/
def farRightCamera : Camera Double :=
  Binary64.BaseCamera.SetFollowPGain
    (Binary64.BaseCamera.SetFollowTarget
      (Binary64.BaseCamera.BaseCamera ![Double.maxFinite, 0, 0] Binary64.Quaterniond.Identity)
      (some (NodeRef.other 1)) 0 true) (Double.ofRat false 1 2)

/-- A camera at (3, 2, 1) that follows node 1 in world frame with offset (0, 0, 0) and the
default gain 1. -/
def nearCamera : Camera Double :=
  Binary64.BaseCamera.SetFollowTarget
    (Binary64.BaseCamera.BaseCamera
      ![Double.ofRat false 3 1, Double.ofRat false 2 1, 1] Binary64.Quaterniond.Identity)
    (some (NodeRef.other 1)) 0 true

/-! ## Lemmas on the counter and on decimal rendering -/

theorem decr_eq_mod (c : Nat) (h : c < UINT_SIZE) :
    decr c = (c + (UINT_SIZE - 1)) % UINT_SIZE := by
  unfold decr UINT_SIZE at *
  split <;> omega

theorem decr_pos (c : Nat) (h0 : 0 < c) (h : c < UINT_SIZE) : decr c = c - 1 := by
  unfold decr
  split <;> omega

theorem decr_zero : decr 0 = 4294967295 := by decide

theorem decr_lt (c : Nat) (h : c < UINT_SIZE) : decr c < UINT_SIZE := by
  unfold decr UINT_SIZE at *
  split <;> omega

theorem decimalDigits_lt : ∀ (fuel n d : Nat), d ∈ decimalDigits fuel n → d < 10 := by
  intro fuel
  induction fuel with
  | zero => intro n d h; simp [decimalDigits] at h
  | succ f ih =>
    intro n d h
    unfold decimalDigits at h
    split at h
    · simp at h; omega
    · rcases List.mem_cons.mp h with h1 | h1
      · omega
      · exact ih _ _ h1

theorem decimalValue_decimalDigits : ∀ (fuel n : Nat), n < fuel →
    decimalValue (decimalDigits fuel n) = n := by
  intro fuel
  induction fuel with
  | zero => intro n h; omega
  | succ f ih =>
    intro n h
    unfold decimalDigits
    split
    · simp [decimalValue]
    · have h1 : n / 10 < f := by omega
      simp only [decimalValue, ih _ h1]
      omega

theorem decimalDigits_ne_nil : ∀ (fuel n : Nat), n < fuel → decimalDigits fuel n ≠ [] := by
  intro fuel n h
  cases fuel with
  | zero => omega
  | succ f =>
    unfold decimalDigits
    split <;> simp

theorem decimalDigits_getLast : ∀ (fuel n : Nat), n < fuel → 0 < n →
    ∀ d, (decimalDigits fuel n).getLast? = some d → d ≠ 0 := by
  intro fuel
  induction fuel with
  | zero => intro n h; omega
  | succ f ih =>
    intro n h hn d hd
    unfold decimalDigits at hd
    split at hd
    · simp at hd; omega
    · have h1 : n / 10 < f := by omega
      have h2 : 0 < n / 10 := by omega
      obtain ⟨x, xs, hx⟩ := List.exists_cons_of_ne_nil (decimalDigits_ne_nil f (n / 10) h1)
      rw [hx, List.getLast?_cons_cons, ← hx] at hd
      exact ih _ h1 h2 d hd

theorem digitChar_isDigit (d : Nat) (h : d < 10) : (Char.ofNat (48 + d)).isDigit = true := by
  interval_cases d <;> decide

theorem digitChar_ne_zero (d : Nat) (h : d < 10) (h0 : d ≠ 0) : Char.ofNat (48 + d) ≠ '0' := by
  interval_cases d <;> first | omega | decide

theorem digitChar_toNat (d : Nat) (h : d < 10) : (Char.ofNat (48 + d)).toNat - 48 = d := by
  interval_cases d <;> decide

theorem foldr_digits (ds : List Nat) (h : ∀ d ∈ ds, d < 10) :
    ds.foldr (fun d acc => 10 * acc + ((Char.ofNat (48 + d)).toNat - 48)) 0 = decimalValue ds := by
  induction ds with
  | nil => rfl
  | cons d ds ih =>
    have hd : d < 10 := h d (List.mem_cons_self _ _)
    have ih1 := ih (fun x hx => h x (List.mem_cons_of_mem _ hx))
    simp only [List.foldr_cons, ih1, digitChar_toNat d hd, decimalValue]
    omega

theorem parseDecimal_to_string (n : Nat) : parseDecimal (to_string n) = n := by
  unfold parseDecimal to_string
  simp only [List.foldl_map, List.foldl_reverse]
  rw [foldr_digits _ (fun d hd => decimalDigits_lt _ _ d hd)]
  exact decimalValue_decimalDigits _ _ (Nat.lt_succ_self n)

theorem to_string_isDigit (n : Nat) : ∀ ch ∈ (to_string n).data, ch.isDigit = true := by
  intro ch hch
  unfold to_string at hch
  simp only [List.mem_map, List.mem_reverse] at hch
  obtain ⟨d, hd, rfl⟩ := hch
  exact digitChar_isDigit d (decimalDigits_lt _ _ d hd)

theorem to_string_head (n : Nat) (hn : 0 < n) : (to_string n).data.head? ≠ some '0' := by
  unfold to_string
  simp only [List.head?_map, List.head?_reverse]
  intro h
  cases hl : (decimalDigits (n + 1) n).getLast? with
  | none => rw [hl] at h; simp at h
  | some d =>
    rw [hl] at h
    simp only [Option.map_some', Option.some.injEq] at h
    have hd0 := decimalDigits_getLast _ _ (Nat.lt_succ_self n) hn d hl
    have hd10 : d < 10 := decimalDigits_lt _ _ d (List.mem_of_getLast?_eq_some hl)
    exact digitChar_ne_zero d hd10 hd0 h

namespace BaseScene

theorem CreateObjectIds_eq : ∀ (n : Nat) (s : Scene), n ≤ s.nextObjectId + 1 →
    s.nextObjectId < UINT_SIZE →
    (CreateObjectIds n s).1 = (List.range n).map (fun i => s.nextObjectId - i) := by
  intro n
  induction n with
  | zero => intro s _ _; rfl
  | succ n ih =>
    intro s hn hc
    rw [List.range_succ_eq_map]
    simp only [CreateObjectIds, List.map_cons, List.map_map, Nat.sub_zero]
    congr 1
    cases n with
    | zero => rfl
    | succ m =>
      have h0 : 0 < s.nextObjectId := by omega
      have hd : (CreateObjectId s).2.nextObjectId = s.nextObjectId - 1 := decr_pos _ h0 hc
      rw [ih (CreateObjectId s).2 (by rw [hd]; omega) (by rw [hd]; omega), hd]
      apply List.map_congr_left
      intro i _
      simp only [Function.comp]
      omega

end BaseScene

/-! ## How the operations move the counter, the lifecycle flags and the trace -/

theorem issuedIds_append (a b : List Event) :
    BaseScene.issuedIds (a ++ b) = BaseScene.issuedIds a ++ BaseScene.issuedIds b := by
  induction a with
  | nil => rfl
  | cons e es ih => cases e <;> simp [BaseScene.issuedIds, ih]

theorem idSeq_add (c k1 k2 : Nat) : idSeq c (k1 + k2) = idSeq c k1 ++ idSeq (decr^[k1] c) k2 := by
  unfold idSeq
  rw [List.range_add, List.map_append, List.map_map]
  congr 1
  apply List.map_congr_left
  intro i _
  simp only [Function.comp]
  rw [Nat.add_comm k1 i, Function.iterate_add_apply]

theorem decr_iterate_mod (c : Nat) : ∀ i : Nat, (decr^[i] c + i) % UINT_SIZE = c % UINT_SIZE := by
  intro i
  induction i with
  | zero => rfl
  | succ i ih =>
    rw [Function.iterate_succ_apply']
    generalize decr^[i] c = y at ih ⊢
    unfold decr UINT_SIZE at *
    split <;> omega

theorem idSeq_nodup (c k : Nat) (hk : k ≤ UINT_SIZE) : (idSeq c k).Nodup := by
  unfold idSeq
  refine List.Nodup.map_on ?_ (List.nodup_range k)
  intro i hi j hj hij
  have h1 := decr_iterate_mod c i
  have h2 := decr_iterate_mod c j
  have hi1 := List.mem_range.mp hi
  have hj1 := List.mem_range.mp hj
  rw [hij] at h1
  unfold UINT_SIZE at *
  omega

theorem idSeq_length (c k : Nat) : (idSeq c k).length = k := by simp [idSeq]

theorem Life.life_refl (s : Scene) : Life s s := ⟨rfl, rfl, rfl, rfl, rfl⟩

theorem Life.life_trans {a b c : Scene} (h1 : Life a b) (h2 : Life b c) : Life a c := by
  obtain ⟨a1, a2, a3, a4, a5⟩ := h1
  obtain ⟨b1, b2, b3, b4, b5⟩ := h2
  exact ⟨b1.trans a1, b2.trans a2, b3.trans a3, b4.trans a4, b5.trans a5⟩

theorem Adv.adv_refl (s : Scene) : Adv s s := ⟨0, by simp [idSeq], rfl⟩

theorem Adv.adv_trans {a b c : Scene} (h1 : Adv a b) (h2 : Adv b c) : Adv a c := by
  obtain ⟨k1, e1, c1⟩ := h1
  obtain ⟨k2, e2, c2⟩ := h2
  refine ⟨k1 + k2, ?_, ?_⟩
  · rw [e2, e1, c1, idSeq_add, List.append_assoc]
  · rw [c2, c1, Nat.add_comm k1 k2, Function.iterate_add_apply]

theorem Adv.adv_of_eq {s s' : Scene} (h1 : s'.nextObjectId = s.nextObjectId)
    (h2 : BaseScene.issuedIds s'.trace = BaseScene.issuedIds s.trace) : Adv s s' :=
  ⟨0, by simp [idSeq, h2], h1⟩

theorem Quiet.quiet_refl (s : Scene) : Quiet s s := ⟨Life.life_refl s, rfl, rfl⟩

theorem Quiet.quiet_trans {a b c : Scene} (h1 : Quiet a b) (h2 : Quiet b c) : Quiet a c :=
  ⟨h1.1.life_trans h2.1, h2.2.1.trans h1.2.1, h2.2.2.trans h1.2.2⟩

theorem Quiet.to_adv {s s' : Scene} (h : Quiet s s') : Adv s s' := Adv.adv_of_eq h.2.1 h.2.2

namespace BaseScene

theorem CreateObjectId_life (s : Scene) : Life s (CreateObjectId s).2 := ⟨rfl, rfl, rfl, rfl, rfl⟩

theorem CreateObjectId_adv (s : Scene) : Adv s (CreateObjectId s).2 :=
  ⟨1, by simp [CreateObjectId, issuedIds_append, issuedIds, idSeq], rfl⟩

theorem emit_quiet (s : Scene) (es : List Event) (h : issuedIds es = []) : Quiet s (s.emit es) :=
  ⟨⟨rfl, rfl, rfl, rfl, rfl⟩, rfl, by simp [Scene.emit, issuedIds_append, h]⟩

theorem setStore_quiet (s : Scene) (k : StoreKind) (st : Store) : Quiet s (s.setStore k st) := by
  cases k <;> exact ⟨⟨rfl, rfl, rfl, rfl, rfl⟩, rfl, rfl⟩

theorem RegisterLight_quiet (s : Scene) (p : ObjectPtr) : Quiet s (RegisterLight s p).2 := by
  cases p with
  | none => exact Quiet.quiet_refl s
  | some o => exact ⟨⟨rfl, rfl, rfl, rfl, rfl⟩, rfl, by simp [RegisterLight, issuedIds_append, issuedIds]⟩

theorem RegisterSensor_quiet (s : Scene) (p : ObjectPtr) : Quiet s (RegisterSensor s p).2 := by
  cases p with
  | none => exact Quiet.quiet_refl s
  | some o => exact ⟨⟨rfl, rfl, rfl, rfl, rfl⟩, rfl, by simp [RegisterSensor, issuedIds_append, issuedIds]⟩

theorem RegisterVisual_quiet (s : Scene) (p : ObjectPtr) : Quiet s (RegisterVisual s p).2 := by
  cases p with
  | none => exact Quiet.quiet_refl s
  | some o => exact ⟨⟨rfl, rfl, rfl, rfl, rfl⟩, rfl, by simp [RegisterVisual, issuedIds_append, issuedIds]⟩

theorem Register_quiet (k : Kind) (s : Scene) (p : ObjectPtr) : Quiet s (Register k s p).2 := by
  cases k
  · exact RegisterLight_quiet s p
  · exact RegisterLight_quiet s p
  · exact RegisterLight_quiet s p
  · exact RegisterSensor_quiet s p
  · exact RegisterVisual_quiet s p
  · exact RegisterVisual_quiet s p
  · exact RegisterVisual_quiet s p

theorem CreateK_id_name_quiet (B : Backend) (k : Kind) (s : Scene) (_id : Nat) (_name : String) :
    Quiet s (CreateK_id_name B k s _id _name).2 :=
  (emit_quiet s [Event.CreateImpl k _id _name] rfl).quiet_trans (Register_quiet k _ _)

theorem CreateK_id_quiet (B : Backend) (k : Kind) (s : Scene) (_id : Nat) :
    Quiet s (CreateK_id B k s _id).2 :=
  CreateK_id_name_quiet B k s _id _

theorem callCreateMaterialImpl_quiet (B : Backend) (s : Scene) (objId : Nat) (objName : String) :
    Quiet s (callCreateMaterialImpl B s objId objName).2 := by
  unfold callCreateMaterialImpl
  cases B.CreateMaterialImpl s.trace objId objName with
  | none => exact emit_quiet s [Event.CreateMaterialImpl objId objName] rfl
  | some m => exact ⟨⟨rfl, rfl, rfl, rfl, rfl⟩, rfl, by simp [issuedIds_append, issuedIds]⟩

theorem RegisterMaterial_quiet (s : Scene) (_name : String) (p : Option Nat) :
    Quiet s (RegisterMaterial s _name p) := by
  cases p with
  | none => exact Quiet.quiet_refl s
  | some h => exact ⟨⟨rfl, rfl, rfl, rfl, rfl⟩, rfl, rfl⟩

theorem withMaterial_quiet (s s' : Scene) (p : Option Nat) (f : Material → Material)
    (h : withMaterial s p f = some s') : Quiet s s' := by
  unfold withMaterial at h
  cases p with
  | none => simp at h
  | some handle =>
    simp only at h
    cases hm : s.heap.get? handle with
    | none => rw [hm] at h; simp at h
    | some m =>
      rw [hm] at h
      simp only [Option.some.injEq] at h
      subst h
      exact ⟨⟨rfl, rfl, rfl, rfl, rfl⟩, rfl, rfl⟩

theorem withMaterialSeq_quiet (p : Option Nat) : ∀ (fs : List (Material → Material))
    (s s' : Scene), withMaterialSeq s p fs = some s' → Quiet s s' := by
  intro fs
  induction fs with
  | nil =>
    intro s s' h
    simp only [withMaterialSeq, Option.some.injEq] at h
    subst h
    exact Quiet.quiet_refl s
  | cons f fs ih =>
    intro s s' h
    simp only [withMaterialSeq] at h
    cases h1 : withMaterial s p f with
    | none => rw [h1] at h; simp at h
    | some s1 =>
      rw [h1] at h
      exact (withMaterial_quiet s s1 p f h1).quiet_trans (ih s1 s' h)

end BaseScene

theorem Alloc.alloc_refl (s : Scene) : Alloc s s := ⟨Life.life_refl s, Adv.adv_refl s⟩

theorem Alloc.alloc_trans {a b c : Scene} (h1 : Alloc a b) (h2 : Alloc b c) : Alloc a c :=
  ⟨h1.1.life_trans h2.1, h1.2.adv_trans h2.2⟩

theorem Quiet.to_alloc {s s' : Scene} (h : Quiet s s') : Alloc s s' := ⟨h.1, h.to_adv⟩

namespace BaseScene

theorem CreateObjectId_alloc (s : Scene) : Alloc s (CreateObjectId s).2 :=
  ⟨CreateObjectId_life s, CreateObjectId_adv s⟩

theorem CreateK_name_alloc (B : Backend) (k : Kind) (s : Scene) (_name : String) :
    Alloc s (CreateK_name B k s _name).2 :=
  (CreateObjectId_alloc s).alloc_trans (CreateK_id_name_quiet B k _ _ _).to_alloc

theorem CreateK_alloc (B : Backend) (k : Kind) (s : Scene) : Alloc s (CreateK B k s).2 :=
  (CreateObjectId_alloc s).alloc_trans (CreateK_id_quiet B k _ _).to_alloc

theorem CreateSimple_alloc (B : Backend) (k : SimpleKind) (s : Scene) :
    Alloc s (CreateSimple B k s).2 :=
  (CreateObjectId_alloc s).alloc_trans
    (emit_quiet (CreateObjectId s).2
      [Event.CreateSimpleImpl k (CreateObjectId s).1
        (CreateObjectName (CreateObjectId s).2 (CreateObjectId s).1 (simpleName k))] rfl).to_alloc

theorem CreateMesh_alloc (B : Backend) (s : Scene) (desc : MeshDescriptor) :
    Alloc s (CreateMesh B s desc).2 :=
  (CreateObjectId_alloc s).alloc_trans
    (emit_quiet (CreateObjectId s).2 [Event.CreateMeshImpl _ _] rfl).to_alloc

theorem CreateMaterial_alloc (B : Backend) (s : Scene) (_name : String) :
    Alloc s (CreateMaterial B s _name).2 :=
  (CreateObjectId_alloc s).alloc_trans
    ((callCreateMaterialImpl_quiet B _ _ _).quiet_trans (RegisterMaterial_quiet _ _ _)).to_alloc

theorem CreateMaterialFrom_alloc (B : Backend) (s : Scene) (m : CommonMaterial)
    (r : Option Nat × Scene) (h : CreateMaterialFrom B s m = some r) : Alloc s r.2 := by
  unfold CreateMaterialFrom at h
  simp only [Option.map_eq_some'] at h
  obtain ⟨s1, h1, rfl⟩ := h
  exact (CreateObjectId_alloc s).alloc_trans
    ((callCreateMaterialImpl_quiet B _ _ _).quiet_trans
      ((withMaterial_quiet _ _ _ _ h1).quiet_trans (RegisterMaterial_quiet _ _ _))).to_alloc

theorem CreateMaterials_TransRed_alloc (B : Backend) (s s' : Scene)
    (h : CreateMaterials_TransRed B s = some s') : Alloc s s' :=
  (CreateMaterial_alloc B s _).alloc_trans (withMaterialSeq_quiet _ _ _ _ h).to_alloc

theorem CreateMaterials_TransGreen_alloc (B : Backend) (s s' : Scene)
    (h : CreateMaterials_TransGreen B s = some s') : Alloc s s' :=
  (CreateMaterial_alloc B s _).alloc_trans (withMaterialSeq_quiet _ _ _ _ h).to_alloc

theorem CreateMaterials_TransBlue_alloc (B : Backend) (s s' : Scene)
    (h : CreateMaterials_TransBlue B s = some s') : Alloc s s' :=
  (CreateMaterial_alloc B s _).alloc_trans (withMaterialSeq_quiet _ _ _ _ h).to_alloc

theorem CreateMaterials_White_alloc (B : Backend) (s s' : Scene)
    (h : CreateMaterials_White B s = some s') : Alloc s s' :=
  (CreateMaterial_alloc B s _).alloc_trans (withMaterialSeq_quiet _ _ _ _ h).to_alloc

theorem CreateMaterials_alloc (B : Backend) (s s' : Scene)
    (h : CreateMaterials B s = some s') : Alloc s s' := by
  unfold CreateMaterials at h
  simp only [Option.bind_eq_some] at h
  obtain ⟨s1, h1, s2, h2, s3, h3, h4⟩ := h
  exact (CreateMaterials_TransRed_alloc B _ _ h1).alloc_trans
    ((CreateMaterials_TransGreen_alloc B _ _ h2).alloc_trans
      ((CreateMaterials_TransBlue_alloc B _ _ h3).alloc_trans (CreateMaterials_White_alloc B _ _ h4)))

theorem Load_adv (B : Backend) (s : Scene) : Adv s (Load B s) := by
  unfold Load
  split
  · exact Adv.adv_of_eq rfl (by simp [issuedIds_append, issuedIds])
  · exact Adv.adv_refl s

theorem Load_of_loaded (B : Backend) (s : Scene) (h : s.loaded = true) : Load B s = s := by
  simp [Load, h]

theorem Load_rest (B : Backend) (s : Scene) :
    (Load B s).initialized = s.initialized ∧ (Load B s).nodes = s.nodes ∧
    (Load B s).id = s.id ∧ (Load B s).name = s.name := by
  unfold Load
  split <;> exact ⟨rfl, rfl, rfl, rfl⟩

theorem Init_cases (B : Backend) (s s' : Scene) (h : Init B s = some s') :
    (s.loaded = false ∧ s' = s.emit [Event.ignerr "Scene must be loaded first"]) ∨
    (s.loaded = true ∧ s.initialized = false ∧ CreateMaterials B (afterInitImpl B s) = some s') ∨
    (s.loaded = true ∧ s.initialized = true ∧ s' = s) := by
  unfold Init at h
  by_cases hl : s.loaded = true
  · by_cases hi : s.initialized = true
    · right; right
      rw [if_neg (by simp [hl]), if_neg (by simp [hi])] at h
      exact ⟨hl, hi, (Option.some.inj h).symm⟩
    · right; left
      rw [if_neg (by simp [hl]), if_pos (by simp [hi])] at h
      exact ⟨hl, by simpa using hi, h⟩
  · left
    rw [if_pos (by simp [hl])] at h
    exact ⟨by simpa using hl, (Option.some.inj h).symm⟩

theorem afterInitImpl_adv (B : Backend) (s : Scene) : Adv s (afterInitImpl B s) :=
  Adv.adv_of_eq rfl (by simp [afterInitImpl, CreateNodeStore, issuedIds_append, issuedIds])

theorem Init_adv (B : Backend) (s s' : Scene) (h : Init B s = some s') : Adv s s' := by
  rcases Init_cases B s s' h with ⟨_, rfl⟩ | ⟨_, _, h1⟩ | ⟨_, _, rfl⟩
  · exact (emit_quiet s [Event.ignerr "Scene must be loaded first"] rfl).to_adv
  · exact (afterInitImpl_adv B s).adv_trans (CreateMaterials_alloc B _ _ h1).2
  · exact Adv.adv_refl _

theorem Init_inv (B : Backend) (s s' : Scene) (h : Init B s = some s') (hs : LifecycleInv s) :
    LifecycleInv s' := by
  rcases Init_cases B s s' h with ⟨_, rfl⟩ | ⟨hl, _, h1⟩ | ⟨_, _, rfl⟩
  · exact hs
  · obtain ⟨_, _, h3, _, h5⟩ := (CreateMaterials_alloc B _ _ h1).1
    intro _
    exact ⟨h3.trans hl, h5⟩
  · exact hs

theorem destroyAll_fold_quiet : ∀ (members : List StoreKind) (acc : Scene),
    Quiet acc (members.foldl (fun a k => a.setStore k (a.store k).DestroyAll) acc) := by
  intro members
  induction members with
  | nil => intro acc; exact Quiet.quiet_refl acc
  | cons k ks ih =>
    intro acc
    exact (setStore_quiet acc k _).quiet_trans (ih _)

theorem DestroyNodes_quiet (s s' : Scene) (h : DestroyNodes s = some s') : Quiet s s' := by
  unfold DestroyNodes at h
  simp only [Option.map_eq_some'] at h
  obtain ⟨members, _, rfl⟩ := h
  exact destroyAll_fold_quiet members s

theorem Clear_life (s s' : Scene) (h : Clear s = some s') : Life s s' := by
  unfold Clear at h
  simp only [Option.map_eq_some'] at h
  obtain ⟨s1, h1, rfl⟩ := h
  exact (DestroyNodes_quiet s s1 h1).1

/-- Every operation other than `Load` and `Init` leaves the lifecycle members alone. -/
theorem step_life (B : Backend) (s s' : Scene) (op : Op) (h : step B s op = some s')
    (h1 : op ≠ Op.Load) (h2 : op ≠ Op.Init) : Life s s' := by
  cases op with
  | Load => exact absurd rfl h1
  | Init => exact absurd rfl h2
  | Clear => exact Clear_life s s' h
  | Destroy => exact Clear_life s s' h
  | CreateK k => cases h; exact (CreateK_alloc B k s).1
  | CreateK_id k id => cases h; exact (CreateK_id_quiet B k s id).1
  | CreateK_name k name => cases h; exact (CreateK_name_alloc B k s name).1
  | CreateK_id_name k id name => cases h; exact (CreateK_id_name_quiet B k s id name).1
  | CreateSimple k => cases h; exact (CreateSimple_alloc B k s).1
  | CreateMesh desc => cases h; exact (CreateMesh_alloc B s desc).1
  | CreateMaterial name => cases h; exact (CreateMaterial_alloc B s name).1
  | CreateMaterialFrom m =>
    simp only [step, Option.map_eq_some'] at h
    obtain ⟨r, hr, rfl⟩ := h
    exact (CreateMaterialFrom_alloc B s m r hr).1
  | DestroyById st id => cases h; exact (setStore_quiet s st _).1
  | DestroyByName st name => cases h; exact (setStore_quiet s st _).1
  | DestroyByIndex st index => cases h; exact (setStore_quiet s st _).1
  | DestroyAll st => cases h; exact (setStore_quiet s st _).1
  | DestroyNodes => exact (DestroyNodes_quiet s s' h).1
  | UnregisterMaterial name => cases h; exact ⟨rfl, rfl, rfl, rfl, rfl⟩
  | UnregisterMaterials => cases h; exact ⟨rfl, rfl, rfl, rfl, rfl⟩

/-- Every operation other than `Clear` and `Destroy` moves the counter only by handing out
ids. -/
theorem step_adv (B : Backend) (s s' : Scene) (op : Op) (h : step B s op = some s')
    (h1 : op ≠ Op.Clear) (h2 : op ≠ Op.Destroy) : Adv s s' := by
  cases op with
  | Load => cases h; exact Load_adv B s
  | Init => exact Init_adv B s s' h
  | Clear => exact absurd rfl h1
  | Destroy => exact absurd rfl h2
  | CreateK k => cases h; exact (CreateK_alloc B k s).2
  | CreateK_id k id => cases h; exact (CreateK_id_quiet B k s id).to_adv
  | CreateK_name k name => cases h; exact (CreateK_name_alloc B k s name).2
  | CreateK_id_name k id name => cases h; exact (CreateK_id_name_quiet B k s id name).to_adv
  | CreateSimple k => cases h; exact (CreateSimple_alloc B k s).2
  | CreateMesh desc => cases h; exact (CreateMesh_alloc B s desc).2
  | CreateMaterial name => cases h; exact (CreateMaterial_alloc B s name).2
  | CreateMaterialFrom m =>
    simp only [step, Option.map_eq_some'] at h
    obtain ⟨r, hr, rfl⟩ := h
    exact (CreateMaterialFrom_alloc B s m r hr).2
  | DestroyById st id => cases h; exact (setStore_quiet s st _).to_adv
  | DestroyByName st name => cases h; exact (setStore_quiet s st _).to_adv
  | DestroyByIndex st index => cases h; exact (setStore_quiet s st _).to_adv
  | DestroyAll st => cases h; exact (setStore_quiet s st _).to_adv
  | DestroyNodes => exact (DestroyNodes_quiet s s' h).to_adv
  | UnregisterMaterial name => cases h; exact Adv.adv_of_eq rfl rfl
  | UnregisterMaterials => cases h; exact Adv.adv_of_eq rfl rfl

theorem step_inv (B : Backend) (s s' : Scene) (op : Op) (h : step B s op = some s')
    (hs : LifecycleInv s) : LifecycleInv s' := by
  by_cases h1 : op = Op.Load
  · subst h1
    cases h
    intro hi
    obtain ⟨r1, r2, _, _⟩ := Load_rest B s
    rw [r1] at hi
    rw [Load_of_loaded B s (hs hi).1]
    exact hs hi
  · by_cases h2 : op = Op.Init
    · subst h2
      exact Init_inv B s s' h hs
    · obtain ⟨_, _, l3, l4, l5⟩ := step_life B s s' op h h1 h2
      intro hi
      rw [l3, l5]
      exact hs (l4 ▸ hi)

theorem run_inv (B : Backend) : ∀ (ops : List Op) (s s' : Scene), run B ops s = some s' →
    LifecycleInv s → LifecycleInv s' := by
  intro ops
  induction ops with
  | nil => intro s s' h hs; cases h; exact hs
  | cons op ops ih =>
    intro s s' h hs
    simp only [run, Option.bind_eq_some] at h
    obtain ⟨s1, h1, h2⟩ := h
    exact ih s1 s' h2 (step_inv B s s1 op h1 hs)

theorem run_adv (B : Backend) : ∀ (ops : List Op) (s s' : Scene), run B ops s = some s' →
    (∀ op ∈ ops, op ≠ Op.Clear ∧ op ≠ Op.Destroy) → Adv s s' := by
  intro ops
  induction ops with
  | nil => intro s s' h _; cases h; exact Adv.adv_refl s
  | cons op ops ih =>
    intro s s' h hops
    simp only [run, Option.bind_eq_some] at h
    obtain ⟨s1, h1, h2⟩ := h
    have hop := hops op (List.mem_cons_self _ _)
    exact (step_adv B s s1 op h1 hop.1 hop.2).adv_trans
      (ih s1 s' h2 (fun o ho => hops o (List.mem_cons_of_mem _ ho)))

end BaseScene

theorem Reachable.lifecycleInv {B : Backend} {s : Scene} (h : Reachable B s) : LifecycleInv s := by
  obtain ⟨_id, _name, be, ops, hr⟩ := h
  refine BaseScene.run_inv B ops _ s hr ?_
  intro hi
  cases hi

/-! ## The default materials -/

namespace BaseScene

theorem withMaterial_last (s : Scene) (h : List Material) (m : Material)
    (f : Material → Material) (hs : s.heap = h ++ [m]) :
    withMaterial s (some h.length) f = some { s with heap := h ++ [f m] } := by
  unfold withMaterial
  simp [hs]

theorem withMaterialSeq_last (h : List Material) : ∀ (fs : List (Material → Material))
    (s : Scene) (m : Material), s.heap = h ++ [m] →
    withMaterialSeq s (some h.length) fs =
      some { s with heap := h ++ [fs.foldl (fun a f => f a) m] } := by
  intro fs
  induction fs with
  | nil => intro s m hs; simp [withMaterialSeq, ← hs]
  | cons f fs ih =>
    intro s m hs
    simp only [withMaterialSeq, withMaterial_last s h m f hs, Option.some_bind, List.foldl_cons]
    rw [ih _ (f m) rfl]

theorem CreateMaterial_some (B : Backend) (s : Scene) (key : String) (m0 : Material)
    (hk : key ≠ "")
    (hB : B.CreateMaterialImpl (s.trace ++ [Event.CreateObjectId s.nextObjectId])
      s.nextObjectId key = some m0) :
    CreateMaterial B s key = (some s.heap.length, withDefault s key m0) := by
  simp [CreateMaterial, CreateObjectId, callCreateMaterialImpl, hk, hB, RegisterMaterial,
    withDefault]

theorem CreateMaterials_TransRed_eq (B : Backend) (s : Scene)
    (hM : ∀ t i n, (B.CreateMaterialImpl t i n).isSome = true) :
    CreateMaterials_TransRed B s = some (withDefault s "Default/TransRed" transRed) := by
  obtain ⟨m0, h0⟩ := Option.isSome_iff_exists.mp
    (hM (s.trace ++ [Event.CreateObjectId s.nextObjectId]) s.nextObjectId "Default/TransRed")
  unfold CreateMaterials_TransRed
  rw [CreateMaterial_some B s _ m0 (by decide) h0]
  simp only
  rw [withMaterialSeq_last s.heap _ (withDefault s "Default/TransRed" m0) m0 rfl]
  rfl

theorem CreateMaterials_TransGreen_eq (B : Backend) (s : Scene)
    (hM : ∀ t i n, (B.CreateMaterialImpl t i n).isSome = true) :
    CreateMaterials_TransGreen B s = some (withDefault s "Default/TransGreen" transGreen) := by
  obtain ⟨m0, h0⟩ := Option.isSome_iff_exists.mp
    (hM (s.trace ++ [Event.CreateObjectId s.nextObjectId]) s.nextObjectId "Default/TransGreen")
  unfold CreateMaterials_TransGreen
  rw [CreateMaterial_some B s _ m0 (by decide) h0]
  simp only
  rw [withMaterialSeq_last s.heap _ (withDefault s "Default/TransGreen" m0) m0 rfl]
  rfl

theorem CreateMaterials_TransBlue_eq (B : Backend) (s : Scene)
    (hM : ∀ t i n, (B.CreateMaterialImpl t i n).isSome = true) :
    CreateMaterials_TransBlue B s = some (withDefault s "Default/TransBlue" transBlue) := by
  obtain ⟨m0, h0⟩ := Option.isSome_iff_exists.mp
    (hM (s.trace ++ [Event.CreateObjectId s.nextObjectId]) s.nextObjectId "Default/TransBlue")
  unfold CreateMaterials_TransBlue
  rw [CreateMaterial_some B s _ m0 (by decide) h0]
  simp only
  rw [withMaterialSeq_last s.heap _ (withDefault s "Default/TransBlue" m0) m0 rfl]
  rfl

theorem CreateMaterials_White_eq (B : Backend) (s : Scene)
    (hM : ∀ t i n, (B.CreateMaterialImpl t i n).isSome = true) :
    CreateMaterials_White B s = some (withDefault s "Default/White" white) := by
  obtain ⟨m0, h0⟩ := Option.isSome_iff_exists.mp
    (hM (s.trace ++ [Event.CreateObjectId s.nextObjectId]) s.nextObjectId "Default/White")
  unfold CreateMaterials_White
  rw [CreateMaterial_some B s _ m0 (by decide) h0]
  simp only
  rw [withMaterialSeq_last s.heap _ (withDefault s "Default/White" m0) m0 rfl]
  rfl

/-- The state `CreateMaterials` leaves when every material factory call succeeds. -/
theorem CreateMaterials_eq (B : Backend) (s : Scene)
    (hM : ∀ t i n, (B.CreateMaterialImpl t i n).isSome = true) :
    CreateMaterials B s =
      some (withDefault (withDefault (withDefault (withDefault s
        "Default/TransRed" transRed) "Default/TransGreen" transGreen)
        "Default/TransBlue" transBlue) "Default/White" white) := by
  unfold CreateMaterials
  rw [CreateMaterials_TransRed_eq B s hM, Option.some_bind,
    CreateMaterials_TransGreen_eq B _ hM, Option.some_bind,
    CreateMaterials_TransBlue_eq B _ hM, Option.some_bind,
    CreateMaterials_White_eq B _ hM]

/-- `Load()` then `Init()` on a newly constructed scene whose hooks succeed. -/
theorem Init_Load_eq (B : Backend) (_id : Nat) (_name : String) (be : BackendStores)
    (hL : ∀ t, B.LoadImpl t = true)
    (hM : ∀ t i n, (B.CreateMaterialImpl t i n).isSome = true) :
    Init B (Load B (BaseScene _id _name be)) =
      some (withDefault (withDefault (withDefault (withDefault
        (afterInitImpl B (Load B (BaseScene _id _name be)))
        "Default/TransRed" transRed) "Default/TransGreen" transGreen)
        "Default/TransBlue" transBlue) "Default/White" white) := by
  have h1 : (Load B (BaseScene _id _name be)).loaded = true := by
    simp [Load, BaseScene, hL]
  have h2 : (Load B (BaseScene _id _name be)).initialized = false := by
    simp [Load, BaseScene]
  unfold Init
  rw [if_neg (by simp [h1]), if_pos (by simp [h2])]
  exact CreateMaterials_eq B _ hM

end BaseScene

/-! ## The creators of nodes -/

namespace BaseScene

theorem typeName_eq (k : Kind) : typeName k = specKindName k := by cases k <;> rfl

theorem CreateObjectName_eq (s : Scene) (n : Nat) (pfx : String) :
    CreateObjectName s n pfx = s.name ++ "::" ++ pfx ++ "(" ++ to_string n ++ ")" := by
  unfold CreateObjectName
  simp only [String.append_assoc]
  rfl

theorem CreateK_id_name_trace (B : Backend) (k : Kind) (s : Scene) (_id : Nat)
    (_name : String) :
    (CreateK_id_name B k s _id _name).2.trace =
      s.trace ++ [Event.CreateImpl k _id _name] ++
        addEvents k (B.CreateImpl s.trace k _id _name) := by
  cases k <;> cases h : B.CreateImpl s.trace _ _id _name <;>
    simp [CreateK_id_name, Register, RegisterLight, RegisterSensor, RegisterVisual, Scene.emit,
      h, addEvents, storeOf]

theorem CreateK_id_name_null (B : Backend) (k : Kind) (s : Scene) (_id : Nat) (_name : String)
    (h : B.CreateImpl s.trace k _id _name = none) :
    CreateK_id_name B k s _id _name = (none, s.emit [Event.CreateImpl k _id _name]) := by
  cases k <;>
    simp [CreateK_id_name, Register, RegisterLight, RegisterSensor, RegisterVisual, h]

end BaseScene

/-! ## The claims -/

/-- C1 (as amended): for every scene state whose id counter `c` is an unsigned 32-bit value,
`CreateObjectId()` returns `c`; it leaves the counter at `c - 1` when `c > 0` and wraps it to
4294967295 when `c = 0`; no other data member changes and the trace records the one id. -/
theorem C1_CreateObjectId_returns_then_decrements (s : Scene) (h : s.nextObjectId < UINT_SIZE) :
    (BaseScene.CreateObjectId s).1 = s.nextObjectId ∧
    (0 < s.nextObjectId → (BaseScene.CreateObjectId s).2.nextObjectId + 1 = s.nextObjectId) ∧
    (s.nextObjectId = 0 → (BaseScene.CreateObjectId s).2.nextObjectId = 4294967295) ∧
    (BaseScene.CreateObjectId s).2 =
      { s with nextObjectId := (BaseScene.CreateObjectId s).2.nextObjectId,
               trace := s.trace ++ [Event.CreateObjectId s.nextObjectId] } := by
  refine ⟨rfl, ?_, ?_, rfl⟩
  · intro h0
    show decr s.nextObjectId + 1 = s.nextObjectId
    rw [decr_pos _ h0 h]
    omega
  · intro h0
    show decr s.nextObjectId = 4294967295
    rw [h0]
    exact decr_zero

/-- Witness of C1: the newly constructed scene, counter 65535. -/
theorem C1_witness :
    newScene.nextObjectId < UINT_SIZE ∧
    (BaseScene.CreateObjectId newScene).1 = 65535 ∧
    (BaseScene.CreateObjectId newScene).2.nextObjectId + 1 = 65535 :=
  ⟨by decide,
   (C1_CreateObjectId_returns_then_decrements newScene (by decide)).1,
   (C1_CreateObjectId_returns_then_decrements newScene (by decide)).2.1 (by decide)⟩

/-- Counterexample to C1 as stated: with the counter at 0, `CreateObjectId()` returns 0 and
the counter is then 4294967295, which is not one lower than 0. -/
theorem C1_counterexample_counter_zero :
    ¬ (∀ s : Scene, s.nextObjectId < UINT_SIZE →
        (BaseScene.CreateObjectId s).1 = s.nextObjectId ∧
        (BaseScene.CreateObjectId s).2.nextObjectId + 1 = s.nextObjectId) := by
  intro h
  have h1 := (h zeroCounterScene (by decide)).2
  revert h1
  decide

/-- C2: on a newly constructed scene, for every `n ≤ 65536`, the first `n` successive calls of
`CreateObjectId()` return 65535, 65534, ..., 65535-(n-1); these `n` values are strictly
decreasing and pairwise distinct. -/
theorem C2_first_ids_strictly_decreasing (_id : Nat) (_name : String) (be : BackendStores)
    (n : Nat) (hn : n ≤ 65536) :
    (BaseScene.CreateObjectIds n (BaseScene.BaseScene _id _name be)).1 =
      (List.range n).map (fun i => 65535 - i) ∧
    ((BaseScene.CreateObjectIds n (BaseScene.BaseScene _id _name be)).1).length = n ∧
    ((BaseScene.CreateObjectIds n (BaseScene.BaseScene _id _name be)).1).Pairwise (· > ·) ∧
    ((BaseScene.CreateObjectIds n (BaseScene.BaseScene _id _name be)).1).Nodup := by
  have heq : (BaseScene.CreateObjectIds n (BaseScene.BaseScene _id _name be)).1 =
      (List.range n).map (fun i => 65535 - i) :=
    BaseScene.CreateObjectIds_eq n (BaseScene.BaseScene _id _name be)
      (by show n ≤ MAX_UI16 + 1; unfold MAX_UI16; omega)
      (by show MAX_UI16 < UINT_SIZE; decide)
  have hpw : ((List.range n).map (fun i => 65535 - i)).Pairwise (· > ·) := by
    rw [List.pairwise_map]
    refine List.Pairwise.imp_of_mem ?_ (List.pairwise_lt_range n)
    intro a b ha hb hab
    have hb1 := List.mem_range.mp hb
    show 65535 - a > 65535 - b
    omega
  rw [heq]
  refine ⟨rfl, by simp, hpw, ?_⟩
  exact hpw.imp (fun h => Nat.ne_of_gt h)

/-- Witness of C2: the first 1000 ids of the scene "scene". -/
theorem C2_witness :
    1000 ≤ 65536 ∧
    (BaseScene.CreateObjectIds 1000 newScene).1 = (List.range 1000).map (fun i => 65535 - i) ∧
    ((BaseScene.CreateObjectIds 1000 newScene).1).Pairwise (· > ·) ∧
    ((BaseScene.CreateObjectIds 1000 newScene).1).Nodup :=
  ⟨by decide,
   (C2_first_ids_strictly_decreasing 0 "scene" emptyStores 1000 (by decide)).1,
   (C2_first_ids_strictly_decreasing 0 "scene" emptyStores 1000 (by decide)).2.2.1,
   (C2_first_ids_strictly_decreasing 0 "scene" emptyStores 1000 (by decide)).2.2.2⟩

/-- C3: for every scene name, prefix and unsigned id `n`, `CreateObjectName(n, prefix)` is
exactly `<sceneName>::<prefix>(<decimal n>)`, where the decimal rendering consists of digits
only (no sign), reads back as `n`, and has no leading zero (no padding) unless `n` is 0, which
is rendered as the single digit 0. -/
theorem C3_CreateObjectName_format (s : Scene) (n : Nat) (pfx : String) :
    BaseScene.CreateObjectName s n pfx = s.name ++ "::" ++ pfx ++ "(" ++ to_string n ++ ")" ∧
    (∀ ch ∈ (to_string n).data, ch.isDigit = true) ∧
    parseDecimal (to_string n) = n ∧
    (0 < n → (to_string n).data.head? ≠ some '0') ∧
    to_string 0 = "0" := by
  refine ⟨?_, to_string_isDigit n, parseDecimal_to_string n, to_string_head n, by decide⟩
  unfold BaseScene.CreateObjectName
  simp only [String.append_assoc]
  rfl

/-- Witness of C3: the default name of visual 65535 in the scene "scene". -/
theorem C3_witness :
    BaseScene.CreateObjectName newScene 65535 "Visual" = "scene::Visual(65535)" ∧
    (to_string 65535).data.head? ≠ some '0' :=
  ⟨by decide, (C3_CreateObjectName_format newScene 65535 "Visual").2.2.2.1 (by decide)⟩

/-- Counterexample to C4 as stated: in the session Load, Init, CreateVisual, Clear,
CreateVisual on one scene, `CreateObjectId()` returns 65535 for the first default material and
again for the visual created after `Clear()`: an id is reused. -/
theorem C4_counterexample_id_reused_after_Clear :
    ∃ s', BaseScene.run okBackend clearingSession newScene = some s' ∧
      BaseScene.issuedIds s'.trace = [65535, 65534, 65533, 65532, 65531, 65535] ∧
      ¬ (BaseScene.issuedIds s'.trace).Nodup := by
  have h : (BaseScene.run okBackend clearingSession newScene).map
      (fun s => BaseScene.issuedIds s.trace) = some [65535, 65534, 65533, 65532, 65531, 65535] := by
    decide
  cases hr : BaseScene.run okBackend clearingSession newScene with
  | none => rw [hr] at h; cases h
  | some s' =>
    rw [hr] at h
    have h1 : BaseScene.issuedIds s'.trace = [65535, 65534, 65533, 65532, 65531, 65535] :=
      Option.some.inj h
    refine ⟨s', rfl, h1, ?_⟩
    rw [h1]
    decide

/-- C4 (as amended): in every sequence of scene operations that contains neither `Clear()` nor
`Destroy()`, started in any state whose counter is an unsigned 32-bit value, the ids returned
by the `CreateObjectId()` calls of the sequence are pairwise distinct as long as there are at
most 2^32 of them. -/
theorem C4_ids_distinct_between_clears (B : Backend) (ops : List Op) (s s' : Scene)
    (hc : s.nextObjectId < UINT_SIZE)
    (hops : ∀ op ∈ ops, op ≠ Op.Clear ∧ op ≠ Op.Destroy)
    (hr : BaseScene.run B ops s = some s') :
    ∃ new, BaseScene.issuedIds s'.trace = BaseScene.issuedIds s.trace ++ new ∧
      (new.length ≤ UINT_SIZE → new.Nodup) := by
  obtain ⟨k, hk, _⟩ := BaseScene.run_adv B ops s s' hr hops
  refine ⟨idSeq s.nextObjectId k, hk, ?_⟩
  intro hlen
  rw [idSeq_length] at hlen
  exact idSeq_nodup _ k hlen

/-- Witness of C4: a session without `Clear()` on the scene "scene" hands out six distinct
ids. -/
theorem C4_witness :
    ∃ s', BaseScene.run okBackend plainSession newScene = some s' ∧
      ∃ new, BaseScene.issuedIds s'.trace = BaseScene.issuedIds newScene.trace ++ new ∧
        (new.length ≤ UINT_SIZE → new.Nodup) := by
  have h : (BaseScene.run okBackend plainSession newScene).isSome = true := by decide
  obtain ⟨s', hs⟩ := Option.isSome_iff_exists.mp h
  exact ⟨s', hs, C4_ids_distinct_between_clears okBackend plainSession newScene s'
    (by decide) (by decide) hs⟩

/-- C5: for every initialized scene state (reached from a newly constructed scene, with
`initialized` set), `Clear()` completes; afterwards `NodeCount()` is 0, the light, sensor and
visual stores are empty, the material registry is empty, the id counter is back at its seed
65535 so that the next `CreateObjectId()` returns 65535, and nothing else has changed;
`Destroy()` has exactly the effect of `Clear()`. -/
theorem C5_Clear_empties_and_resets (B : Backend) (s : Scene) (hr : Reachable B s)
    (hi : s.initialized = true) :
    ∃ s', BaseScene.Clear s = some s' ∧
      BaseScene.NodeCount s' = some 0 ∧
      BaseScene.LightCount s' = 0 ∧ BaseScene.SensorCount s' = 0 ∧
      BaseScene.VisualCount s' = 0 ∧
      s'.lights.items = [] ∧ s'.sensors.items = [] ∧ s'.visuals.items = [] ∧
      s'.materials = [] ∧
      s'.nextObjectId = 65535 ∧
      (BaseScene.CreateObjectId s').1 = 65535 ∧
      s' = { s with lights := ⟨[]⟩, sensors := ⟨[]⟩, visuals := ⟨[]⟩, materials := [],
                    nextObjectId := 65535 } ∧
      BaseScene.Destroy s = BaseScene.Clear s := by
  have hn : s.nodes = some nodeStoreMembers := (hr.lifecycleInv hi).2
  refine ⟨{ s with lights := ⟨[]⟩, sensors := ⟨[]⟩, visuals := ⟨[]⟩, materials := [],
                   nextObjectId := 65535 }, ?_, ?_, rfl, rfl, rfl, rfl, rfl, rfl, rfl, rfl, rfl,
    rfl, rfl⟩
  · simp [BaseScene.Clear, BaseScene.DestroyNodes, hn, nodeStoreMembers, Scene.setStore,
      Scene.store, Store.DestroyAll, MaterialMap.RemoveAll, MAX_UI16]
  · simp [BaseScene.NodeCount, hn, nodeStoreMembers, Scene.store, Store.Size]

/-- Witness of C5: the scene "scene" after Load, Init and the creation of a visual is
initialized and holds one visual; `Clear()` empties it and resets the counter. -/
theorem C5_witness :
    ∃ s, BaseScene.run okBackend [Op.Load, Op.Init, Op.CreateK Kind.Visual] newScene = some s ∧
      s.initialized = true ∧ BaseScene.VisualCount s = 1 ∧ s.materials.length = 4 ∧
      s.nextObjectId = 65530 ∧
      ∃ s', BaseScene.Clear s = some s' ∧ BaseScene.NodeCount s' = some 0 ∧
        BaseScene.VisualCount s' = 0 ∧ s'.materials = [] ∧
        (BaseScene.CreateObjectId s').1 = 65535 := by
  have h : (BaseScene.run okBackend [Op.Load, Op.Init, Op.CreateK Kind.Visual] newScene).map
      (fun s => (s.initialized, BaseScene.VisualCount s, s.materials.length, s.nextObjectId)) =
      some (true, 1, 4, 65530) := by decide
  cases hs : BaseScene.run okBackend [Op.Load, Op.Init, Op.CreateK Kind.Visual] newScene with
  | none => rw [hs] at h; cases h
  | some s =>
    rw [hs] at h
    have h1 := Option.some.inj h
    simp only [Prod.mk.injEq] at h1
    obtain ⟨a1, a2, a3, a4⟩ := h1
    obtain ⟨s', c1, c2, _, _, c5, _, _, _, c9, _, c11, _, _⟩ :=
      C5_Clear_empties_and_resets okBackend s ⟨0, "scene", emptyStores, _, hs⟩ a1
    exact ⟨s, rfl, a1, a2, a3, a4, s', c1, c2, c5, c9, c11⟩

/-- C6: if the scene is already loaded, `Load()` leaves the whole state unchanged (no call of
`LoadImpl` is recorded); otherwise it calls `LoadImpl` exactly once, sets `loaded` to its
result and changes nothing else; so after a failed `LoadImpl` the scene is still unloaded and
the next `Load()` calls `LoadImpl` once more. -/
theorem C6_Load_once (B : Backend) (s : Scene) :
    (s.loaded = true → BaseScene.Load B s = s) ∧
    (s.loaded = false →
      BaseScene.Load B s =
        { s with loaded := B.LoadImpl s.trace, trace := s.trace ++ [Event.LoadImpl] } ∧
      ((BaseScene.Load B s).trace.drop s.trace.length).count Event.LoadImpl = 1) ∧
    (s.loaded = false → B.LoadImpl s.trace = false →
      (BaseScene.Load B s).loaded = false ∧
      (BaseScene.Load B (BaseScene.Load B s)).trace =
        s.trace ++ [Event.LoadImpl, Event.LoadImpl] ∧
      (BaseScene.Load B (BaseScene.Load B s)).loaded =
        B.LoadImpl (s.trace ++ [Event.LoadImpl])) := by
  refine ⟨fun h => by simp [BaseScene.Load, h], fun h => ?_, fun h hf => ?_⟩
  · have e : BaseScene.Load B s =
        { s with loaded := B.LoadImpl s.trace, trace := s.trace ++ [Event.LoadImpl] } := by
      simp [BaseScene.Load, h]
    refine ⟨e, ?_⟩
    rw [e]
    simp
  · have e : BaseScene.Load B s =
        { s with loaded := false, trace := s.trace ++ [Event.LoadImpl] } := by
      simp [BaseScene.Load, h, hf]
    rw [e]
    simp [BaseScene.Load]

/-- Witness of C6: a failing backend is asked on every `Load()`, a succeeding one only once. -/
theorem C6_witness :
    (BaseScene.Load failBackend newScene).loaded = false ∧
    (BaseScene.Load failBackend (BaseScene.Load failBackend newScene)).trace =
      [Event.LoadImpl, Event.LoadImpl] ∧
    (BaseScene.Load okBackend newScene).loaded = true ∧
    BaseScene.Load okBackend (BaseScene.Load okBackend newScene) =
      BaseScene.Load okBackend newScene :=
  ⟨((C6_Load_once failBackend newScene).2.2 rfl rfl).1,
   ((C6_Load_once failBackend newScene).2.2 rfl rfl).2.1,
   by decide,
   (C6_Load_once okBackend (BaseScene.Load okBackend newScene)).1 (by decide)⟩

/-- C7: for every scene state in which `loaded` is false, `Init()` completes and changes no
data member and no store: `InitImpl` is not called, the composite node store is not built, no
material is created, no id is handed out, `initialized` keeps its value; the only effect is
the error line written to `ignerr`. -/
theorem C7_Init_before_Load_is_noop (B : Backend) (s : Scene) (h : s.loaded = false) :
    BaseScene.Init B s =
      some { s with trace := s.trace ++ [Event.ignerr "Scene must be loaded first"] } ∧
    ∃ s', BaseScene.Init B s = some s' ∧
      s'.id = s.id ∧ s'.name = s.name ∧ s'.loaded = false ∧ s'.initialized = s.initialized ∧
      s'.nextObjectId = s.nextObjectId ∧ s'.nodes = s.nodes ∧ s'.lights = s.lights ∧
      s'.sensors = s.sensors ∧ s'.visuals = s.visuals ∧ s'.materials = s.materials ∧
      s'.heap = s.heap ∧
      Event.InitImpl ∉ s'.trace.drop s.trace.length ∧
      BaseScene.issuedIds (s'.trace.drop s.trace.length) = [] := by
  have e : BaseScene.Init B s =
      some { s with trace := s.trace ++ [Event.ignerr "Scene must be loaded first"] } := by
    simp [BaseScene.Init, h, Scene.emit]
  refine ⟨e, _, e, rfl, rfl, h, rfl, rfl, rfl, rfl, rfl, rfl, rfl, rfl, ?_, ?_⟩
  · simp
  · simp [BaseScene.issuedIds]

/-- Witness of C7: `Init()` on the newly constructed scene "scene". -/
theorem C7_witness :
    newScene.loaded = false ∧
    BaseScene.Init okBackend newScene =
      some { newScene with trace := [Event.ignerr "Scene must be loaded first"] } :=
  ⟨rfl, (C7_Init_before_Load_is_noop okBackend newScene rfl).1⟩

/-- C8: on a newly constructed scene whose hooks succeed and whose material registry starts
empty, `Load()` then `Init()` complete and leave exactly four registry entries, keyed
`Default/TransRed`, `Default/TransGreen`, `Default/TransBlue`, `Default/White`; the objects
registered under them have the prescribed attributes: ambient = diffuse = emissive = pure red,
green, blue with transparency 0.5 and shadows and lighting off for the three transparent
ones, and (1,1,1) with transparency 0 and shadows and lighting on for white. -/
theorem C8_default_materials (B : Backend) (_id : Nat) (_name : String) (be : BackendStores)
    (hL : ∀ t, B.LoadImpl t = true) (hI : ∀ t, B.InitImpl t = true)
    (hM : ∀ t i n, (B.CreateMaterialImpl t i n).isSome = true)
    (hE : be.materials = []) :
    ∃ s', BaseScene.Init B (BaseScene.Load B (BaseScene.BaseScene _id _name be)) = some s' ∧
      s'.loaded = true ∧ s'.initialized = true ∧
      s'.materials.length = 4 ∧
      s'.materials.map (·.1) =
        ["Default/TransRed", "Default/TransGreen", "Default/TransBlue", "Default/White"] ∧
      BaseScene.MaterialNamed s' "Default/TransRed" =
        some { ambient := ⟨1, 0, 0⟩, diffuse := ⟨1, 0, 0⟩, emissive := ⟨1, 0, 0⟩,
               transparency := 1 / 2, castShadows := false, receiveShadows := false,
               lightingEnabled := false } ∧
      BaseScene.MaterialNamed s' "Default/TransGreen" =
        some { ambient := ⟨0, 1, 0⟩, diffuse := ⟨0, 1, 0⟩, emissive := ⟨0, 1, 0⟩,
               transparency := 1 / 2, castShadows := false, receiveShadows := false,
               lightingEnabled := false } ∧
      BaseScene.MaterialNamed s' "Default/TransBlue" =
        some { ambient := ⟨0, 0, 1⟩, diffuse := ⟨0, 0, 1⟩, emissive := ⟨0, 0, 1⟩,
               transparency := 1 / 2, castShadows := false, receiveShadows := false,
               lightingEnabled := false } ∧
      BaseScene.MaterialNamed s' "Default/White" =
        some { ambient := ⟨1, 1, 1⟩, diffuse := ⟨1, 1, 1⟩, emissive := ⟨1, 1, 1⟩,
               transparency := 0, castShadows := true, receiveShadows := true,
               lightingEnabled := true } := by
  refine ⟨_, BaseScene.Init_Load_eq B _id _name be hL hM, ?_, ?_, ?_, ?_, ?_, ?_, ?_, ?_⟩
  · simp [withDefault, BaseScene.afterInitImpl, BaseScene.CreateNodeStore, BaseScene.Load,
      BaseScene.BaseScene, hL]
  · simp [withDefault, BaseScene.afterInitImpl, BaseScene.CreateNodeStore, BaseScene.Load,
      BaseScene.BaseScene, hI]
  all_goals
    simp [withDefault, BaseScene.afterInitImpl, BaseScene.CreateNodeStore, BaseScene.Load,
      BaseScene.BaseScene, hL, hE, MaterialMap.Put, MaterialMap.ContainsKey, MaterialMap.Get,
      BaseScene.MaterialNamed, transRed, transGreen, transBlue, white,
      List.getElem_append_right]

/-- Witness of C8: the scene "scene" over empty stores with the backend whose hooks succeed. -/
theorem C8_witness :
    ∃ s', BaseScene.Init okBackend (BaseScene.Load okBackend newScene) = some s' ∧
      s'.materials.map (·.1) =
        ["Default/TransRed", "Default/TransGreen", "Default/TransBlue", "Default/White"] ∧
      BaseScene.MaterialNamed s' "Default/White" = some white := by
  obtain ⟨s', h0, _, _, _, h4, _, _, _, h8⟩ :=
    C8_default_materials okBackend 0 "scene" emptyStores (fun _ => rfl) (fun _ => rfl)
      (fun _ _ _ => rfl) rfl
  exact ⟨s', h0, h4, h8⟩

/-- Counterexample to C9 as stated: with the counter at 0, `CreateVisual()` calls the factory
with id 0 and name `scene::Visual(0)` and leaves the counter at 4294967295, not at one less
than 0. -/
theorem C9_counterexample_counter_zero :
    (BaseScene.CreateK okBackend Kind.Visual zeroCounterScene).2.trace =
      [Event.CreateObjectId 0, Event.CreateImpl Kind.Visual 0 "scene::Visual(0)",
       Event.Add StoreKind.Visuals ⟨0, "scene::Visual(0)"⟩] ∧
    (BaseScene.CreateK okBackend Kind.Visual zeroCounterScene).2.nextObjectId = 4294967295 ∧
    ¬ ((BaseScene.CreateK okBackend Kind.Visual zeroCounterScene).2.nextObjectId + 1 =
        zeroCounterScene.nextObjectId) := by
  decide

/-- C9 (as amended): for every scene state whose id counter `c` is an unsigned 32-bit value
and every kind K of DirectionalLight, PointLight, SpotLight, Camera, Visual, ArrowVisual,
AxisVisual: `CreateK()` hands out the id `c`, calls the factory of K exactly once, with id `c`
and name `<sceneName>::K(c)`, and leaves the counter at `c - 1` when `c > 0` (at 4294967295
when `c = 0`); `CreateK(name)` does the same with the given name; `CreateK(id)` calls the
factory with the given id and the name `<sceneName>::K(id)` and leaves the counter alone.
After the factory call the only further events are the `Add` of the registration. -/
theorem C9_Create_allocates_id_and_name (B : Backend) (k : Kind) (s : Scene)
    (hc : s.nextObjectId < UINT_SIZE) :
    ((BaseScene.CreateK B k s).2.trace =
        s.trace ++ [Event.CreateObjectId s.nextObjectId,
          Event.CreateImpl k s.nextObjectId
            (s.name ++ "::" ++ specKindName k ++ "(" ++ to_string s.nextObjectId ++ ")")] ++
          addEvents k (B.CreateImpl (s.trace ++ [Event.CreateObjectId s.nextObjectId]) k
            s.nextObjectId
            (s.name ++ "::" ++ specKindName k ++ "(" ++ to_string s.nextObjectId ++ ")")) ∧
      (0 < s.nextObjectId → (BaseScene.CreateK B k s).2.nextObjectId + 1 = s.nextObjectId) ∧
      (s.nextObjectId = 0 → (BaseScene.CreateK B k s).2.nextObjectId = 4294967295)) ∧
    (∀ name : String,
      (BaseScene.CreateK_name B k s name).2.trace =
        s.trace ++ [Event.CreateObjectId s.nextObjectId,
          Event.CreateImpl k s.nextObjectId name] ++
          addEvents k (B.CreateImpl (s.trace ++ [Event.CreateObjectId s.nextObjectId]) k
            s.nextObjectId name) ∧
      (0 < s.nextObjectId →
        (BaseScene.CreateK_name B k s name).2.nextObjectId + 1 = s.nextObjectId) ∧
      (s.nextObjectId = 0 →
        (BaseScene.CreateK_name B k s name).2.nextObjectId = 4294967295)) ∧
    (∀ id : Nat,
      (BaseScene.CreateK_id B k s id).2.trace =
        s.trace ++ [Event.CreateImpl k id
            (s.name ++ "::" ++ specKindName k ++ "(" ++ to_string id ++ ")")] ++
          addEvents k (B.CreateImpl s.trace k id
            (s.name ++ "::" ++ specKindName k ++ "(" ++ to_string id ++ ")")) ∧
      (BaseScene.CreateK_id B k s id).2.nextObjectId = s.nextObjectId) := by
  have hpos : 0 < s.nextObjectId → decr s.nextObjectId + 1 = s.nextObjectId := by
    intro h0
    rw [decr_pos _ h0 hc]
    omega
  have hzero : s.nextObjectId = 0 → decr s.nextObjectId = 4294967295 := by
    intro h0
    rw [h0]
    exact decr_zero
  have hname : ∀ (s1 : Scene) (n : Nat), s1.name = s.name →
      BaseScene.CreateObjectName s1 n (BaseScene.typeName k) =
        s.name ++ "::" ++ specKindName k ++ "(" ++ to_string n ++ ")" := by
    intro s1 n h1
    rw [BaseScene.CreateObjectName_eq, BaseScene.typeName_eq, h1]
  have hq : (BaseScene.CreateK B k s).2.nextObjectId = decr s.nextObjectId :=
    (BaseScene.CreateK_id_quiet B k (BaseScene.CreateObjectId s).2
      (BaseScene.CreateObjectId s).1).2.1
  have hqn : ∀ name : String,
      (BaseScene.CreateK_name B k s name).2.nextObjectId = decr s.nextObjectId := fun name =>
    (BaseScene.CreateK_id_name_quiet B k (BaseScene.CreateObjectId s).2
      (BaseScene.CreateObjectId s).1 name).2.1
  refine ⟨⟨?_, ?_, ?_⟩, fun name => ⟨?_, ?_, ?_⟩, fun id => ⟨?_, ?_⟩⟩
  · unfold BaseScene.CreateK BaseScene.CreateK_id
    rw [BaseScene.CreateK_id_name_trace, hname (BaseScene.CreateObjectId s).2 _ rfl]
    simp [BaseScene.CreateObjectId]
  · intro h0
    rw [hq]
    exact hpos h0
  · intro h0
    rw [hq]
    exact hzero h0
  · unfold BaseScene.CreateK_name
    rw [BaseScene.CreateK_id_name_trace]
    simp [BaseScene.CreateObjectId]
  · intro h0
    rw [hqn]
    exact hpos h0
  · intro h0
    rw [hqn]
    exact hzero h0
  · unfold BaseScene.CreateK_id
    rw [BaseScene.CreateK_id_name_trace, hname s _ rfl]
  · exact (BaseScene.CreateK_id_quiet B k s id).2.1

/-- Witness of C9: `CreateCamera()` on the newly constructed scene "scene". -/
theorem C9_witness :
    newScene.nextObjectId < UINT_SIZE ∧
    (BaseScene.CreateK okBackend Kind.Camera newScene).2.trace =
      [Event.CreateObjectId 65535, Event.CreateImpl Kind.Camera 65535 "scene::Camera(65535)",
       Event.Add StoreKind.Sensors ⟨65535, "scene::Camera(65535)"⟩] ∧
    (BaseScene.CreateK okBackend Kind.Camera newScene).2.nextObjectId + 1 = 65535 :=
  ⟨by decide,
   ((C9_Create_allocates_id_and_name okBackend Kind.Camera newScene (by decide)).1.1).trans
     (by decide),
   (C9_Create_allocates_id_and_name okBackend Kind.Camera newScene (by decide)).1.2.1
     (by decide)⟩

/-- C10: for every kind of node (the visuals, the three lights, the camera), id and name, if
the factory returns a null handle then `CreateK(id, name)` returns a null handle and no `Add`
is called: apart from the record of the factory call the state is unchanged, in particular
the contents and the size of every store. -/
theorem C10_null_factory_registers_nothing (B : Backend) (k : Kind) (s : Scene) (_id : Nat)
    (_name : String) (h : B.CreateImpl s.trace k _id _name = none) :
    (BaseScene.CreateK_id_name B k s _id _name).1 = none ∧
    (BaseScene.CreateK_id_name B k s _id _name).2 =
      { s with trace := s.trace ++ [Event.CreateImpl k _id _name] } ∧
    (∀ st o, Event.Add st o ∉
      (BaseScene.CreateK_id_name B k s _id _name).2.trace.drop s.trace.length) ∧
    (BaseScene.CreateK_id_name B k s _id _name).2.visuals = s.visuals ∧
    (BaseScene.CreateK_id_name B k s _id _name).2.lights = s.lights ∧
    (BaseScene.CreateK_id_name B k s _id _name).2.sensors = s.sensors ∧
    BaseScene.VisualCount (BaseScene.CreateK_id_name B k s _id _name).2 =
      BaseScene.VisualCount s ∧
    BaseScene.LightCount (BaseScene.CreateK_id_name B k s _id _name).2 =
      BaseScene.LightCount s ∧
    BaseScene.SensorCount (BaseScene.CreateK_id_name B k s _id _name).2 =
      BaseScene.SensorCount s := by
  rw [BaseScene.CreateK_id_name_null B k s _id _name h]
  refine ⟨rfl, rfl, ?_, rfl, rfl, rfl, rfl, rfl, rfl⟩
  intro st o
  simp [Scene.emit]

/-- Witness of C10: `CreateVisual(7, "v")` with a backend whose factories return null. -/
theorem C10_witness :
    failBackend.CreateImpl newScene.trace Kind.Visual 7 "v" = none ∧
    (BaseScene.CreateK_id_name failBackend Kind.Visual newScene 7 "v").1 = none ∧
    BaseScene.VisualCount (BaseScene.CreateK_id_name failBackend Kind.Visual newScene 7 "v").2 =
      0 :=
  ⟨rfl,
   (C10_null_factory_registers_nothing failBackend Kind.Visual newScene 7 "v" rfl).1,
   (C10_null_factory_registers_nothing failBackend Kind.Visual newScene 7 "v" rfl).2.2.2.2.2.2.1⟩

/-- C11: for every id and name, with a factory that gives the object it constructs the id and
name it was asked for (or returns null), if the visual store already contains an entity with
that id or with that name then `CreateVisual(id, name)` returns a null handle and the visual
store, hence `VisualCount()`, is the same after the call as before. -/
theorem C11_duplicate_visual_yields_null (B : Backend) (s : Scene) (_id : Nat)
    (_name : String)
    (hfac : ∀ o, B.CreateImpl s.trace Kind.Visual _id _name = some o →
      o.id = _id ∧ o.name = _name)
    (hdup : s.visuals.ContainsId _id = true ∨ s.visuals.ContainsName _name = true) :
    (BaseScene.CreateK_id_name B Kind.Visual s _id _name).1 = none ∧
    BaseScene.VisualCount (BaseScene.CreateK_id_name B Kind.Visual s _id _name).2 =
      BaseScene.VisualCount s ∧
    (BaseScene.CreateK_id_name B Kind.Visual s _id _name).2.visuals = s.visuals := by
  cases h : B.CreateImpl s.trace Kind.Visual _id _name with
  | none =>
    rw [BaseScene.CreateK_id_name_null B Kind.Visual s _id _name h]
    exact ⟨rfl, rfl, rfl⟩
  | some o =>
    obtain ⟨h1, h2⟩ := hfac o h
    have hadd : s.visuals.Add o = (false, s.visuals) := by
      unfold Store.Add
      rw [h1, h2]
      rcases hdup with hd | hd <;> simp [hd]
    simp [BaseScene.CreateK_id_name, BaseScene.Register, BaseScene.RegisterVisual, Scene.emit,
      h, hadd, BaseScene.VisualCount]

/-- Witness of C11: the scene "scene" holds the visual 7 named "v"; `CreateVisual(7, "w")`
returns null and leaves one visual. -/
theorem C11_witness :
    sceneWithVisual.visuals.ContainsId 7 = true ∧
    (BaseScene.CreateK_id_name okBackend Kind.Visual sceneWithVisual 7 "w").1 = none ∧
    BaseScene.VisualCount (BaseScene.CreateK_id_name okBackend Kind.Visual sceneWithVisual 7 "w").2
      = 1 :=
  ⟨by decide,
   (C11_duplicate_visual_yields_null okBackend sceneWithVisual 7 "w"
     (fun o h => by cases h; exact ⟨rfl, rfl⟩) (Or.inl (by decide))).1,
   (C11_duplicate_visual_yields_null okBackend sceneWithVisual 7 "w"
     (fun o h => by cases h; exact ⟨rfl, rfl⟩) (Or.inl (by decide))).2.1.trans (by decide)⟩

/-- C12 (the code at the failing input): with a backend whose `CreateMaterialImpl` returns a
null handle, `CreateMaterial(const common::Material &)` does not complete with a null return:
it faults, at `material->CopyFrom(_material)`, a call through the null handle. -/
theorem C12_CreateMaterial_dereferences_null :
    failBackend.CreateMaterialImpl
      (newScene.trace ++ [Event.CreateObjectId newScene.nextObjectId]) newScene.nextObjectId
      "m" = none ∧
    BaseScene.CreateMaterialFrom failBackend newScene commonMaterialM = none ∧
    (BaseScene.CreateMaterial failBackend newScene "m").1 = none := by
  decide

/-- Counterexample to C13 as stated: "m" is a key of the registry of the scene, and
`CreateMaterial("m")` returns a handle that is not null. -/
theorem C13_counterexample_duplicate_name_returned :
    BaseScene.MaterialRegistered sceneWithMaterial "m" = true ∧
    (BaseScene.CreateMaterial okBackend sceneWithMaterial "m").1 = some 1 ∧
    (BaseScene.CreateMaterial okBackend sceneWithMaterial "m").1 ≠ none := by
  decide

/-- C13 (as amended): for every name that is already a key of the material registry,
`CreateMaterial(name)` returns the handle of the object its factory constructed: it returns
null exactly when the factory returned null; a duplicate name does not make it null. The
material is not registered a second time: the registry is unchanged. -/
theorem C13_CreateMaterial_returns_factory_handle (B : Backend) (s : Scene) (name : String)
    (hkey : BaseScene.MaterialRegistered s name = true) (hne : name ≠ "") :
    ((BaseScene.CreateMaterial B s name).1 = none ↔
      B.CreateMaterialImpl (s.trace ++ [Event.CreateObjectId s.nextObjectId])
        s.nextObjectId name = none) ∧
    (∀ m, B.CreateMaterialImpl (s.trace ++ [Event.CreateObjectId s.nextObjectId])
        s.nextObjectId name = some m →
      (BaseScene.CreateMaterial B s name).1 = some s.heap.length) ∧
    (BaseScene.CreateMaterial B s name).2.materials = s.materials := by
  have hc : MaterialMap.ContainsKey s.materials name = true := hkey
  have hput : ∀ h, (MaterialMap.Put s.materials name h).2 = s.materials := by
    intro h
    simp [MaterialMap.Put, hc]
  cases hm : B.CreateMaterialImpl (s.trace ++ [Event.CreateObjectId s.nextObjectId])
      s.nextObjectId name with
  | none =>
    simp [BaseScene.CreateMaterial, BaseScene.CreateObjectId, BaseScene.callCreateMaterialImpl,
      hne, hm, BaseScene.RegisterMaterial, Scene.emit]
  | some m =>
    rw [BaseScene.CreateMaterial_some B s name m hne hm]
    refine ⟨by simp, fun _ _ => rfl, ?_⟩
    simp [withDefault, hput]

/-- Witness of C13: "m" is registered in the scene; `CreateMaterial("m")` returns the handle
of the new object and the registry still has its one entry. -/
theorem C13_witness :
    BaseScene.MaterialRegistered sceneWithMaterial "m" = true ∧
    (BaseScene.CreateMaterial okBackend sceneWithMaterial "m").1 = some 1 ∧
    (BaseScene.CreateMaterial okBackend sceneWithMaterial "m").2.materials = [("m", 0)] :=
  ⟨by decide,
   (C13_CreateMaterial_returns_factory_handle okBackend sceneWithMaterial "m" (by decide)
     (by decide)).2.1 blankMaterial rfl,
   (C13_CreateMaterial_returns_factory_handle okBackend sceneWithMaterial "m" (by decide)
     (by decide)).2.2.trans (by decide)⟩

/-- Counterexample to C20 as stated: for the descriptor of the mesh "unit_box" the factory
`CreateMeshImpl` receives the name `scene::Mesh-unit_box(65535)`, which is not
`DefaultName(65535, "Mesh")`, that is `scene::Mesh(65535)`. -/
theorem C20_counterexample_mesh_name :
    (BaseScene.CreateMesh okBackend newScene unitBoxDescriptor).2.trace =
      [Event.CreateObjectId 65535, Event.CreateMeshImpl 65535 "scene::Mesh-unit_box(65535)"] ∧
    BaseScene.CreateObjectName newScene 65535 "Mesh" = "scene::Mesh(65535)" ∧
    ¬ ((BaseScene.CreateMesh okBackend newScene unitBoxDescriptor).2.trace =
      [Event.CreateObjectId 65535,
       Event.CreateMeshImpl 65535 (BaseScene.CreateObjectName newScene 65535 "Mesh")]) := by
  decide

/-- C20 (as amended): for every mesh descriptor, `CreateMesh` hands out one id `c` from the
counter and calls the factory `CreateMeshImpl` once, with id `c` and the name
`<sceneName>::Mesh-<meshName>(c)`, where `<meshName>` is the name of the mesh object of the
descriptor when it has one and the `meshName` of the descriptor otherwise; it returns what the
factory returns. -/
theorem C20_CreateMesh_name (B : Backend) (s : Scene) (desc : MeshDescriptor) :
    (BaseScene.CreateMesh B s desc).2.trace =
      s.trace ++ [Event.CreateObjectId s.nextObjectId,
        Event.CreateMeshImpl s.nextObjectId
          (s.name ++ "::" ++ ("Mesh-" ++ (desc.mesh.getD desc.meshName)) ++ "(" ++
            to_string s.nextObjectId ++ ")")] ∧
    (BaseScene.CreateMesh B s desc).1 =
      B.CreateMeshImpl (s.trace ++ [Event.CreateObjectId s.nextObjectId]) s.nextObjectId
        (s.name ++ "::" ++ ("Mesh-" ++ (desc.mesh.getD desc.meshName)) ++ "(" ++
          to_string s.nextObjectId ++ ")") desc ∧
    (BaseScene.CreateMesh B s desc).2.nextObjectId = decr s.nextObjectId := by
  have hn : (match desc.mesh with
      | some meshObjectName => meshObjectName
      | none => desc.meshName) = desc.mesh.getD desc.meshName := by
    cases desc.mesh <;> rfl
  unfold BaseScene.CreateMesh
  simp only [hn, BaseScene.CreateObjectName_eq]
  refine ⟨?_, rfl, rfl⟩
  simp [BaseScene.CreateObjectId, Scene.emit]

/-! ## The camera -/

section CameraLemmas

variable {K : Type} [LinearOrderedField K]

theorem clamp_unit_interval (g : K) : math.clamp g 0 1 = min (max g 0) 1 := by
  unfold math.clamp
  rcases le_total g 0 with h0 | h0 <;> rcases le_total g 1 with h1 | h1
  · have h01 : min g 1 = g := min_eq_left h1
    rw [h01, max_eq_right h0, min_eq_left zero_le_one]
  · have : (1 : K) ≤ 0 := le_trans h1 h0
    exact absurd this (not_le.mpr zero_lt_one)
  · rw [min_eq_left h1, max_eq_left h0, min_eq_left h1]
  · rw [min_eq_right h1, max_eq_left zero_le_one, max_eq_left h0, min_eq_right h1]

theorem clamp_unit_interval_range (g : K) : 0 ≤ math.clamp g 0 1 ∧ math.clamp g 0 1 ≤ 1 := by
  unfold math.clamp
  exact ⟨le_max_right _ _, max_le (min_le_right _ _) zero_le_one⟩

namespace BaseCamera

theorem PreRender_follow_rest (env : Nat → Pose3d K) (c : Camera K) :
    (PreRender_follow env c).followPGain = c.followPGain ∧
    (PreRender_follow env c).trackPGain = c.trackPGain ∧
    (PreRender_follow env c).worldRotation = c.worldRotation ∧
    (PreRender_follow env c).trackNode = c.trackNode ∧
    (PreRender_follow env c).trackOffset = c.trackOffset ∧
    (PreRender_follow env c).trackWorldFrame = c.trackWorldFrame := by
  unfold PreRender_follow
  cases c.followNode with
  | none => exact ⟨rfl, rfl, rfl, rfl, rfl, rfl⟩
  | some n =>
    simp only
    split <;> exact ⟨rfl, rfl, rfl, rfl, rfl, rfl⟩

theorem PreRender_track_rest (M : ExternalMath K) (env : Nat → Pose3d K) (c : Camera K) :
    (PreRender_track M env c).followPGain = c.followPGain ∧
    (PreRender_track M env c).trackPGain = c.trackPGain ∧
    (PreRender_track M env c).worldPosition = c.worldPosition := by
  unfold PreRender_track
  cases c.trackNode with
  | none => exact ⟨rfl, rfl, rfl⟩
  | some n => exact ⟨rfl, rfl, rfl⟩

theorem step_gains (M : ExternalMath K) (c : Camera K) (op : CameraOp K)
    (h : GainsInRange c) : GainsInRange (step M c op) := by
  cases op with
  | SetTrackPGain g =>
    exact ⟨h.1, h.2.1, (clamp_unit_interval_range g).1, (clamp_unit_interval_range g).2⟩
  | SetFollowPGain g =>
    exact ⟨(clamp_unit_interval_range g).1, (clamp_unit_interval_range g).2, h.2.2.1, h.2.2.2⟩
  | PreRender env =>
    have h1 := PreRender_follow_rest env c
    have h2 := PreRender_track_rest M env (PreRender_follow env c)
    unfold GainsInRange step PreRender
    rw [h2.1, h2.2.1, h1.1, h1.2.1]
    exact h
  | _ => exact h

theorem run_gains (M : ExternalMath K) : ∀ (ops : List (CameraOp K)) (c : Camera K),
    GainsInRange c → GainsInRange (run M ops c) := by
  intro ops
  induction ops with
  | nil => intro c h; exact h
  | cons op ops ih => intro c h; exact ih _ (step_gains M c op h)

end BaseCamera

end CameraLemmas

/-- In exact arithmetic: for every value `g`, after `SetFollowPGain(g)` the getter
`FollowPGain()` returns min(max(g, 0), 1), and likewise `SetTrackPGain`/`TrackPGain`; both gains
are 1 in a newly constructed camera, and in every camera state reached from it by setters, pose
changes and `PreRender()` calls both stored gains lie between 0 and 1. -/
theorem gains_clamped_exact {K : Type} [LinearOrderedField K] (M : ExternalMath K)
    (c : Camera K) (g : K) (position : Vector3d K) (rotation : Quaterniond K)
    (ops : List (CameraOp K)) :
    BaseCamera.FollowPGain (BaseCamera.SetFollowPGain c g) = min (max g 0) 1 ∧
    BaseCamera.TrackPGain (BaseCamera.SetTrackPGain c g) = min (max g 0) 1 ∧
    BaseCamera.FollowPGain (BaseCamera.BaseCamera position rotation) = 1 ∧
    BaseCamera.TrackPGain (BaseCamera.BaseCamera position rotation) = 1 ∧
    0 ≤ BaseCamera.FollowPGain (BaseCamera.run M ops (BaseCamera.BaseCamera position rotation)) ∧
    BaseCamera.FollowPGain (BaseCamera.run M ops (BaseCamera.BaseCamera position rotation)) ≤ 1 ∧
    0 ≤ BaseCamera.TrackPGain (BaseCamera.run M ops (BaseCamera.BaseCamera position rotation)) ∧
    BaseCamera.TrackPGain (BaseCamera.run M ops (BaseCamera.BaseCamera position rotation)) ≤ 1 := by
  have h0 : GainsInRange (BaseCamera.BaseCamera position rotation) :=
    ⟨zero_le_one, le_refl _, zero_le_one, le_refl _⟩
  have h := BaseCamera.run_gains M ops _ h0
  exact ⟨clamp_unit_interval g, clamp_unit_interval g, rfl, rfl, h.1, h.2.1, h.2.2.1, h.2.2.2⟩

/-- In exact arithmetic: when a follow target is set in world frame, one `PreRender()` sets the
camera world position to p + g*((t + o) - p), with p the position before, t the world position
of the followed node, o the follow offset and g the stored follow gain; so with g = 1 the new
position is t + o, with g = 1/2 it is the midpoint of p and t + o, and with g = 0 it is p. -/
theorem follow_world_frame_exact {K : Type} [LinearOrderedField K] (M : ExternalMath K)
    (env : Nat → Pose3d K) (c : Camera K) (n : NodeRef)
    (hn : c.followNode = some n) (hw : c.followWorldFrame = true) :
    (BaseCamera.PreRender M env c).worldPosition =
      c.worldPosition + c.followPGain •
        (((BaseCamera.nodeWorldPose env c n).Pos + c.followOffset) - c.worldPosition) ∧
    (c.followPGain = 1 → (BaseCamera.PreRender M env c).worldPosition =
      (BaseCamera.nodeWorldPose env c n).Pos + c.followOffset) ∧
    (c.followPGain = 1 / 2 → (BaseCamera.PreRender M env c).worldPosition =
      (1 / 2 : K) • (c.worldPosition + ((BaseCamera.nodeWorldPose env c n).Pos + c.followOffset))) ∧
    (c.followPGain = 0 → (BaseCamera.PreRender M env c).worldPosition = c.worldPosition) := by
  have hp : (BaseCamera.PreRender M env c).worldPosition =
      c.worldPosition + c.followPGain •
        (((BaseCamera.nodeWorldPose env c n).Pos + c.followOffset) - c.worldPosition) := by
    unfold BaseCamera.PreRender
    rw [(BaseCamera.PreRender_track_rest M env _).2.2]
    unfold BaseCamera.PreRender_follow
    rw [hn]
    simp only [hw, if_true, BaseCamera.SetWorldPosition, BaseCamera.WorldPosition]
    ext i
    simp only [Vector3d.mulScalar, Pi.add_apply, Pi.sub_apply, Pi.smul_apply, smul_eq_mul]
    ring
  refine ⟨hp, ?_, ?_, ?_⟩
  · intro hg
    rw [hp, hg]
    ext i
    simp
  · intro hg
    rw [hp, hg]
    ext i
    simp only [Pi.add_apply, Pi.sub_apply, Pi.smul_apply, smul_eq_mul]
    ring
  · intro hg
    rw [hp, hg]
    ext i
    simp

/-- Counterexample to C16 as stated: the camera tracks, with gain 1 and offset (0, 1, 0) in
the node's local frame, a node at (5, 0, 0) that is turned half a turn about the z axis. The
claimed look-at point, node position plus offset, is (5, 1, 0); `PreRender()` sets the rotation
to that of `LookAt(eye, (5, -1, 0))`, whatever the external functions are, and so not to the
claimed one as soon as `LookAt` tells these two directions apart. -/
theorem C16_counterexample_local_frame :
    trackingCamera.trackNode = some (NodeRef.other 1) ∧
    trackingCamera.trackPGain = 1 ∧
    (BaseCamera.nodeWorldPose halfTurnEnv trackingCamera (NodeRef.other 1)).Pos +
      trackingCamera.trackOffset = ![5, 1, 0] ∧
    (∀ M : ExternalMath ℚ,
      (BaseCamera.PreRender M halfTurnEnv trackingCamera).worldRotation =
        M.LookAtRot 0 ![5, -1, 0]) ∧
    (∀ M : ExternalMath ℚ, M.LookAtRot 0 ![5, -1, 0] ≠ M.LookAtRot 0 ![5, 1, 0] →
      (BaseCamera.PreRender M halfTurnEnv trackingCamera).worldRotation ≠
        M.LookAtRot (BaseCamera.PreRender_follow halfTurnEnv trackingCamera).worldPosition
          ((BaseCamera.nodeWorldPose halfTurnEnv trackingCamera (NodeRef.other 1)).Pos +
            trackingCamera.trackOffset)) := by
  have hpoint : BaseCamera.trackPoint halfTurnEnv trackingCamera (NodeRef.other 1) =
      ![5, -1, 0] := by
    ext i
    fin_cases i <;>
      norm_num [BaseCamera.trackPoint, trackingCamera, halfTurnEnv, BaseCamera.SetTrackTarget,
        BaseCamera.BaseCamera, Pose3d.add, Quaterniond.RotateVector, Quaterniond.mul,
        Quaterniond.Inverse, math.equal, BaseCamera.nodeWorldPose]
  have hsum : (BaseCamera.nodeWorldPose halfTurnEnv trackingCamera (NodeRef.other 1)).Pos +
      trackingCamera.trackOffset = ![5, 1, 0] := by
    ext i
    fin_cases i <;>
      norm_num [trackingCamera, halfTurnEnv, BaseCamera.SetTrackTarget,
        BaseCamera.BaseCamera, BaseCamera.nodeWorldPose]
  have hrot : ∀ M : ExternalMath ℚ,
      (BaseCamera.PreRender M halfTurnEnv trackingCamera).worldRotation =
        M.LookAtRot 0 ![5, -1, 0] := by
    intro M
    have heq : math.equal (1 : ℚ) 1 = true := by norm_num [math.equal]
    have hfollow : BaseCamera.PreRender_follow halfTurnEnv trackingCamera = trackingCamera := rfl
    unfold BaseCamera.PreRender
    rw [hfollow]
    unfold BaseCamera.PreRender_track
    have hn : trackingCamera.trackNode = some (NodeRef.other 1) := rfl
    have hg : trackingCamera.trackPGain = 1 := rfl
    rw [hn]
    simp only [hg, heq, hpoint, BaseCamera.SetWorldRotation, BaseCamera.WorldPosition]
    rfl
  refine ⟨rfl, rfl, hsum, hrot, ?_⟩
  intro M hM
  rw [hrot M, hsum]
  exact hM

/-- C16 (as amended): when a track target is set, one `PreRender()` with track gain 1 sets the
camera world rotation to the rotation of `LookAt(eye, point)`, where eye is the camera's world
position at that moment (after the follow update) and point is, in world frame, the tracked
node's world position plus the track offset and, in the node's local frame, the tracked node's
world position plus the track offset rotated by the node's world rotation; with track gain 0
the rotation after `PreRender()` is `Slerp(0, current, look-at)`, which is the rotation before
for a `Slerp` that returns its first end at fraction 0. -/
theorem C16_track_look_at {K : Type} [LinearOrderedField K] (M : ExternalMath K)
    (env : Nat → Pose3d K) (c : Camera K) (n : NodeRef) (hn : c.trackNode = some n) :
    (c.trackPGain = 1 →
      (BaseCamera.PreRender M env c).worldRotation =
        M.LookAtRot (BaseCamera.PreRender_follow env c).worldPosition
          (BaseCamera.trackPoint env (BaseCamera.PreRender_follow env c) n)) ∧
    (c.trackWorldFrame = true →
      BaseCamera.trackPoint env (BaseCamera.PreRender_follow env c) n =
        (BaseCamera.nodeWorldPose env (BaseCamera.PreRender_follow env c) n).Pos +
          c.trackOffset) ∧
    (c.trackWorldFrame = false →
      BaseCamera.trackPoint env (BaseCamera.PreRender_follow env c) n =
        (BaseCamera.nodeWorldPose env (BaseCamera.PreRender_follow env c) n).Pos +
          Quaterniond.RotateVector
            (BaseCamera.nodeWorldPose env (BaseCamera.PreRender_follow env c) n).Rot
            c.trackOffset) ∧
    (c.trackPGain = 0 →
      (BaseCamera.PreRender M env c).worldRotation =
        M.Slerp 0 c.worldRotation
          (M.LookAtRot (BaseCamera.PreRender_follow env c).worldPosition
            (BaseCamera.trackPoint env (BaseCamera.PreRender_follow env c) n)) true ∧
      (M.Slerp 0 c.worldRotation
          (M.LookAtRot (BaseCamera.PreRender_follow env c).worldPosition
            (BaseCamera.trackPoint env (BaseCamera.PreRender_follow env c) n)) true =
          c.worldRotation →
        (BaseCamera.PreRender M env c).worldRotation = c.worldRotation)) := by
  obtain ⟨_, hg, hr, hnode, hoff, hframe⟩ := BaseCamera.PreRender_follow_rest env c
  have hn1 : (BaseCamera.PreRender_follow env c).trackNode = some n := by rw [hnode, hn]
  have h11 : math.equal (1 : K) 1 = true := by simp [math.equal]
  have h01 : math.equal (0 : K) 1 = false := by
    norm_num [math.equal]
  refine ⟨?_, ?_, ?_, ?_⟩
  · intro h1
    unfold BaseCamera.PreRender
    conv_lhs => unfold BaseCamera.PreRender_track
    rw [hn1]
    simp only [hg, h1, h11, BaseCamera.SetWorldRotation, BaseCamera.WorldPosition]
    rfl
  · intro hw
    unfold BaseCamera.trackPoint
    simp only [hframe, hw, if_true, hoff]
    exact add_comm _ _
  · intro hw
    unfold BaseCamera.trackPoint
    simp only [hframe, hw, hoff, Pose3d.add]
    rfl
  · intro h0
    have hrot : (BaseCamera.PreRender M env c).worldRotation =
        M.Slerp 0 c.worldRotation
          (M.LookAtRot (BaseCamera.PreRender_follow env c).worldPosition
            (BaseCamera.trackPoint env (BaseCamera.PreRender_follow env c) n)) true := by
      unfold BaseCamera.PreRender
      conv_lhs => unfold BaseCamera.PreRender_track
      rw [hn1]
      simp only [hg, h0, h01, BaseCamera.SetWorldRotation, BaseCamera.WorldPosition,
        BaseCamera.WorldRotation, hr]
      rfl
    exact ⟨hrot, fun hs => hrot.trans hs⟩

/-- Witness of C16: a camera at the origin tracks, in world frame with offset (0, 1, 0) and
gain 1, a node at (5, 0, 0): the look-at point is (5, 1, 0). -/
theorem C16_witness :
    worldTrackingCamera.trackNode = some (NodeRef.other 1) ∧
    (BaseCamera.PreRender rationalMath halfTurnEnv worldTrackingCamera).worldRotation =
      rationalMath.LookAtRot 0 ![5, 1, 0] := by
  have h := C16_track_look_at rationalMath halfTurnEnv worldTrackingCamera (NodeRef.other 1) rfl
  refine ⟨rfl, ?_⟩
  rw [h.1 rfl, h.2.1 rfl]
  have hsum : (BaseCamera.nodeWorldPose halfTurnEnv
      (BaseCamera.PreRender_follow halfTurnEnv worldTrackingCamera) (NodeRef.other 1)).Pos +
      worldTrackingCamera.trackOffset = ![5, 1, 0] := by
    ext i
    fin_cases i <;>
      norm_num [worldTrackingCamera, halfTurnEnv, BaseCamera.SetTrackTarget,
        BaseCamera.BaseCamera, BaseCamera.nodeWorldPose]
  rw [hsum]
  rfl

/-- C18: for every camera world pose with rotation matrix R and position p, `ViewMatrix()` is
the 4x4 matrix whose upper-left 3x3 block is the transpose of R*B, with
B = [[0,0,-1],[-1,0,0],[0,1,0]], whose translation column is minus that block applied to p,
and whose bottom row is (0,0,0,1). -/
theorem C18_view_matrix {K : Type} [LinearOrderedField K] (M : ExternalMath K)
    (cam : Camera K) :
    (∀ i j : Fin 3, BaseCamera.ViewMatrix M cam i.castSucc j.castSucc =
      (M.Matrix3 cam.worldRotation * !![0, 0, -1; -1, 0, 0; 0, 1, 0]).transpose i j) ∧
    (∀ i : Fin 3, BaseCamera.ViewMatrix M cam i.castSucc 3 =
      -((M.Matrix3 cam.worldRotation * !![0, 0, -1; -1, 0, 0; 0, 1, 0]).transpose.mulVec
        cam.worldPosition i)) ∧
    BaseCamera.ViewMatrix M cam 3 0 = 0 ∧ BaseCamera.ViewMatrix M cam 3 1 = 0 ∧
    BaseCamera.ViewMatrix M cam 3 2 = 0 ∧ BaseCamera.ViewMatrix M cam 3 3 = 1 := by
  refine ⟨?_, ?_, rfl, rfl, rfl, rfl⟩
  · intro i j
    fin_cases i <;> fin_cases j <;> rfl
  · intro i
    fin_cases i <;> exact mul_neg_one _

/-- C19 (the code on every input): when no backend overrides them, `BaseCamera::VisualAt` in
both overloads and `BaseScene::VisualAt` do not return: whatever depth of nested calls is
allowed, the call has not returned, because the body of each is a call of itself. -/
theorem C19_VisualAt_never_returns {K : Type} [LinearOrderedField K] (fuel : Nat)
    (cam : Camera K) (s : Scene) (camera : ObjectPtr) (mousePos : Int × Int) (mod : String) :
    BaseCamera.VisualAt fuel cam mousePos = none ∧
    BaseCamera.VisualAt_mod fuel cam mousePos mod = none ∧
    BaseScene.VisualAt fuel s camera mousePos = none := by
  induction fuel with
  | zero => exact ⟨rfl, rfl, rfl⟩
  | succ k ih => exact ih

/-! ## Lifecycle flags, wrap of the counter, ids of the default materials -/

namespace BaseScene

theorem step_flags_mono (B : Backend) (s s' : Scene) (op : Op) (h : step B s op = some s') :
    (s.loaded = true → s'.loaded = true) ∧ (s.initialized = true → s'.initialized = true) := by
  by_cases h1 : op = Op.Load
  · subst h1
    cases h
    obtain ⟨r1, _, _, _⟩ := Load_rest B s
    refine ⟨fun hl => ?_, fun hi => ?_⟩
    · rw [Load_of_loaded B s hl]; exact hl
    · rw [r1]; exact hi
  · by_cases h2 : op = Op.Init
    · subst h2
      rcases Init_cases B s s' h with ⟨_, rfl⟩ | ⟨hl, hi, hc⟩ | ⟨_, _, rfl⟩
      · exact ⟨fun hl => hl, fun hi => hi⟩
      · obtain ⟨_, _, l3, _, _⟩ := (CreateMaterials_alloc B _ _ hc).1
        refine ⟨fun _ => l3.trans hl, fun hi' => ?_⟩
        rw [hi] at hi'
        cases hi'
      · exact ⟨fun hl => hl, fun hi => hi⟩
    · obtain ⟨_, _, l3, l4, _⟩ := step_life B s s' op h h1 h2
      exact ⟨fun hl => l3.trans hl, fun hi => l4.trans hi⟩

theorem run_flags_mono (B : Backend) : ∀ (ops : List Op) (s s' : Scene),
    run B ops s = some s' →
    (s.loaded = true → s'.loaded = true) ∧ (s.initialized = true → s'.initialized = true) := by
  intro ops
  induction ops with
  | nil => intro s s' h; cases h; exact ⟨fun hl => hl, fun hi => hi⟩
  | cons op ops ih =>
    intro s s' h
    simp only [run, Option.bind_eq_some] at h
    obtain ⟨s1, h1, h2⟩ := h
    have a := step_flags_mono B s s1 op h1
    have b := ih s1 s' h2
    exact ⟨fun hl => b.1 (a.1 hl), fun hi => b.2 (a.2 hi)⟩

theorem CreateObjectIds_idSeq : ∀ (n : Nat) (s : Scene),
    (CreateObjectIds n s).1 = idSeq s.nextObjectId n ∧
    (CreateObjectIds n s).2.nextObjectId = decr^[n] s.nextObjectId := by
  intro n
  induction n with
  | zero => intro s; exact ⟨rfl, rfl⟩
  | succ n ih =>
    intro s
    obtain ⟨h1, h2⟩ := ih (CreateObjectId s).2
    have hc : (CreateObjectId s).2.nextObjectId = decr s.nextObjectId := rfl
    refine ⟨?_, ?_⟩
    · show s.nextObjectId :: (CreateObjectIds n (CreateObjectId s).2).1 = _
      rw [h1, hc, Nat.add_comm n 1, idSeq_add]
      simp [idSeq]
    · show (CreateObjectIds n (CreateObjectId s).2).2.nextObjectId = _
      rw [h2, hc, Function.iterate_succ_apply]

end BaseScene

theorem decr_iterate_le : ∀ (i c : Nat), i ≤ c → c < UINT_SIZE → decr^[i] c = c - i := by
  intro i
  induction i with
  | zero => intro c _ _; rfl
  | succ i ih =>
    intro c hi hc
    rw [Function.iterate_succ_apply', ih c (by omega) hc, decr_pos _ (by omega) (by omega)]
    omega

theorem idSeq_getElem? (c k i : Nat) (h : i < k) : (idSeq c k)[i]? = some (decr^[i] c) := by
  unfold idSeq
  rw [List.getElem?_map, List.getElem?_range h]
  rfl

/-- C21: in every state reached from a newly constructed scene (where `loaded` and
`initialized` are false) by a sequence of Load, Init, Clear, Destroy, create and destroy
operations, `initialized` implies `loaded`; and along every further such sequence neither
flag goes from true back to false. -/
theorem C21_lifecycle_flags_monotone (B : Backend) (_id : Nat) (_name : String)
    (be : BackendStores) (ops1 ops2 : List Op) (s1 s2 : Scene)
    (h1 : BaseScene.run B ops1 (BaseScene.BaseScene _id _name be) = some s1)
    (h2 : BaseScene.run B ops2 s1 = some s2) :
    (BaseScene.BaseScene _id _name be).loaded = false ∧
    (BaseScene.BaseScene _id _name be).initialized = false ∧
    (s1.initialized = true → s1.loaded = true) ∧
    (s1.loaded = true → s2.loaded = true) ∧
    (s1.initialized = true → s2.initialized = true) := by
  have hinv : LifecycleInv s1 := Reachable.lifecycleInv ⟨_id, _name, be, ops1, h1⟩
  have hm := BaseScene.run_flags_mono B ops2 s1 s2 h2
  exact ⟨rfl, rfl, fun hi => (hinv hi).1, hm.1, hm.2⟩

/-- Witness of C21: the scene "scene" is loaded and initialized by Load, Init and stays so
through a creation, `Clear()` and `Destroy()`. -/
theorem C21_witness :
    ∃ s1 s2, BaseScene.run okBackend [Op.Load, Op.Init] newScene = some s1 ∧
      BaseScene.run okBackend laterSession s1 = some s2 ∧
      s1.loaded = true ∧ s1.initialized = true ∧ s2.loaded = true ∧ s2.initialized = true := by
  have e1 : ((BaseScene.run okBackend [Op.Load, Op.Init] newScene).map
      fun s => (s.loaded, s.initialized)) = some (true, true) := by decide
  cases hs1 : BaseScene.run okBackend [Op.Load, Op.Init] newScene with
  | none => rw [hs1] at e1; cases e1
  | some s1 =>
    rw [hs1] at e1
    have e1' := Option.some.inj e1
    simp only [Prod.mk.injEq] at e1'
    have e2 : (BaseScene.run okBackend ([Op.Load, Op.Init] ++ laterSession) newScene).isSome
        = true := by decide
    have hsplit : BaseScene.run okBackend ([Op.Load, Op.Init] ++ laterSession) newScene =
        (BaseScene.run okBackend [Op.Load, Op.Init] newScene).bind
          (BaseScene.run okBackend laterSession) := by
      simp [BaseScene.run, Option.bind_assoc]
    rw [hsplit, hs1, Option.some_bind] at e2
    obtain ⟨s2, hs2⟩ := Option.isSome_iff_exists.mp e2
    have h := C21_lifecycle_flags_monotone okBackend 0 "scene" emptyStores
      [Op.Load, Op.Init] laterSession s1 s2 hs1 hs2
    exact ⟨s1, s2, rfl, hs2, e1'.1, e1'.2, h.2.2.2.1 e1'.1, h.2.2.2.2 e1'.2⟩

/-- Counterexample to C22 as stated: from a newly constructed scene the 65537th
`CreateObjectId()` call is made when the counter is 4294967295, not 0, and it returns
4294967295, not 0. (The call that finds the counter at 0 and returns 0 is the 65536th.) -/
theorem C22_counterexample_call_65537 :
    (BaseScene.CreateObjectIds 65536 newScene).2.nextObjectId = 4294967295 ∧
    (BaseScene.CreateObjectIds 65537 newScene).1[65536]? = some 4294967295 ∧
    (BaseScene.CreateObjectIds 65537 newScene).1[65536]? ≠ some 0 := by
  have h65535 : decr^[65535] 65535 = 0 := decr_iterate_le 65535 65535 (le_refl _) (by decide)
  have h65536 : decr^[65536] 65535 = 4294967295 := by
    rw [Function.iterate_succ_apply', h65535]
    exact decr_zero
  have hc := (BaseScene.CreateObjectIds_idSeq 65536 newScene).2
  have hl := (BaseScene.CreateObjectIds_idSeq 65537 newScene).1
  have hn : newScene.nextObjectId = 65535 := rfl
  rw [hn] at hc hl
  refine ⟨hc.trans h65536, ?_, ?_⟩
  · rw [hl, idSeq_getElem? _ _ _ (by decide), h65536]
  · rw [hl, idSeq_getElem? _ _ _ (by decide), h65536]
    decide

/-- C22 (as amended): the id counter is an unsigned 32-bit value; from a newly constructed
scene the 65536th `CreateObjectId()` call is made when the counter is 0 and returns 0, the
counter then wraps modulo 2^32 and the following, 65537th, call returns 4294967295, which is
larger than every id issued before; and for every `n` up to 2^32 the first `n` ids issued by
successive calls are pairwise distinct. -/
theorem C22_counter_wraps_at_zero (_id : Nat) (_name : String) (be : BackendStores) :
    (BaseScene.CreateObjectIds 65535 (BaseScene.BaseScene _id _name be)).2.nextObjectId = 0 ∧
    (BaseScene.CreateObjectIds 65537 (BaseScene.BaseScene _id _name be)).1[65535]? = some 0 ∧
    (BaseScene.CreateObjectIds 65536 (BaseScene.BaseScene _id _name be)).2.nextObjectId =
      4294967295 ∧
    (BaseScene.CreateObjectIds 65537 (BaseScene.BaseScene _id _name be)).1[65536]? =
      some 4294967295 ∧
    (∀ x ∈ (BaseScene.CreateObjectIds 65536 (BaseScene.BaseScene _id _name be)).1,
      x < 4294967295) ∧
    (∀ n, n ≤ UINT_SIZE →
      ((BaseScene.CreateObjectIds n (BaseScene.BaseScene _id _name be)).1).Nodup ∧
      ((BaseScene.CreateObjectIds n (BaseScene.BaseScene _id _name be)).1).length = n) := by
  have h65535 : decr^[65535] 65535 = 0 := decr_iterate_le 65535 65535 (le_refl _) (by decide)
  have h65536 : decr^[65536] 65535 = 4294967295 := by
    rw [Function.iterate_succ_apply', h65535]
    exact decr_zero
  have hn : (BaseScene.BaseScene _id _name be).nextObjectId = 65535 := rfl
  have hids : ∀ n, (BaseScene.CreateObjectIds n (BaseScene.BaseScene _id _name be)).1 =
      idSeq 65535 n := fun n => by
    rw [(BaseScene.CreateObjectIds_idSeq n _).1, hn]
  have hctr : ∀ n, (BaseScene.CreateObjectIds n (BaseScene.BaseScene _id _name be)).2.nextObjectId
      = decr^[n] 65535 := fun n => by
    rw [(BaseScene.CreateObjectIds_idSeq n _).2, hn]
  refine ⟨(hctr 65535).trans h65535, ?_, (hctr 65536).trans h65536, ?_, ?_, ?_⟩
  · rw [hids, idSeq_getElem? _ _ _ (by decide), h65535]
  · rw [hids, idSeq_getElem? _ _ _ (by decide), h65536]
  · intro x hx
    rw [hids] at hx
    unfold idSeq at hx
    obtain ⟨i, hi, rfl⟩ := List.mem_map.mp hx
    have hi' := List.mem_range.mp hi
    rw [decr_iterate_le i 65535 (by omega) (by decide)]
    omega
  · intro n hle
    rw [hids]
    exact ⟨idSeq_nodup _ n hle, idSeq_length _ n⟩

/-- Witness of C22: the first 70000 ids of the scene "scene", a run that passes the wrap, are
pairwise distinct. -/
theorem C22_witness :
    70000 ≤ UINT_SIZE ∧ ((BaseScene.CreateObjectIds 70000 newScene).1).Nodup :=
  ⟨by decide, ((C22_counter_wraps_at_zero 0 "scene" emptyStores).2.2.2.2.2 70000 (by decide)).1⟩

/-- C23: on a newly constructed scene whose hooks succeed, `Load()` then `Init()` hand out
exactly four ids, 65535, 65534, 65533, 65532, one for each default material in the order
TransRed, TransGreen, TransBlue, White, so that the next id handed out is 65531; a further
`Init()` on the now initialized scene changes nothing: no id is handed out and no material is
created. -/
theorem C23_Init_allocates_four_ids (B : Backend) (_id : Nat) (_name : String)
    (be : BackendStores)
    (hL : ∀ t, B.LoadImpl t = true) (hI : ∀ t, B.InitImpl t = true)
    (hM : ∀ t i n, (B.CreateMaterialImpl t i n).isSome = true) :
    ∃ s', BaseScene.Init B (BaseScene.Load B (BaseScene.BaseScene _id _name be)) = some s' ∧
      BaseScene.issuedIds s'.trace = [65535, 65534, 65533, 65532] ∧
      s'.trace =
        [Event.LoadImpl, Event.InitImpl,
         Event.CreateObjectId 65535, Event.CreateMaterialImpl 65535 "Default/TransRed",
         Event.CreateObjectId 65534, Event.CreateMaterialImpl 65534 "Default/TransGreen",
         Event.CreateObjectId 65533, Event.CreateMaterialImpl 65533 "Default/TransBlue",
         Event.CreateObjectId 65532, Event.CreateMaterialImpl 65532 "Default/White"] ∧
      s'.nextObjectId = 65531 ∧
      (BaseScene.CreateObjectId s').1 = 65531 ∧
      s'.heap.length = be.heap.length + 4 ∧
      BaseScene.Init B s' = some s' := by
  have h1 : decr 65535 = 65534 := by decide
  have h2 : decr 65534 = 65533 := by decide
  have h3 : decr 65533 = 65532 := by decide
  have h4 : decr 65532 = 65531 := by decide
  have htrace : (withDefault (withDefault (withDefault (withDefault
      (BaseScene.afterInitImpl B (BaseScene.Load B (BaseScene.BaseScene _id _name be)))
      "Default/TransRed" transRed) "Default/TransGreen" transGreen)
      "Default/TransBlue" transBlue) "Default/White" white).trace =
      [Event.LoadImpl, Event.InitImpl,
       Event.CreateObjectId 65535, Event.CreateMaterialImpl 65535 "Default/TransRed",
       Event.CreateObjectId 65534, Event.CreateMaterialImpl 65534 "Default/TransGreen",
       Event.CreateObjectId 65533, Event.CreateMaterialImpl 65533 "Default/TransBlue",
       Event.CreateObjectId 65532, Event.CreateMaterialImpl 65532 "Default/White"] := by
    simp [withDefault, BaseScene.afterInitImpl, BaseScene.CreateNodeStore, BaseScene.Load,
      BaseScene.BaseScene, MAX_UI16, h1, h2, h3]
  have hctr : (withDefault (withDefault (withDefault (withDefault
      (BaseScene.afterInitImpl B (BaseScene.Load B (BaseScene.BaseScene _id _name be)))
      "Default/TransRed" transRed) "Default/TransGreen" transGreen)
      "Default/TransBlue" transBlue) "Default/White" white).nextObjectId = 65531 := by
    simp [withDefault, BaseScene.afterInitImpl, BaseScene.CreateNodeStore, BaseScene.Load,
      BaseScene.BaseScene, MAX_UI16, h1, h2, h3, h4]
  refine ⟨_, BaseScene.Init_Load_eq B _id _name be hL hM, ?_, htrace, hctr, hctr, ?_, ?_⟩
  · rw [htrace]
    rfl
  · simp [withDefault, BaseScene.afterInitImpl, BaseScene.CreateNodeStore, BaseScene.Load,
      BaseScene.BaseScene]
  · have hl : (withDefault (withDefault (withDefault (withDefault
        (BaseScene.afterInitImpl B (BaseScene.Load B (BaseScene.BaseScene _id _name be)))
        "Default/TransRed" transRed) "Default/TransGreen" transGreen)
        "Default/TransBlue" transBlue) "Default/White" white).loaded = true := by
      simp [withDefault, BaseScene.afterInitImpl, BaseScene.CreateNodeStore, BaseScene.Load,
        BaseScene.BaseScene, hL]
    have hi : (withDefault (withDefault (withDefault (withDefault
        (BaseScene.afterInitImpl B (BaseScene.Load B (BaseScene.BaseScene _id _name be)))
        "Default/TransRed" transRed) "Default/TransGreen" transGreen)
        "Default/TransBlue" transBlue) "Default/White" white).initialized = true := by
      simp [withDefault, BaseScene.afterInitImpl, BaseScene.CreateNodeStore, BaseScene.Load,
        BaseScene.BaseScene, hI]
    unfold BaseScene.Init
    rw [if_neg (by simp [hl]), if_neg (by simp [hi])]

/-- Witness of C23: the scene "scene" with the backend whose hooks succeed. -/
theorem C23_witness :
    ∃ s', BaseScene.Init okBackend (BaseScene.Load okBackend newScene) = some s' ∧
      BaseScene.issuedIds s'.trace = [65535, 65534, 65533, 65532] ∧
      (BaseScene.CreateObjectId s').1 = 65531 ∧
      BaseScene.Init okBackend s' = some s' := by
  obtain ⟨s', h0, h1, _, _, h4, _, h6⟩ :=
    C23_Init_allocates_four_ids okBackend 0 "scene" emptyStores (fun _ => rfl) (fun _ => rfl)
      (fun _ _ _ => rfl)
  exact ⟨s', h0, h1, h4, h6⟩

/-! ## Symmetry of the frustum, the view matrix as a rigid motion -/

section CameraMatrices

variable {K : Type} [LinearOrderedField K]

namespace BaseCamera

theorem ProjectionMatrix_entries (M : ExternalMath K) (cam : Camera K) :
    ProjectionMatrix M cam 0 0 =
      2 * cam.nearClip * (1 / (cam.aspect * (2 *
        (cam.nearClip * M.tan (1 / 2 * (2 * M.atan (M.tan (cam.hfov / 2) / cam.aspect))) / 1))))
    ∧ ProjectionMatrix M cam 1 1 =
      2 * cam.nearClip * (1 / (2 *
        (cam.nearClip * M.tan (1 / 2 * (2 * M.atan (M.tan (cam.hfov / 2) / cam.aspect))) / 1)))
    ∧ ProjectionMatrix M cam 0 2 = 0 ∧ ProjectionMatrix M cam 1 2 = 0 := by
  refine ⟨?_, ?_, ?_, ?_⟩
  · show 2 * cam.nearClip * (1 / (_ - _)) = _
    congr 2
    simp only [AspectRatio, NearClipPlane, HFOV]
    ring
  · show 2 * cam.nearClip * (1 / (_ - _)) = _
    congr 2
    simp only [AspectRatio, NearClipPlane, HFOV]
    ring
  · show (_ + _) * (1 / (_ - _)) = (0 : K)
    have h : ∀ w : K, (-(1 / 2) * w + w + -(1 / 2) * w) = 0 := fun w => by ring
    rw [h, zero_mul]
  · show (_ + _) * (1 / (_ - _)) = (0 : K)
    have h : ∀ w : K, (w + (w - 2 * w)) = 0 := fun w => by ring
    rw [h, zero_mul]

theorem ViewMatrix_block (M : ExternalMath K) (cam : Camera K) :
    Matrix4d.upperLeft3 (ViewMatrix M cam) =
      (M.Matrix3 cam.worldRotation * !![0, 0, -1; -1, 0, 0; 0, 1, 0]).transpose := by
  ext i j
  fin_cases i <;> fin_cases j <;> rfl

theorem ViewMatrix_translation (M : ExternalMath K) (cam : Camera K) (i : Fin 3) :
    ViewMatrix M cam i.castSucc 3 =
      -((M.Matrix3 cam.worldRotation * !![0, 0, -1; -1, 0, 0; 0, 1, 0]).transpose.mulVec
        cam.worldPosition i) := by
  fin_cases i <;> exact mul_neg_one _

theorem basisChange_orthonormal :
    (!![0, 0, -1; -1, 0, 0; 0, 1, 0] : Matrix3d K) *
      (!![0, 0, -1; -1, 0, 0; 0, 1, 0] : Matrix3d K).transpose = 1 := by
  ext i j
  fin_cases i <;> fin_cases j <;>
    simp [Matrix.mul_apply, Fin.sum_univ_three, Matrix.transpose_apply, Matrix.vecHead,
      Matrix.vecTail]

theorem ViewMatrix_maps_position_row (M : ExternalMath K) (cam : Camera K) (i : Fin 3) :
    (ViewMatrix M cam).mulVec
      ![cam.worldPosition 0, cam.worldPosition 1, cam.worldPosition 2, 1] i.castSucc = 0 := by
  have hb := ViewMatrix_block M cam
  have e0 : ViewMatrix M cam i.castSucc 0 =
      (M.Matrix3 cam.worldRotation * !![0, 0, -1; -1, 0, 0; 0, 1, 0]).transpose i 0 :=
    congrFun (congrFun hb i) 0
  have e1 : ViewMatrix M cam i.castSucc 1 =
      (M.Matrix3 cam.worldRotation * !![0, 0, -1; -1, 0, 0; 0, 1, 0]).transpose i 1 :=
    congrFun (congrFun hb i) 1
  have e2 : ViewMatrix M cam i.castSucc 2 =
      (M.Matrix3 cam.worldRotation * !![0, 0, -1; -1, 0, 0; 0, 1, 0]).transpose i 2 :=
    congrFun (congrFun hb i) 2
  rw [Matrix.mulVec, Matrix.dotProduct, Fin.sum_univ_four, e0, e1, e2,
    ViewMatrix_translation M cam i, Matrix.mulVec, Matrix.dotProduct, Fin.sum_univ_three]
  simp only [Matrix.cons_val_zero, Matrix.cons_val_one, Matrix.head_cons, Matrix.cons_val_two,
    Matrix.tail_cons, Matrix.cons_val_three]
  ring

theorem ViewMatrix_maps_position_last (M : ExternalMath K) (cam : Camera K) :
    (ViewMatrix M cam).mulVec
      ![cam.worldPosition 0, cam.worldPosition 1, cam.worldPosition 2, 1] 3 = 1 := by
  have e0 : ViewMatrix M cam 3 0 = 0 := rfl
  have e1 : ViewMatrix M cam 3 1 = 0 := rfl
  have e2 : ViewMatrix M cam 3 2 = 0 := rfl
  have e3 : ViewMatrix M cam 3 3 = 1 := rfl
  rw [Matrix.mulVec, Matrix.dotProduct, Fin.sum_univ_four, e0, e1, e2, e3]
  simp

end BaseCamera

end CameraMatrices

/-- C24: over the reals, for every horizontal field of view in (0, pi), aspect ratio > 0,
near > 0 and far different from near, the frustum built by `ProjectionMatrix()` is symmetric:
M[0][2] = M[1][2] = 0; M[0][0] = 1/tan(hfov/2), whatever the aspect ratio and near are; and
M[1][1] = aspect * M[0][0]. -/
theorem C24_symmetric_frustum (M : ExternalMath ℝ) (cam : Camera ℝ)
    (htan : M.tan = Real.tan) (hatan : M.atan = Real.arctan)
    (h0 : 0 < cam.hfov) (hpi : cam.hfov < Real.pi) (ha : 0 < cam.aspect)
    (hn : 0 < cam.nearClip) (hf : cam.farClip ≠ cam.nearClip) :
    BaseCamera.ProjectionMatrix M cam 0 2 = 0 ∧
    BaseCamera.ProjectionMatrix M cam 1 2 = 0 ∧
    BaseCamera.ProjectionMatrix M cam 0 0 = 1 / Real.tan (cam.hfov / 2) ∧
    BaseCamera.ProjectionMatrix M cam 1 1 =
      cam.aspect * BaseCamera.ProjectionMatrix M cam 0 0 := by
  obtain ⟨e00, e11, e02, e12⟩ := BaseCamera.ProjectionMatrix_entries M cam
  have hT : 0 < Real.tan (cam.hfov / 2) :=
    Real.tan_pos_of_pos_of_lt_pi_div_two (by linarith) (by linarith)
  have htop : cam.nearClip *
      M.tan (1 / 2 * (2 * M.atan (M.tan (cam.hfov / 2) / cam.aspect))) / 1 =
      cam.nearClip * (Real.tan (cam.hfov / 2) / cam.aspect) := by
    have hhalf : ∀ x : ℝ, 1 / 2 * (2 * x) = x := fun x => by ring
    rw [htan, hatan, hhalf, Real.tan_arctan, div_one]
  have hT' := ne_of_gt hT
  have ha' := ne_of_gt ha
  have hn' := ne_of_gt hn
  have h00 : BaseCamera.ProjectionMatrix M cam 0 0 = 1 / Real.tan (cam.hfov / 2) := by
    rw [e00, htop]
    field_simp
    ring
  refine ⟨e02, e12, h00, ?_⟩
  rw [h00, e11, htop]
  field_simp
  ring

/-- Witness of C24: over the reals, horizontal field of view 90 degrees, aspect ratio 2, near
0.1, far 100. -/
theorem C24_witness :
    BaseCamera.ProjectionMatrix
      (⟨Real.tan, Real.arctan, fun _ _ => Quaterniond.Identity,
        fun _ p _ _ => p, fun _ => 1⟩ : ExternalMath ℝ)
      (BaseCamera.SetFarClipPlane (BaseCamera.SetNearClipPlane (BaseCamera.SetAspectRatio
        (BaseCamera.SetHFOV (BaseCamera.BaseCamera 0 Quaterniond.Identity) (Real.pi / 2)) 2)
        (1 / 10)) 100) 0 2 = 0 ∧
    BaseCamera.ProjectionMatrix
      (⟨Real.tan, Real.arctan, fun _ _ => Quaterniond.Identity,
        fun _ p _ _ => p, fun _ => 1⟩ : ExternalMath ℝ)
      (BaseCamera.SetFarClipPlane (BaseCamera.SetNearClipPlane (BaseCamera.SetAspectRatio
        (BaseCamera.SetHFOV (BaseCamera.BaseCamera 0 Quaterniond.Identity) (Real.pi / 2)) 2)
        (1 / 10)) 100) 0 0 = 1 / Real.tan (Real.pi / 2 / 2) :=
  ⟨(C24_symmetric_frustum _ _ rfl rfl (by show (0 : ℝ) < Real.pi / 2; positivity)
      (by show Real.pi / 2 < Real.pi; linarith [Real.pi_pos])
      (by show (0 : ℝ) < 2; norm_num) (by show (0 : ℝ) < 1 / 10; norm_num)
      (by show (100 : ℝ) ≠ 1 / 10; norm_num)).1,
   (C24_symmetric_frustum _ _ rfl rfl (by show (0 : ℝ) < Real.pi / 2; positivity)
      (by show Real.pi / 2 < Real.pi; linarith [Real.pi_pos])
      (by show (0 : ℝ) < 2; norm_num) (by show (0 : ℝ) < 1 / 10; norm_num)
      (by show (100 : ℝ) ≠ 1 / 10; norm_num)).2.2.1⟩

/-- C25: for every camera world pose whose rotation matrix R is orthonormal, `ViewMatrix()`
maps the camera's own world position to the origin of view space, V * (p, 1) = (0, 0, 0, 1),
and its upper-left 3x3 block is orthonormal: its transpose is its inverse on both sides. -/
theorem C25_view_matrix_rigid {K : Type} [LinearOrderedField K] (M : ExternalMath K)
    (cam : Camera K)
    (hR : (M.Matrix3 cam.worldRotation).transpose * M.Matrix3 cam.worldRotation = 1) :
    (BaseCamera.ViewMatrix M cam).mulVec
      ![cam.worldPosition 0, cam.worldPosition 1, cam.worldPosition 2, 1] = ![0, 0, 0, 1] ∧
    (Matrix4d.upperLeft3 (BaseCamera.ViewMatrix M cam)).transpose *
      Matrix4d.upperLeft3 (BaseCamera.ViewMatrix M cam) = 1 ∧
    Matrix4d.upperLeft3 (BaseCamera.ViewMatrix M cam) *
      (Matrix4d.upperLeft3 (BaseCamera.ViewMatrix M cam)).transpose = 1 := by
  have hR' : M.Matrix3 cam.worldRotation * (M.Matrix3 cam.worldRotation).transpose = 1 :=
    Matrix.mul_eq_one_comm.mp hR
  have hB : (!![0, 0, -1; -1, 0, 0; 0, 1, 0] : Matrix3d K) *
      (!![0, 0, -1; -1, 0, 0; 0, 1, 0] : Matrix3d K).transpose = 1 :=
    BaseCamera.basisChange_orthonormal
  have hB' : (!![0, 0, -1; -1, 0, 0; 0, 1, 0] : Matrix3d K).transpose *
      (!![0, 0, -1; -1, 0, 0; 0, 1, 0] : Matrix3d K) = 1 := Matrix.mul_eq_one_comm.mp hB
  refine ⟨?_, ?_, ?_⟩
  · ext a
    fin_cases a
    · exact BaseCamera.ViewMatrix_maps_position_row M cam 0
    · exact BaseCamera.ViewMatrix_maps_position_row M cam 1
    · exact BaseCamera.ViewMatrix_maps_position_row M cam 2
    · exact BaseCamera.ViewMatrix_maps_position_last M cam
  · rw [BaseCamera.ViewMatrix_block, Matrix.transpose_transpose, Matrix.transpose_mul,
      Matrix.mul_assoc, ← Matrix.mul_assoc _ _ (M.Matrix3 cam.worldRotation).transpose, hB,
      Matrix.one_mul, hR']
  · rw [BaseCamera.ViewMatrix_block, Matrix.transpose_transpose, Matrix.transpose_mul,
      Matrix.mul_assoc, ← Matrix.mul_assoc _ (M.Matrix3 cam.worldRotation) _, hR,
      Matrix.one_mul, hB']

/-- Witness of C25: the camera at (1, 2, 3) with the identity rotation, whose rotation matrix
is the unit matrix. -/
theorem C25_witness :
    (rationalMath.Matrix3 posedCamera.worldRotation).transpose *
      rationalMath.Matrix3 posedCamera.worldRotation = 1 ∧
    (BaseCamera.ViewMatrix rationalMath posedCamera).mulVec ![1, 2, 3, 1] = ![0, 0, 0, 1] := by
  have hR : (rationalMath.Matrix3 posedCamera.worldRotation).transpose *
      rationalMath.Matrix3 posedCamera.worldRotation = 1 := by
    have h1 : rationalMath.Matrix3 posedCamera.worldRotation = 1 := by
      ext i j
      fin_cases i <;> fin_cases j <;>
        (try norm_num [rationalMath, posedCamera, BaseCamera.BaseCamera, Quaterniond.Identity,
          Matrix.one_apply]) <;> (try rfl)
    rw [h1, Matrix.transpose_one, Matrix.one_mul]
  exact ⟨hR, (C25_view_matrix_rigid rationalMath posedCamera hR).1⟩

/-! ## Lemmas on `double` arithmetic -/

namespace Double

theorem ilog2_zero : ilog2 0 = 0 := by decide

theorem round_zero (s : Bool) (q : Nat) (hq : 0 < q) : round s 0 q = finite s 0 := by
  have hq0 : q ≠ 0 := Nat.pos_iff_ne_zero.mp hq
  simp [round, ilog2_zero, hq0]

theorem round_id (s : Bool) (n : Nat) (h : representable n = true) :
    round s n 1 = finite s n := by
  unfold representable at h
  simp only [decide_eq_true_eq] at h
  obtain ⟨hdiv, hlt⟩ := h
  have hd : 0 < 1 <<< (ilog2 n - 52) := by
    rw [Nat.one_shiftLeft]; exact Nat.two_pow_pos _
  have hm : (n / 1 <<< (ilog2 n - 52)) <<< (ilog2 n - 52) = n := by
    rw [Nat.shiftLeft_eq, Nat.one_shiftLeft]
    rw [Nat.one_shiftLeft] at hdiv
    exact Nat.div_mul_cancel (Nat.dvd_of_mod_eq_zero hdiv)
  unfold round
  simp only [Nat.div_one, hdiv, Nat.mul_zero, Nat.not_lt_zero, false_or]
  have hne : ¬ (1 <<< (ilog2 n - 52) = 0) := Nat.pos_iff_ne_zero.mp hd
  simp only [hne, false_and, if_false, hm, hlt, if_true]

theorem ilog2Aux_spec (n : Nat) : ∀ (k acc : Nat), 2 ^ acc ≤ n → n < 2 ^ (acc + 2 ^ k) →
    2 ^ (ilog2Aux n k acc) ≤ n ∧ n < 2 ^ (ilog2Aux n k acc + 1) := by
  intro k
  induction k with
  | zero =>
    intro acc h1 h2
    exact ⟨h1, by simpa using h2⟩
  | succ k ih =>
    intro acc h1 h2
    unfold ilog2Aux
    by_cases h : n >>> (acc + 2 ^ k) = 0
    · rw [if_pos h]
      apply ih acc h1
      rw [Nat.shiftRight_eq_div_pow] at h
      by_contra hc
      have hle : 2 ^ (acc + 2 ^ k) ≤ n := Nat.le_of_not_lt hc
      have := Nat.div_pos hle (Nat.two_pow_pos _)
      omega
    · rw [if_neg h]
      apply ih (acc + 2 ^ k)
      · rw [Nat.shiftRight_eq_div_pow] at h
        by_contra hc
        exact h (Nat.div_eq_of_lt (Nat.lt_of_not_le hc))
      · have : acc + 2 ^ k + 2 ^ k = acc + 2 ^ (k + 1) := by rw [pow_succ]; omega
        rw [this]; exact h2

/-- For 0 < n < 2^8192, `ilog2 n` is the position of the leading bit of `n`. -/
theorem ilog2_spec (n : Nat) (h0 : 0 < n) (hb : n < 2 ^ 8192) :
    2 ^ ilog2 n ≤ n ∧ n < 2 ^ (ilog2 n + 1) := by
  unfold ilog2
  apply ilog2Aux_spec n 13 0
  · exact h0
  · exact hb

theorem ilog2_unique (n e : Nat) (hb : n < 2 ^ 8192) (h1 : 2 ^ e ≤ n) (h2 : n < 2 ^ (e + 1)) :
    ilog2 n = e := by
  have h0 : 0 < n := Nat.lt_of_lt_of_le (Nat.two_pow_pos e) h1
  obtain ⟨s1, s2⟩ := ilog2_spec n h0 hb
  have a : ilog2 n < e + 1 :=
    (Nat.pow_lt_pow_iff_right (by decide : 1 < 2)).mp (Nat.lt_of_le_of_lt s1 h2)
  have b : e < ilog2 n + 1 :=
    (Nat.pow_lt_pow_iff_right (by decide : 1 < 2)).mp (Nat.lt_of_le_of_lt h1 s2)
  omega

/-- A multiple m * 2^k with m ≤ 2^53 has at most 53 significant bits. -/
theorem significant_bits (m k : Nat) (hm : m ≤ 2 ^ 53) (hb : m * 2 ^ k < 2 ^ 8192) :
    (m * 2 ^ k) % (1 <<< (ilog2 (m * 2 ^ k) - 52)) = 0 := by
  rw [Nat.one_shiftLeft]
  apply Nat.mod_eq_zero_of_dvd
  rcases Nat.eq_zero_or_pos (m * 2 ^ k) with h0 | h0
  · rw [h0]; exact Nat.dvd_zero _
  · obtain ⟨s1, s2⟩ := ilog2_spec _ h0 hb
    have hle : m * 2 ^ k ≤ 2 ^ (53 + k) := by
      rw [pow_add]; exact Nat.mul_le_mul_right _ hm
    have he : ilog2 (m * 2 ^ k) ≤ 53 + k :=
      (Nat.pow_le_pow_iff_right (by decide : 1 < 2)).mp (Nat.le_trans s1 hle)
    rcases Nat.lt_or_ge (ilog2 (m * 2 ^ k)) (53 + k) with hlt | hge
    · have : ilog2 (m * 2 ^ k) - 52 ≤ k := by omega
      exact Dvd.dvd.mul_left (pow_dvd_pow 2 this) m
    · have heq : ilog2 (m * 2 ^ k) = 53 + k := by omega
      have hv : m * 2 ^ k = 2 ^ (53 + k) := by
        apply Nat.le_antisymm hle
        rw [heq] at s1; exact s1
      rw [heq, hv]
      exact pow_dvd_pow 2 (by omega)

theorem valid_of_significand (s : Bool) (m k : Nat) (hm : m ≤ 2 ^ 53) :
    valid (if (m <<< k) >>> 2098 = 0 then finite s (m <<< k) else inf s) = true := by
  by_cases hfin : (m <<< k) >>> 2098 = 0
  · rw [if_pos hfin]
    simp only [valid, representable, decide_eq_true_eq]
    refine ⟨?_, hfin⟩
    rw [Nat.shiftLeft_eq]
    rw [Nat.shiftLeft_eq, Nat.shiftRight_eq_div_pow] at hfin
    apply significant_bits _ _ hm
    have hlt : 2 ^ 2098 ≤ 2 ^ 8192 := Nat.pow_le_pow_right (by decide) (by decide)
    by_contra hc
    have hge := Nat.le_trans hlt (Nat.le_of_not_lt hc)
    have := Nat.div_pos hge (Nat.two_pow_pos 2098)
    omega
  · rw [if_neg hfin]; rfl

/-- Rounding yields a value a `double` can hold. -/
theorem round_valid (s : Bool) (p q : Nat) (hq : 0 < q) (hb : p / q < 2 ^ 8192) :
    valid (round s p q) = true := by
  have hm0 : p / (q <<< (ilog2 (p / q) - 52)) < 2 ^ 53 := by
    rw [Nat.shiftLeft_eq, ← Nat.div_div_eq_div_mul]
    rw [Nat.div_lt_iff_lt_mul (Nat.two_pow_pos _), ← pow_add]
    rcases Nat.eq_zero_or_pos (p / q) with h0 | h0
    · rw [h0]; exact Nat.two_pow_pos _
    · have s2 := (ilog2_spec _ h0 hb).2
      exact Nat.lt_of_lt_of_le s2 (Nat.pow_le_pow_right (by decide) (by omega))
  unfold round
  exact valid_of_significand s _ _ (by split <;> omega)

theorem double_add_def (a b : Double) : a + b = add a b := rfl

theorem double_sub_def (a b : Double) : a - b = add a (neg b) := rfl

theorem double_mul_def (a b : Double) : a * b = mul a b := rfl

theorem double_div_def (a b : Double) : a / b = div a b := rfl

theorem double_neg_def (a : Double) : -a = neg a := rfl

theorem double_zero_def : (0 : Double) = finite false 0 := rfl

theorem double_one_def : (1 : Double) = finite false (1 <<< 1074) := rfl

theorem double_lt_def (a b : Double) : (a < b) = (lt a b = true) := rfl

theorem double_le_def (a b : Double) : (a ≤ b) = (le a b = true) := rfl

theorem representable_lt (n : Nat) (h : representable n = true) : n < 2 ^ 2098 := by
  unfold representable at h
  simp only [decide_eq_true_eq] at h
  have h2 := h.2
  rw [Nat.shiftRight_eq_div_pow] at h2
  by_contra hc
  have := Nat.div_pos (Nat.le_of_not_lt hc) (Nat.two_pow_pos 2098)
  omega

theorem representable_zero : representable 0 = true := by decide

theorem valid_neg (a : Double) (ha : valid a = true) : valid (neg a) = true := by
  cases a with
  | finite s n => exact ha
  | inf s => rfl
  | nan => rfl

theorem valid_abs (a : Double) (ha : valid a = true) : valid (abs a) = true := by
  cases a with
  | finite s n => exact ha
  | inf s => rfl
  | nan => rfl

theorem pow_2099_lt : (2 : Nat) ^ 2099 < 2 ^ 8192 :=
  Nat.pow_lt_pow_right (by decide) (by decide)

theorem valid_add (a b : Double) (ha : valid a = true) (hb : valid b = true) :
    valid (add a b) = true := by
  cases a with
  | nan => cases b <;> rfl
  | inf s => cases b <;> simp only [add] <;> (try split) <;> rfl
  | finite s n =>
    cases b with
    | nan => rfl
    | inf t => rfl
    | finite t k =>
      have hn := representable_lt n ha
      have hk := representable_lt k hb
      have h2 : (2 : Nat) ^ 2099 = 2 ^ 2098 + 2 ^ 2098 := by rw [pow_succ]; omega
      have hlt := pow_2099_lt
      simp only [add]
      split
      · exact round_valid _ _ _ (by decide) (by rw [Nat.div_one]; omega)
      · split
        · exact representable_zero
        · split
          · exact round_valid _ _ _ (by decide) (by rw [Nat.div_one]; omega)
          · exact round_valid _ _ _ (by decide) (by rw [Nat.div_one]; omega)

theorem valid_sub (a b : Double) (ha : valid a = true) (hb : valid b = true) :
    valid (sub a b) = true :=
  valid_add a (neg b) ha (valid_neg b hb)

theorem valid_mul (a b : Double) (ha : valid a = true) (hb : valid b = true) :
    valid (mul a b) = true := by
  cases a with
  | nan => cases b <;> rfl
  | inf s => cases b <;> simp only [mul] <;> (try split) <;> rfl
  | finite s n =>
    cases b with
    | nan => rfl
    | inf t => simp only [mul]; split <;> rfl
    | finite t k =>
      have hn := representable_lt n ha
      have hk := representable_lt k hb
      simp only [mul]
      apply round_valid
      · rw [Nat.one_shiftLeft]; exact Nat.two_pow_pos _
      · apply Nat.lt_of_le_of_lt (Nat.div_le_self _ _)
        have h1 : n * k < 2 ^ 2098 * 2 ^ 2098 := by
          rcases Nat.eq_zero_or_pos k with h0 | h0
          · rw [h0, Nat.mul_zero]; exact Nat.mul_pos (Nat.two_pow_pos _) (Nat.two_pow_pos _)
          · exact Nat.lt_of_lt_of_le (Nat.mul_lt_mul_of_pos_right hn h0)
              (Nat.mul_le_mul_left _ (Nat.le_of_lt hk))
        rw [← pow_add] at h1
        exact Nat.lt_trans h1 (Nat.pow_lt_pow_right (by decide) (by decide))

theorem valid_div (a b : Double) (ha : valid a = true) (hb : valid b = true) :
    valid (div a b) = true := by
  cases a with
  | nan => cases b <;> rfl
  | inf s => cases b <;> rfl
  | finite s n =>
    cases b with
    | nan => rfl
    | inf t => exact representable_zero
    | finite t k =>
      have hn := representable_lt n ha
      simp only [div]
      split
      · split <;> rfl
      · rename_i hk
        apply round_valid _ _ _ (Nat.pos_of_ne_zero hk)
        apply Nat.lt_of_le_of_lt (Nat.div_le_self _ _)
        rw [Nat.shiftLeft_eq]
        have h1 : n * 2 ^ 1074 < 2 ^ 2098 * 2 ^ 1074 :=
          Nat.mul_lt_mul_of_pos_right hn (Nat.two_pow_pos _)
        rw [← pow_add] at h1
        exact Nat.lt_trans h1 (Nat.pow_lt_pow_right (by decide) (by decide))

/-- Multiplication by 1.0 is exact. -/
theorem mul_one_exact (x : Double) (hv : valid x = true) : x * 1 = x := by
  rw [double_mul_def, double_one_def]
  cases x with
  | nan => rfl
  | inf s =>
    have h1 : ¬ ((1 : Nat) <<< 1074 = 0) := by
      rw [Nat.one_shiftLeft]; exact Nat.pos_iff_ne_zero.mp (Nat.two_pow_pos _)
    simp [mul, h1]
  | finite s n =>
    have hr : representable n = true := hv
    unfold representable at hr
    simp only [decide_eq_true_eq] at hr
    obtain ⟨hdiv, hlt⟩ := hr
    have hq : 0 < (1 : Nat) <<< 1074 := by rw [Nat.one_shiftLeft]; exact Nat.two_pow_pos _
    have hx : n * 1 <<< 1074 / 1 <<< 1074 = n := Nat.mul_div_cancel _ hq
    have hdvd : (1 <<< 1074) <<< (ilog2 n - 52) ∣ n * 1 <<< 1074 := by
      rw [Nat.shiftLeft_eq (1 <<< 1074), Nat.mul_comm n]
      apply Nat.mul_dvd_mul_left
      rw [Nat.one_shiftLeft] at hdiv
      exact Nat.dvd_of_mod_eq_zero hdiv
    have hmod : (n * 1 <<< 1074) % ((1 <<< 1074) <<< (ilog2 n - 52)) = 0 :=
      Nat.mod_eq_zero_of_dvd hdvd
    have hd : ¬ ((1 <<< 1074) <<< (ilog2 n - 52) = 0) := by
      rw [Nat.shiftLeft_eq]
      exact Nat.pos_iff_ne_zero.mp (Nat.mul_pos hq (Nat.two_pow_pos _))
    have hm : (n * 1 <<< 1074 / (1 <<< 1074) <<< (ilog2 n - 52)) <<< (ilog2 n - 52) = n := by
      rw [Nat.shiftLeft_eq (1 <<< 1074), ← Nat.div_div_eq_div_mul, hx, Nat.shiftLeft_eq]
      rw [Nat.one_shiftLeft] at hdiv
      exact Nat.div_mul_cancel (Nat.dvd_of_mod_eq_zero hdiv)
    simp only [mul, round, hx, hmod, Nat.mul_zero, Nat.not_lt_zero, false_or, hd, false_and,
      if_false, hm, hlt, if_true, Bool.xor_false]

/-- A finite number times a zero is a zero. -/
theorem mul_zero_finite (s t : Bool) (n : Nat) :
    finite s n * finite t 0 = finite (xor s t) 0 := by
  rw [double_mul_def]
  simp only [mul, Nat.mul_zero]
  exact round_zero _ _ (by rw [Nat.one_shiftLeft]; exact Nat.two_pow_pos _)

/-- Adding a zero to a number a `double` can hold gives a value that compares equal to it. -/
theorem add_zero_eq (s t : Bool) (n : Nat) (hv : representable n = true) :
    eq (finite s n + finite t 0) (finite s n) = true := by
  rw [double_add_def]
  simp only [add]
  split
  · rw [Nat.add_zero, round_id s n hv]; simp [eq]
  · split
    · rename_i h0; simp [eq, h0]
    · rename_i h0
      have hpos : 0 < n := Nat.pos_of_ne_zero h0
      rw [if_pos hpos, Nat.sub_zero, round_id s n hv]; simp [eq]

theorem isFinite_of_sub (a b : Double) (h : isFinite (a - b) = true) : isFinite b = true := by
  rw [double_sub_def] at h
  cases b with
  | finite t k => rfl
  | inf t => cases a <;> simp only [neg, add] at h <;> (try split at h) <;> simp [isFinite] at h
  | nan => cases a <;> simp [neg, add, isFinite] at h

theorem eq_zero_cases (g : Double) (h : eq g 0 = true) : ∃ t, g = finite t 0 := by
  rw [double_zero_def] at h
  cases g with
  | nan => simp [eq] at h
  | inf s => simp [eq] at h
  | finite s n =>
    simp only [eq, decide_eq_true_eq] at h
    have hn : n = 0 := by rcases h with h | h; exact h.2; exact h.1
    exact ⟨s, by rw [hn]⟩

/-- With a gain that compares equal to 0, p + x * g compares equal to p, for a finite `x`. -/
theorem add_mul_zero_eq (p x g : Double) (hg : eq g 0 = true) (hx : isFinite x = true)
    (hp : isFinite p = true) (hv : valid p = true) : eq (p + x * g) p = true := by
  obtain ⟨t, rfl⟩ := eq_zero_cases g hg
  cases x with
  | nan => simp [isFinite] at hx
  | inf s => simp [isFinite] at hx
  | finite s n =>
    cases p with
    | nan => simp [isFinite] at hp
    | inf u => simp [isFinite] at hp
    | finite u k =>
      rw [mul_zero_finite]
      exact add_zero_eq u _ k hv

theorem double_le_of_not_lt (a b : Double) (ha : isNaN a = false) (hb : isNaN b = false)
    (h : lt a b = false) : le b a = true := by
  cases a with
  | nan => simp [isNaN] at ha
  | inf s =>
    cases b with
    | nan => simp [isNaN] at hb
    | inf t => cases s <;> cases t <;> simp_all [lt, le]
    | finite t k => cases s <;> simp_all [lt, le]
  | finite s n =>
    cases b with
    | nan => simp [isNaN] at hb
    | inf t => cases t <;> simp_all [lt, le]
    | finite t k =>
      cases s <;> cases t <;> simp only [lt, le, decide_eq_false_iff_not, decide_eq_true_eq] at * <;>
        omega

theorem not_lt_zero_of_one_lt (g : Double) (h : lt 1 g = true) : lt g 0 = false := by
  rw [double_zero_def]
  rw [double_one_def] at h
  cases g with
  | nan => simp [lt] at h
  | inf s => cases s <;> simp_all [lt]
  | finite s n => cases s <;> simp_all [lt]

theorem double_zero_le_one : le (0 : Double) 1 = true := by decide

theorem double_zero_le_zero : le (0 : Double) 0 = true := by decide

theorem double_one_le_one : le (1 : Double) 1 = true := by decide

end Double

/-! ## Lemmas on the camera over `double` -/

namespace Binary64

/-- The clamp to [0, 1], case by case: 0 below 0, 1 above 1, the argument itself otherwise (and
so NaN for NaN, which is neither below 0 nor above 1). -/
theorem clamp_unit_cases (g : Double) :
    math.clamp g 0 1 = (if g < 0 then 0 else if 1 < g then 1 else g) := by
  unfold math.clamp std.max std.min
  by_cases h1 : (1 : Double) < g
  · have h0 : ¬ (g < 0) := by
      rw [Double.double_lt_def, Double.not_lt_zero_of_one_lt g h1]; decide
    have h10 : ¬ ((1 : Double) < 0) := by decide
    rw [if_pos h1, if_neg h10, if_neg h0]
  · rw [if_neg h1]

/-- The clamp of a value that is not NaN lies between 0 and 1. -/
theorem clamp_unit_range (g : Double) (hg : Double.isNaN g = false) :
    0 ≤ math.clamp g 0 1 ∧ math.clamp g 0 1 ≤ 1 := by
  rw [clamp_unit_cases]
  by_cases h0 : g < 0
  · rw [if_pos h0]; exact ⟨Double.double_zero_le_zero, Double.double_zero_le_one⟩
  · rw [if_neg h0]
    by_cases h1 : (1 : Double) < g
    · rw [if_pos h1]; exact ⟨Double.double_zero_le_one, Double.double_one_le_one⟩
    · rw [if_neg h1]
      rw [Double.double_lt_def, Bool.not_eq_true] at h0 h1
      exact ⟨Double.double_le_of_not_lt g 0 hg rfl h0, Double.double_le_of_not_lt 1 g rfl hg h1⟩

namespace BaseCamera

theorem follow_keeps_gains (env : Nat → Pose3d Double) (c : Camera Double) :
    (PreRender_follow env c).followPGain = c.followPGain ∧
    (PreRender_follow env c).trackPGain = c.trackPGain := by
  unfold PreRender_follow
  cases c.followNode with
  | none => exact ⟨rfl, rfl⟩
  | some n =>
    simp only
    split <;> exact ⟨rfl, rfl⟩

theorem track_keeps_gains_and_position (M : ExternalMath Double) (env : Nat → Pose3d Double)
    (c : Camera Double) :
    (PreRender_track M env c).followPGain = c.followPGain ∧
    (PreRender_track M env c).trackPGain = c.trackPGain ∧
    (PreRender_track M env c).worldPosition = c.worldPosition := by
  unfold PreRender_track
  cases c.trackNode with
  | none => exact ⟨rfl, rfl, rfl⟩
  | some n => exact ⟨rfl, rfl, rfl⟩

theorem step_gains_in_range (M : ExternalMath Double) (c : Camera Double) (op : CameraOp Double)
    (hop : CameraOp.gainIsNumber op = true) (h : GainsInRange c) : GainsInRange (step M c op) := by
  cases op with
  | SetTrackPGain g =>
    have hg : Double.isNaN g = false := by simpa [CameraOp.gainIsNumber] using hop
    exact ⟨h.1, h.2.1, (clamp_unit_range g hg).1, (clamp_unit_range g hg).2⟩
  | SetFollowPGain g =>
    have hg : Double.isNaN g = false := by simpa [CameraOp.gainIsNumber] using hop
    exact ⟨(clamp_unit_range g hg).1, (clamp_unit_range g hg).2, h.2.2.1, h.2.2.2⟩
  | PreRender env =>
    have h1 := follow_keeps_gains env c
    have h2 := track_keeps_gains_and_position M env (PreRender_follow env c)
    unfold GainsInRange step PreRender
    rw [h2.1, h2.2.1, h1.1, h1.2]
    exact h
  | _ => exact h

theorem run_gains_in_range (M : ExternalMath Double) :
    ∀ (ops : List (CameraOp Double)) (c : Camera Double),
      ops.all CameraOp.gainIsNumber = true → GainsInRange c → GainsInRange (run M ops c) := by
  intro ops
  induction ops with
  | nil => intro c _ h; exact h
  | cons op ops ih =>
    intro c hops h
    rw [List.all_cons, Bool.and_eq_true] at hops
    exact ih _ hops.2 (step_gains_in_range M c op hops.1 h)

/-- In world frame the follow update of `PreRender()` stores, in each coordinate, the rounded
value of p + ((t + o) - p) * g. -/
theorem follow_world_frame_formula (M : ExternalMath Double) (env : Nat → Pose3d Double)
    (c : Camera Double) (n : NodeRef) (hn : c.followNode = some n)
    (hw : c.followWorldFrame = true) (i : Fin 3) :
    (PreRender M env c).worldPosition i =
      c.worldPosition i +
        (((nodeWorldPose env c n).Pos i + c.followOffset i) - c.worldPosition i) *
          c.followPGain := by
  unfold PreRender
  rw [(track_keeps_gains_and_position M env _).2.2]
  unfold PreRender_follow
  rw [hn]
  simp only [hw, if_true, SetWorldPosition, WorldPosition]
  rfl

end BaseCamera

end Binary64

/-- C14: for every value `g` of type `double`, after `SetFollowPGain(g)` the getter
`FollowPGain()` returns 0 when g < 0, 1 when 1 < g and `g` itself otherwise, which is
min(max(g, 0), 1) for every `g` that is not NaN (and NaN for NaN); likewise
`SetTrackPGain`/`TrackPGain`.  Both gains are 1 in a newly constructed camera, and in every
camera state reached from it by setters, pose changes and `PreRender()` calls in which no gain
setter is called with NaN, both stored gains lie between 0 and 1. -/
theorem C14_gains_clamped_unless_NaN (M : ExternalMath Double) (c : Camera Double) (g : Double)
    (position : Vector3d Double) (rotation : Quaterniond Double)
    (ops : List (CameraOp Double)) (hops : ops.all CameraOp.gainIsNumber = true) :
    Binary64.BaseCamera.FollowPGain (Binary64.BaseCamera.SetFollowPGain c g) =
      (if g < 0 then 0 else if 1 < g then 1 else g) ∧
    Binary64.BaseCamera.TrackPGain (Binary64.BaseCamera.SetTrackPGain c g) =
      (if g < 0 then 0 else if 1 < g then 1 else g) ∧
    Binary64.BaseCamera.FollowPGain (Binary64.BaseCamera.BaseCamera position rotation) = 1 ∧
    Binary64.BaseCamera.TrackPGain (Binary64.BaseCamera.BaseCamera position rotation) = 1 ∧
    0 ≤ Binary64.BaseCamera.FollowPGain
      (Binary64.BaseCamera.run M ops (Binary64.BaseCamera.BaseCamera position rotation)) ∧
    Binary64.BaseCamera.FollowPGain
      (Binary64.BaseCamera.run M ops (Binary64.BaseCamera.BaseCamera position rotation)) ≤ 1 ∧
    0 ≤ Binary64.BaseCamera.TrackPGain
      (Binary64.BaseCamera.run M ops (Binary64.BaseCamera.BaseCamera position rotation)) ∧
    Binary64.BaseCamera.TrackPGain
      (Binary64.BaseCamera.run M ops (Binary64.BaseCamera.BaseCamera position rotation)) ≤ 1 := by
  have h0 : Binary64.GainsInRange (Binary64.BaseCamera.BaseCamera position rotation) :=
    ⟨Double.double_zero_le_one, Double.double_one_le_one, Double.double_zero_le_one, Double.double_one_le_one⟩
  have h := Binary64.BaseCamera.run_gains_in_range M ops _ hops h0
  exact ⟨Binary64.clamp_unit_cases g, Binary64.clamp_unit_cases g, rfl, rfl,
    h.1, h.2.1, h.2.2.1, h.2.2.2⟩

/-- Witness of C14: gains 2.5 and -3 are set, a frame is rendered and the follow gain is set to
0.25; the setter turns 2.5 into 1, and at the end the follow gain is 0.25 and the track gain
is 0, both between 0 and 1. -/
theorem C14_witness :
    gainSession.all CameraOp.gainIsNumber = true ∧
    Binary64.BaseCamera.FollowPGain
      (Binary64.BaseCamera.SetFollowPGain farCamera (Double.ofRat false 5 2)) = 1 ∧
    Binary64.BaseCamera.FollowPGain (Binary64.BaseCamera.run binary64Math gainSession
      (Binary64.BaseCamera.BaseCamera 0 Binary64.Quaterniond.Identity)) = Double.ofRat false 1 4 ∧
    Binary64.BaseCamera.TrackPGain (Binary64.BaseCamera.run binary64Math gainSession
      (Binary64.BaseCamera.BaseCamera 0 Binary64.Quaterniond.Identity)) = 0 ∧
    0 ≤ Binary64.BaseCamera.FollowPGain (Binary64.BaseCamera.run binary64Math gainSession
      (Binary64.BaseCamera.BaseCamera 0 Binary64.Quaterniond.Identity)) ∧
    Binary64.BaseCamera.FollowPGain (Binary64.BaseCamera.run binary64Math gainSession
      (Binary64.BaseCamera.BaseCamera 0 Binary64.Quaterniond.Identity)) ≤ 1 := by
  have h := C14_gains_clamped_unless_NaN binary64Math farCamera (Double.ofRat false 5 2) 0
    Binary64.Quaterniond.Identity gainSession (by decide)
  exact ⟨by decide, by decide, by decide, by decide, h.2.2.2.2.1, h.2.2.2.2.2.1⟩

/-- Counterexample to C14 as stated: `SetFollowPGain` called with NaN on a newly constructed
camera stores NaN, since `std::min` and `std::max` return their first argument when a
comparison with NaN is false; the stored follow gain is then neither at least 0 nor at most 1.
The same holds for `SetTrackPGain`. -/
theorem C14_counterexample_NaN_gain :
    Binary64.BaseCamera.FollowPGain (Binary64.BaseCamera.run binary64Math
      [CameraOp.SetFollowPGain Double.nan]
      (Binary64.BaseCamera.BaseCamera 0 Binary64.Quaterniond.Identity)) = Double.nan ∧
    ¬ (0 ≤ Binary64.BaseCamera.FollowPGain (Binary64.BaseCamera.run binary64Math
      [CameraOp.SetFollowPGain Double.nan]
      (Binary64.BaseCamera.BaseCamera 0 Binary64.Quaterniond.Identity))) ∧
    ¬ (Binary64.BaseCamera.FollowPGain (Binary64.BaseCamera.run binary64Math
      [CameraOp.SetFollowPGain Double.nan]
      (Binary64.BaseCamera.BaseCamera 0 Binary64.Quaterniond.Identity)) ≤ 1) ∧
    Binary64.BaseCamera.TrackPGain (Binary64.BaseCamera.run binary64Math
      [CameraOp.SetTrackPGain Double.nan]
      (Binary64.BaseCamera.BaseCamera 0 Binary64.Quaterniond.Identity)) = Double.nan := by
  decide

/-- C15: when a follow target is set in world frame, one `PreRender()` sets each coordinate of
the camera world position to the value of p + ((t + o) - p) * g in `double` arithmetic, each of
the three operations rounded to nearest, with p the position before, t the world position of
the followed node, o the follow offset and g the stored follow gain.  In `double` arithmetic:
with a gain that compares equal to 0 the new coordinate compares equal to p whenever
(t + o) - p is finite; with g = 1 the product is exact and the new coordinate is the rounded
sum p + ((t + o) - p).  In exact arithmetic (the same code over an ordered field) the new
position is p + g*((t + o) - p), which is t + o for g = 1, the midpoint of p and t + o for
g = 1/2, and p for g = 0. -/
theorem C15_follow_world_frame_rounded {K : Type} [LinearOrderedField K]
    (M : ExternalMath Double) (env : Nat → Pose3d Double) (c : Camera Double) (n : NodeRef)
    (hn : c.followNode = some n) (hw : c.followWorldFrame = true)
    (MK : ExternalMath K) (envK : Nat → Pose3d K) (cK : Camera K) (nK : NodeRef)
    (hnK : cK.followNode = some nK) (hwK : cK.followWorldFrame = true) :
    (∀ i, (Binary64.BaseCamera.PreRender M env c).worldPosition i =
      c.worldPosition i +
        (((Binary64.BaseCamera.nodeWorldPose env c n).Pos i + c.followOffset i) -
          c.worldPosition i) * c.followPGain) ∧
    (∀ i, Double.eq c.followPGain 0 = true →
      Double.isFinite (((Binary64.BaseCamera.nodeWorldPose env c n).Pos i + c.followOffset i) -
        c.worldPosition i) = true →
      Double.valid (c.worldPosition i) = true →
      Double.eq ((Binary64.BaseCamera.PreRender M env c).worldPosition i)
        (c.worldPosition i) = true) ∧
    (∀ i, c.followPGain = 1 →
      Double.valid ((Binary64.BaseCamera.nodeWorldPose env c n).Pos i) = true →
      Double.valid (c.followOffset i) = true → Double.valid (c.worldPosition i) = true →
      (Binary64.BaseCamera.PreRender M env c).worldPosition i =
        c.worldPosition i +
          (((Binary64.BaseCamera.nodeWorldPose env c n).Pos i + c.followOffset i) -
            c.worldPosition i)) ∧
    (BaseCamera.PreRender MK envK cK).worldPosition =
      cK.worldPosition + cK.followPGain •
        (((BaseCamera.nodeWorldPose envK cK nK).Pos + cK.followOffset) - cK.worldPosition) ∧
    (cK.followPGain = 1 → (BaseCamera.PreRender MK envK cK).worldPosition =
      (BaseCamera.nodeWorldPose envK cK nK).Pos + cK.followOffset) ∧
    (cK.followPGain = 1 / 2 → (BaseCamera.PreRender MK envK cK).worldPosition =
      (1 / 2 : K) • (cK.worldPosition +
        ((BaseCamera.nodeWorldPose envK cK nK).Pos + cK.followOffset))) ∧
    (cK.followPGain = 0 → (BaseCamera.PreRender MK envK cK).worldPosition = cK.worldPosition) := by
  refine ⟨fun i => Binary64.BaseCamera.follow_world_frame_formula M env c n hn hw i, ?_, ?_,
    follow_world_frame_exact MK envK cK nK hnK hwK⟩
  · intro i hg hx hv
    rw [Binary64.BaseCamera.follow_world_frame_formula M env c n hn hw i]
    exact Double.add_mul_zero_eq _ _ _ hg hx (Double.isFinite_of_sub _ _ hx) hv
  · intro i hg ht ho hp
    rw [Binary64.BaseCamera.follow_world_frame_formula M env c n hn hw i, hg]
    have hx : Double.valid (((Binary64.BaseCamera.nodeWorldPose env c n).Pos i +
        c.followOffset i) - c.worldPosition i) = true :=
      Double.valid_sub _ _ (Double.valid_add _ _ ht ho) hp
    rw [Double.mul_one_exact _ hx]

/-- Witness of C15: over `double`, the camera at (3, 2, 1) follows a node at (1, 0, 0) with
offset (0, 0, 0) and gain 1, and one `PreRender()` sets its first coordinate to
3 + ((1 + 0) - 3), which is 1; in exact arithmetic the camera at (1, 2, 3) follows a node at
(5, 0, 0) with offset (0, 0, 1) and gain one half, and one `PreRender()` moves it to the
midpoint (3, 1, 2). -/
theorem C15_witness :
    nearCamera.followNode = some (NodeRef.other 1) ∧
    nearCamera.followWorldFrame = true ∧
    followingCamera.followNode = some (NodeRef.other 1) ∧
    followingCamera.followWorldFrame = true ∧
    (Binary64.BaseCamera.PreRender binary64Math unitXEnv nearCamera).worldPosition 0 =
      Double.ofRat false 3 1 + (((1 : Double) + 0) - Double.ofRat false 3 1) ∧
    Double.ofRat false 3 1 + (((1 : Double) + 0) - Double.ofRat false 3 1) = 1 ∧
    (BaseCamera.PreRender rationalMath halfTurnEnv followingCamera).worldPosition = ![3, 1, 2] := by
  have h := C15_follow_world_frame_rounded binary64Math unitXEnv nearCamera (NodeRef.other 1)
    rfl rfl rationalMath halfTurnEnv followingCamera (NodeRef.other 1) rfl rfl
  have hg : followingCamera.followPGain = 1 / 2 := by
    norm_num [followingCamera, BaseCamera.SetFollowPGain, math.clamp]
  refine ⟨rfl, rfl, rfl, rfl, ?_, by decide, ?_⟩
  · exact h.2.2.1 0 rfl (by decide) (by decide) (by decide)
  · rw [h.2.2.2.2.2.1 hg]
    ext i
    fin_cases i <;>
      norm_num [followingCamera, halfTurnEnv, BaseCamera.SetFollowPGain,
        BaseCamera.SetFollowTarget, BaseCamera.BaseCamera, BaseCamera.nodeWorldPose]

/-- Counterexample to C15 as stated: the camera at (1e16, 0, 0) follows, in world frame with
offset (0, 0, 0) and gain 1, a node at (1, 0, 0).  The claimed new first coordinate is
t + o = 1; `PreRender()` computes 1e16 + ((1 + 0) - 1e16) * 1, where the difference rounds to
-1e16, and stores 0.  With gain one half, a camera at (DBL_MAX, 0, 0) that follows a node at
(-DBL_MAX, 0, 0) is not moved to the midpoint 0: the difference overflows and the stored
coordinate is minus infinity. -/
theorem C15_counterexample_rounding :
    farCamera.followNode = some (NodeRef.other 1) ∧
    farCamera.followWorldFrame = true ∧
    farCamera.followPGain = 1 ∧
    Double.valid (farCamera.worldPosition 0) = true ∧
    (Binary64.BaseCamera.nodeWorldPose unitXEnv farCamera (NodeRef.other 1)).Pos 0 +
      farCamera.followOffset 0 = 1 ∧
    (Binary64.BaseCamera.PreRender binary64Math unitXEnv farCamera).worldPosition 0 = 0 ∧
    Double.eq 0 1 = false ∧
    farRightCamera.followNode = some (NodeRef.other 1) ∧
    farRightCamera.followWorldFrame = true ∧
    farRightCamera.followPGain = Double.ofRat false 1 2 ∧
    Double.valid (farRightCamera.worldPosition 0) = true ∧
    (Binary64.BaseCamera.nodeWorldPose farLeftEnv farRightCamera (NodeRef.other 1)).Pos 0 +
      farRightCamera.followOffset 0 = -Double.maxFinite ∧
    (Binary64.BaseCamera.PreRender binary64Math farLeftEnv farRightCamera).worldPosition 0 =
      Double.inf true := by
  decide
